import Mathlib

/-! Minecraft Overviewer: block classifier, underground resolver and face renderer.

A shallow embedding of `block_class.c`, of the wall section of `mc_id.h` and of
`primitives/smooth-lighting-hide-underground.c`, with the properties of the
specification stated and proved over it.

Conventions of the embedding.
* `mc_block_t` (`uint16_t`) values are natural numbers.
* A C array is a list; the read `a[i]` is `a[i]?`, so a read past the end of the
  list compares equal to nothing.
* `size_t` and `int32_t` counters are `Nat` and `Int`; none of the loops below can
  overflow its counter.
* A `for` loop is a function recursive on a fuel argument that still tests the
  loop condition of the source at every step; lemmas named `*_exit` show that the
  fuel given by the caller is never what ends the loop.
-/

namespace Overviewer

/-! ## block_class.c -/

/-- The type `mc_block_t` of `mc_id.h` (a `uint16_t`). -/
abbrev mc_block_t := Nat

/-- One vector compare of width `w` at index `i`: `_mm_cmpeq_epi16` followed by
`_mm_movemask_epi8` (8 lanes), or `_mm_cmpeq_pi16` followed by `_mm_cvtm64_si64`
(4 lanes). The result is nonzero exactly when some 16-bit lane `block_class[i+k]`,
`k < w`, equals `block`. -/
def lanes_hit (block : mc_block_t) (block_class : List mc_block_t) (i w : Nat) : Bool :=
  (List.range w).any (fun k => block_class[i + k]? == some block)

/-- The loop `for (; i / w < block_class_len / w; i += w)` of both vector phases.
Returns whether the function returned `true` from inside the loop, and the value
of `i` when the loop was left. -/
def vector_phase (w : Nat) (block : mc_block_t) (block_class : List mc_block_t)
    (block_class_len : Nat) : Nat → Nat → Bool × Nat
  | 0, i => (false, i)
  | fuel + 1, i =>
    if i / w < block_class_len / w then
      if lanes_hit block block_class i w then (true, i)
      else vector_phase w block block_class block_class_len fuel (i + w)
    else (false, i)

/-- The scalar loop `for (; i < block_class_len; ++i)` with its `return true`, and
the final `return false`. -/
def scalar_phase (block : mc_block_t) (block_class : List mc_block_t)
    (block_class_len : Nat) : Nat → Nat → Bool
  | 0, _ => false
  | fuel + 1, i =>
    if i < block_class_len then
      if block_class[i]? == some block then true
      else scalar_phase block block_class block_class_len fuel (i + 1)
    else false

/-- The function `block_class_is_subset`. The flags `sse2` and `mmx` say whether
`__SSE2__` and `__MMX__` are defined, that is which vector loops are compiled in. -/
def block_class_is_subset (sse2 mmx : Bool) (block : mc_block_t)
    (block_class : List mc_block_t) (block_class_len : Nat) : Bool :=
  let p1 := if sse2 then vector_phase 8 block block_class block_class_len block_class_len 0
            else (false, 0)
  if p1.1 then true
  else
    let p2 := if mmx then vector_phase 4 block block_class block_class_len block_class_len p1.2
              else (false, p1.2)
    if p2.1 then true
    else scalar_phase block block_class block_class_len block_class_len p2.2

/-- The operand `~mask` after integer promotion: the 32-bit pattern of `~m`. -/
def int_not (m : Nat) : Nat := 2 ^ 32 - 1 - m

/-- The function `block_class_is_wall`; the local `prefix` of the source is
called `wall_pfx` here. -/
def block_class_is_wall (block : mc_block_t) : Bool :=
  let mask : mc_block_t := 0b11111111
  let wall_pfx : mc_block_t := 0b111 <<< 8
  ((block &&& int_not mask) ^^^ wall_pfx) == 0

/-! ## mc_id.h: the wall section of `enum mc_block_id` -/

def block_andesite_wall : mc_block_t := 661
def block_brick_wall : mc_block_t := 654
def block_cobblestone_wall : mc_block_t := 279
def block_diorite_wall : mc_block_t := 665
def block_end_stone_brick_wall : mc_block_t := 664
def block_granite_wall : mc_block_t := 658
def block_mossy_cobblestone_wall : mc_block_t := 280
def block_mossy_stone_brick_wall : mc_block_t := 657
def block_nether_brick_wall : mc_block_t := 660
def block_prismarine_wall : mc_block_t := 655
def block_red_nether_brick_wall : mc_block_t := 662
def block_red_sandstone_wall : mc_block_t := 656
def block_sandstone_wall : mc_block_t := 663
def block_stone_brick_wall : mc_block_t := 659

/-- The wall enumerators of `mc_id.h`, in the order of the header. -/
def wall_blocks : List mc_block_t :=
  [block_andesite_wall, block_brick_wall, block_cobblestone_wall, block_diorite_wall,
   block_end_stone_brick_wall, block_granite_wall, block_mossy_cobblestone_wall,
   block_mossy_stone_brick_wall, block_nether_brick_wall, block_prismarine_wall,
   block_red_nether_brick_wall, block_red_sandstone_wall, block_sandstone_wall,
   block_stone_brick_wall]

/-! ## primitives/smooth-lighting-hide-underground.c: the resolver

The header `overviewer.h` is not among the verified sources. What the resolver
uses from it is kept abstract: the lookups `get_data` and `is_transparent` are
parameters (`Externals`), and of the structures only the fields that the code
reads are declared. -/

/-- The enumeration `DataType` of `overviewer.h`; the two values that the code
names. -/
inductive DataType where
  | BLOCKS
  | SKYLIGHT
  deriving DecidableEq, Repr

/-- Modelled from the spec: the constant `SECTIONS_PER_CHUNK` of `overviewer.h`,
missing from the sources; the data model gives every chunk "a 16-deep stack of
Sections". -/
def SECTIONS_PER_CHUNK : Int := 16

/-- One entry of `state->chunks`: the flag `loaded`, and for every index `i`
whether `sections[i].blocks` is not `NULL`. -/
structure ChunkData where
  loaded : Bool
  has_blocks : Int → Bool

/-- The fields of `RenderState` read by this primitive. `blocks x y z` is
`getArrayShort3D(state->blocks, x, y, z)`, the block array of the current
section. -/
structure RenderState where
  x : Int
  y : Int
  z : Int
  imgx : Int
  imgy : Int
  chunky : Int
  chunks : Nat → Nat → ChunkData
  blocks : Int → Int → Int → Nat
  block : mc_block_t
  block_pdata : Nat

/-- The two lookups of `overviewer.h` called by the resolver: `get_data(state,
type, x, y, z)` with `int32_t` coordinates and an unsigned result, and the macro
`is_transparent(b)`. -/
structure Externals where
  get_data : RenderState → DataType → Int → Int → Int → Nat
  is_transparent : Nat → Bool

/-- Conversion of an integer to `uint32_t`. -/
def to_uint32 (i : Int) : Int := i % 4294967296

/-- Conversion of an integer to `int32_t` (two's complement). -/
def to_int32 (i : Int) : Int := (i + 2147483648) % 4294967296 - 2147483648

/-- The function `touches_light`; `x`, `y`, `z` are its `uint32_t` parameters, so
`x - 1` and `z - 1` wrap around before they are given to `get_data`. -/
def touches_light (E : Externals) (state : RenderState) (type : DataType) (x y z : Int) : Bool :=
  if E.get_data state type (to_int32 x) (to_int32 (to_uint32 (y + 1))) (to_int32 z) ≠ 0 then true
  else if E.get_data state type (to_int32 (to_uint32 (x + 1))) (to_int32 y) (to_int32 z) ≠ 0 then true
  else if E.get_data state type (to_int32 (to_uint32 (x - 1))) (to_int32 y) (to_int32 z) ≠ 0 then true
  else if E.get_data state type (to_int32 x) (to_int32 y) (to_int32 (to_uint32 (z + 1))) ≠ 0 then true
  else if E.get_data state type (to_int32 x) (to_int32 y) (to_int32 (to_uint32 (z - 1))) ≠ 0 then true
  else false

/-- The loop `for(dy = 0; dy < 5; dy++) if(get_data(state, BLOCKS, x, dy, z)) valid = true;`
run on a flag that was just set to `false`; the value of the flag after the loop. -/
def boundary_scan (E : Externals) (state : RenderState) (x z : Int) : Bool :=
  (List.range 5).foldl
    (fun valid dy => if E.get_data state DataType.BLOCKS x (dy : Int) z ≠ 0 then true else valid)
    false

/-- The test `!(chunks[i][j].loaded) || chunks[i][j].sections[chunky].blocks == NULL`. -/
def no_section (state : RenderState) (i j : Nat) : Bool :=
  !(state.chunks i j).loaded || !(state.chunks i j).has_blocks state.chunky

/-- Value of the local `validMinusX` after the section-boundary handling. -/
def validMinusX (E : Externals) (state : RenderState) (x z : Int) : Bool :=
  if x = 0 ∧ no_section state 0 1 = true then boundary_scan E state (x - 1) z else true

/-- Value of the local `validPlusX` after the section-boundary handling. -/
def validPlusX (E : Externals) (state : RenderState) (x z : Int) : Bool :=
  if x = 15 ∧ no_section state 2 1 = true then boundary_scan E state (x + 1) z else true

/-- Value of the local `validMinusY` after the section-boundary handling. -/
def validMinusY (state : RenderState) (y : Int) : Bool :=
  if y = 0 ∧ (state.chunky - 1 < 0 ∨ (state.chunks 1 1).has_blocks (state.chunky - 1) = false)
  then false else true

/-- Value of the local `validPlusY` after the section-boundary handling. -/
def validPlusY (state : RenderState) (y : Int) : Bool :=
  if y = 15 ∧ (state.chunky + 1 ≥ SECTIONS_PER_CHUNK ∨
      (state.chunks 1 1).has_blocks (state.chunky + 1) = false)
  then false else true

/-- Value of the local `validMinusZ` after the section-boundary handling. -/
def validMinusZ (E : Externals) (state : RenderState) (x z : Int) : Bool :=
  if z = 0 ∧ no_section state 1 0 = true then boundary_scan E state x (z - 1) else true

/-- Value of the local `validPlusZ` after the section-boundary handling. -/
def validPlusZ (E : Externals) (state : RenderState) (x z : Int) : Bool :=
  if z = 15 ∧ no_section state 1 2 = true then boundary_scan E state x (z + 1) else true

/-- The expression `is_transparent(get_data(state, BLOCKS, x, y, z))`. -/
def transparent_at (E : Externals) (state : RenderState) (x y z : Int) : Bool :=
  E.is_transparent (E.get_data state DataType.BLOCKS x y z)

/-- The loop `for (dy = y + 1; dy < 255; dy++)` of the special-ID case, started at
`dy`: `some r` when the loop body returns `r`, `none` when the loop is left. -/
def column_scan (E : Externals) (state : RenderState) (x z : Int) : Nat → Int → Option Bool
  | 0, _ => none
  | fuel + 1, dy =>
    if dy < 255 then
      if E.get_data state DataType.SKYLIGHT x dy z ≠ 0 then some false
      else if !transparent_at E state x dy z then some true
      else column_scan E state x z fuel (dy + 1)
    else none

/-- The statement `if(blockID == 8 || blockID == 11) { for ... }`: `some r` when
`underground` returns `r` from inside the loop, `none` when control goes on to the
checks of the invalid directions. The loop runs `254 - y` times at most. -/
def special_scan (E : Externals) (state : RenderState) (x y z : Int) : Option Bool :=
  let blockID := state.blocks x y z
  if blockID = 8 ∨ blockID = 11 then column_scan E state x z (254 - y).toNat (y + 1)
  else none

/-- The condition of the outer `if` of `underground`: some direction still marked
valid has a transparent block. -/
def exposed_valid (E : Externals) (state : RenderState) (x y z : Int) : Bool :=
  (validMinusX E state x z && transparent_at E state (x - 1) y z) ||
  (validPlusX E state x z && transparent_at E state (x + 1) y z) ||
  (validMinusY state y && transparent_at E state x (y - 1) z) ||
  (validPlusY state y && transparent_at E state x (y + 1) z) ||
  (validMinusZ E state x z && transparent_at E state x y (z - 1)) ||
  (validPlusZ E state x z && transparent_at E state x y (z + 1))

/-- The six statements `if(!validD) { if(is_transparent(...)) return 1; }`: whether
one of them returns. -/
def transparent_invalid (E : Externals) (state : RenderState) (x y z : Int) : Bool :=
  (!validMinusX E state x z && transparent_at E state (x - 1) y z) ||
  (!validPlusX E state x z && transparent_at E state (x + 1) y z) ||
  (!validMinusY state y && transparent_at E state x (y - 1) z) ||
  (!validPlusY state y && transparent_at E state x (y + 1) z) ||
  (!validMinusZ E state x z && transparent_at E state x y (z - 1)) ||
  (!validPlusZ E state x z && transparent_at E state x y (z + 1))

/-- The function `underground` (the `hidden` entry of the primitive): `true` is the
C result 1, `false` the result 0. -/
def underground (E : Externals) (state : RenderState) (x y z : Int) : Bool :=
  if exposed_valid E state x y z then
    if touches_light E state DataType.SKYLIGHT (to_uint32 x) (to_uint32 y) (to_uint32 z) then
      match special_scan E state x y z with
      | some r => r
      | none => if transparent_invalid E state x y z then true else false
    else true
  else true

/-! ## Concrete worlds used to instantiate the statements -/

/-- A sample instance of the lookups. Where the chunk holding the column `(x, z)`
is not loaded or has no section at `chunky`, a lookup gives a default (block 0,
sky light 15); elsewhere the block comes from the block array of the state and
the sky light from the map `sky`. Only air (ID 0) is transparent. -/
def sample_externals (sky : Int → Int → Int → Nat) : Externals where
  get_data := fun state type x y z =>
    let i : Nat := if x < 0 then 0 else if x ≥ 16 then 2 else 1
    let j : Nat := if z < 0 then 0 else if z ≥ 16 then 2 else 1
    if no_section state i j then
      match type with
      | DataType.BLOCKS => 0
      | DataType.SKYLIGHT => 15
    else
      match type with
      | DataType.BLOCKS => state.blocks x y z
      | DataType.SKYLIGHT => sky x y z
  is_transparent := fun b => b == 0

/-- A render state at section 3 for the voxel `(x, y, z)` of the block map `blk`;
every neighbour chunk is loaded with all its sections, except the chunk
`chunks[0][1]` on the -X side when `minusX` is `false`. -/
def voxel_state (minusX : Bool) (blk : Int → Int → Int → Nat) (x y z : Int) : RenderState where
  x := x
  y := y
  z := z
  imgx := 0
  imgy := 0
  chunky := 3
  chunks := fun i j =>
    if i = 0 ∧ j = 1 then { loaded := minusX, has_blocks := fun _ => minusX }
    else { loaded := true, has_blocks := fun _ => true }
  blocks := blk
  block := blk x y z
  block_pdata := 0

/-- Stone (ID 1) everywhere. -/
def stone_blocks : Int → Int → Int → Nat := fun _ _ _ => 1

/-- Stone with a single air voxel at (6,5,5). -/
def pocket_blocks : Int → Int → Int → Nat :=
  fun x y z => if x = 6 ∧ y = 5 ∧ z = 5 then 0 else 1

/-- The same with a block of ID 8 at (5,5,5). -/
def grass_blocks : Int → Int → Int → Nat :=
  fun x y z => if x = 5 ∧ y = 5 ∧ z = 5 then 8 else pocket_blocks x y z

/-- Stone up to row 5, air above. -/
def surface_blocks : Int → Int → Int → Nat := fun _ y _ => if y ≥ 6 then 0 else 1

/-- No sky light anywhere. -/
def no_sky : Int → Int → Int → Nat := fun _ _ _ => 0

/-- Sky light 15 in the air voxel at (6,5,5) only. -/
def pocket_sky : Int → Int → Int → Nat :=
  fun x y z => if x = 6 ∧ y = 5 ∧ z = 5 then 15 else 0

/-- Sky light 15 in the air above row 5. -/
def surface_sky : Int → Int → Int → Nat := fun _ y _ => if y ≥ 6 then 15 else 0

/-- A stone voxel at (5,5,5) inside stone, all chunks loaded. -/
def buried_state : RenderState := voxel_state true stone_blocks 5 5 5

/-- A stone voxel at (5,5,5) beside the air pocket, all chunks loaded. -/
def pocket_state : RenderState := voxel_state true pocket_blocks 5 5 5

/-- A voxel of ID 8 at (5,5,5) beside the air pocket, stone above it, all chunks
loaded. -/
def grass_state : RenderState := voxel_state true grass_blocks 5 5 5

/-- A stone voxel at (0,5,5) of the surface, the chunk on its -X side not loaded. -/
def edge_state : RenderState := voxel_state false surface_blocks 0 5 5

/-- A sample instance of the lookups in which a chunk is read on demand: the
block comes from the block map of the state and the sky light from the map `sky`,
whatever the `loaded` flags say. Only air (ID 0) is transparent. -/
def lazy_externals (sky : Int → Int → Int → Nat) : Externals where
  get_data := fun state type x y z =>
    match type with
    | DataType.BLOCKS => state.blocks x y z
    | DataType.SKYLIGHT => sky x y z
  is_transparent := fun b => b == 0

/-- Stone with a single air voxel at (16,5,5), in the column east of the section. -/
def east_blocks : Int → Int → Int → Nat :=
  fun x y z => if x = 16 ∧ y = 5 ∧ z = 5 then 0 else 1

/-- A stone voxel at (15,5,5), on the +X boundary, whose +X chunk `chunks[2][1]`
is not loaded. -/
def east_edge_state : RenderState where
  x := 15
  y := 5
  z := 5
  imgx := 0
  imgy := 0
  chunky := 3
  chunks := fun i j =>
    if i = 2 ∧ j = 1 then { loaded := false, has_blocks := fun _ => false }
    else { loaded := true, has_blocks := fun _ => true }
  blocks := east_blocks
  block := 1
  block_pdata := 0

/-- The surface of `surface_blocks` with a block of ID 8 at (5,5,5). -/
def grass_surface_blocks : Int → Int → Int → Nat :=
  fun x y z => if x = 5 ∧ y = 5 ∧ z = 5 then 8 else surface_blocks x y z

/-- A voxel of ID 8 at (5,5,5) in the top row of the surface, lit air above it,
all chunks loaded. -/
def grass_surface_state : RenderState := voxel_state true grass_surface_blocks 5 5 5

/-- Stone with a two-voxel air tunnel at (6,5,5) and (7,5,5). -/
def tunnel_blocks : Int → Int → Int → Nat :=
  fun x y z => if (x = 6 ∨ x = 7) ∧ y = 5 ∧ z = 5 then 0 else 1

/-- Sky light 15 at the far end (7,5,5) of the tunnel only. -/
def far_sky : Int → Int → Int → Nat :=
  fun x y z => if x = 7 ∧ y = 5 ∧ z = 5 then 15 else 0

/-- A stone voxel at (5,5,5) at the near end of the tunnel, all chunks loaded. -/
def tunnel_state : RenderState := voxel_state true tunnel_blocks 5 5 5

/-! ## mc_id.h: the enumerators named by the face renderer -/

def block_flowing_water : mc_block_t := 26
def block_water : mc_block_t := 26
def block_ice : mc_block_t := 185

/-! ## primitives/smooth-lighting-hide-underground.c: the face renderer

The headers `lighting.h` and `overviewer.h` are not among the verified sources.
The functions `lighting_is_face_occluded` and `get_lighting_color` are parameters
(`LightingExternals`); the calls of `get_lighting_color`, of `draw_triangle` and
of the `draw` entry of `primitive_lighting` are recorded, in order, as a list of
`Call`. The enumerator `block_leaves`, which `mc_id.h` does not declare, is a
parameter as well.

A `float` is modelled by the rational number it denotes and `float` arithmetic by
exact arithmetic. The two agree whenever every operand and result is an integer
below 2^24, which is the case for the strengths 0 and 1. -/

/-- The structure `SmoothLightingCorner`. -/
structure SmoothLightingCorner where
  imgx : Int
  imgy : Int
  dx1 : Int
  dy1 : Int
  dz1 : Int
  dx2 : Int
  dy2 : Int
  dz2 : Int
  deriving DecidableEq, Repr

/-- The structure `SmoothLightingFace`; `touch_up_points` is `none` for `NULL`. -/
structure SmoothLightingFace where
  dx : Int
  dy : Int
  dz : Int
  corners : Fin 4 → SmoothLightingCorner
  touch_up_points : Option (List Int)
  num_touch_up_points : Nat

/-- The array `top_touchups`. -/
def top_touchups : List Int := [1, 5, 3, 4, 5, 3, 7, 2, 9, 1, 11, 0]

/-- The enumerator `FACE_TOP`. -/
def FACE_TOP : Fin 3 := 0

/-- The enumerator `FACE_LEFT`. -/
def FACE_LEFT : Fin 3 := 1

/-- The enumerator `FACE_RIGHT`. -/
def FACE_RIGHT : Fin 3 := 2

/-- The table `lighting_rules`. -/
def lighting_rules : Fin 3 → SmoothLightingFace := fun f =>
  match f with
  | 0 =>
    { dx := 0, dy := 1, dz := 0,
      corners := fun i =>
        match i with
        | 0 => ⟨0, 6, -1, 0, 0, 0, 0, -1⟩
        | 1 => ⟨12, 0, 1, 0, 0, 0, 0, -1⟩
        | 2 => ⟨24, 6, 1, 0, 0, 0, 0, 1⟩
        | 3 => ⟨12, 12, -1, 0, 0, 0, 0, 1⟩,
      touch_up_points := some top_touchups,
      num_touch_up_points := 6 }
  | 1 =>
    { dx := -1, dy := 0, dz := 0,
      corners := fun i =>
        match i with
        | 0 => ⟨0, 18, 0, 0, -1, 0, -1, 0⟩
        | 1 => ⟨0, 6, 0, 0, -1, 0, 1, 0⟩
        | 2 => ⟨12, 12, 0, 0, 1, 0, 1, 0⟩
        | 3 => ⟨12, 24, 0, 0, 1, 0, -1, 0⟩,
      touch_up_points := none,
      num_touch_up_points := 0 }
  | 2 =>
    { dx := 0, dy := 0, dz := 1,
      corners := fun i =>
        match i with
        | 0 => ⟨24, 6, 1, 0, 0, 0, 1, 0⟩
        | 1 => ⟨12, 12, -1, 0, 0, 0, 1, 0⟩
        | 2 => ⟨12, 24, -1, 0, 0, 0, -1, 0⟩
        | 3 => ⟨24, 18, 1, 0, 0, 0, -1, 0⟩,
      touch_up_points := none,
      num_touch_up_points := 0 }

/-- The field `strength` (a `float`) of `RenderPrimitiveLighting`. -/
structure RenderPrimitiveLighting where
  strength : ℚ

/-- The structure `RenderPrimitiveSmoothLightingHideUnderground`. -/
structure RenderPrimitiveSmoothLightingHideUnderground where
  parent : RenderPrimitiveLighting

/-- The three `uint8_t` outputs `r`, `g`, `b` of `get_lighting_color`. -/
structure Rgb where
  r : Nat
  g : Nat
  b : Nat
  deriving DecidableEq, Repr

/-- The two functions of `lighting.h` called by the face renderer:
`lighting_is_face_occluded(state, skip_sides, x, y, z)` and
`get_lighting_color(lighting, state, x, y, z, &r, &g, &b)`. -/
structure LightingExternals where
  lighting_is_face_occluded : RenderState → Bool → Int → Int → Int → Bool
  get_lighting_color : RenderPrimitiveLighting → RenderState → Int → Int → Int → Rgb

/-- One vertex of a `draw_triangle` call: the arguments `x, y, r, g, b`. -/
structure Vertex where
  x : Int
  y : Int
  r : Nat
  g : Nat
  b : Nat
  deriving DecidableEq, Repr

/-- The arguments of one call `draw_triangle(state->img, inclusive, v0, v1, v2, tux,
tuy, touchups, num_touchups)`; `touchups` is `none` for `NULL`. -/
structure TriangleCall where
  inclusive : Int
  v0 : Vertex
  v1 : Vertex
  v2 : Vertex
  tux : Int
  tuy : Int
  touchups : Option (List Int)
  num_touchups : Nat
  deriving DecidableEq, Repr

/-- The calls recorded for the face renderer. -/
inductive Call where
  | get_lighting_color (x y z : Int)
  | draw_triangle (t : TriangleCall)
  | primitive_lighting_draw
  deriving DecidableEq, Repr

/-- The `draw_triangle` calls of a list of calls, in order. -/
def triangles (calls : List Call) : List TriangleCall :=
  calls.filterMap (fun c =>
    match c with
    | Call.draw_triangle t => some t
    | _ => none)

/-- The statement `gather += (255 * 4 - gather) * comp_shade_strength;` on a
`uint32_t`: the difference is taken in `uint32_t`, the product and the sum in
`float`, and the sum is truncated back to `uint32_t`. -/
def blend (comp_shade_strength : ℚ) (gather : Nat) : Nat :=
  ⌊(gather : ℚ) +
      (((4294967296 + 255 * 4 - gather) % 4294967296 : Nat) : ℚ) * comp_shade_strength⌋.toNat
    % 4294967296

/-- One channel of one corner: the four `gather += ...;` of the samples, the
blend, and the store `pts[i] = gather / 4` into a `uint8_t`. -/
def shade_channel (comp_shade_strength : ℚ) (s0 s1 s2 s3 : Nat) : Nat :=
  let gather := (s0 + s1 + s2 + s3) % 4294967296
  (blend comp_shade_strength gather / 4) % 256

/-- The voxel of the `k`-th call of `get_lighting_color` for corner `i`. -/
def sample_point (state : RenderState) (face : SmoothLightingFace) (i k : Fin 4) :
    Int × Int × Int :=
  let cx := state.x + face.dx
  let cy := state.y + face.dy
  let cz := state.z + face.dz
  let p := face.corners i
  match k with
  | 0 => (cx, cy, cz)
  | 1 => (cx + p.dx1, cy + p.dy1, cz + p.dz1)
  | 2 => (cx + p.dx2, cy + p.dy2, cz + p.dz2)
  | 3 => (cx + p.dx1 + p.dx2, cy + p.dy1 + p.dy2, cz + p.dz1 + p.dz2)

/-- The colour returned by the `k`-th call of `get_lighting_color` for corner `i`. -/
def sample (X : LightingExternals) (lighting : RenderPrimitiveLighting) (state : RenderState)
    (face : SmoothLightingFace) (i k : Fin 4) : Rgb :=
  X.get_lighting_color lighting state (sample_point state face i k).1
    (sample_point state face i k).2.1 (sample_point state face i k).2.2

/-- The values `pts_r[i]`, `pts_g[i]`, `pts_b[i]` after the loop body for `i`. -/
def corner_color (X : LightingExternals) (lighting : RenderPrimitiveLighting)
    (state : RenderState) (face : SmoothLightingFace) (i : Fin 4) : Rgb :=
  let comp_shade_strength : ℚ := 1 - lighting.strength
  { r := shade_channel comp_shade_strength (sample X lighting state face i 0).r
      (sample X lighting state face i 1).r (sample X lighting state face i 2).r
      (sample X lighting state face i 3).r,
    g := shade_channel comp_shade_strength (sample X lighting state face i 0).g
      (sample X lighting state face i 1).g (sample X lighting state face i 2).g
      (sample X lighting state face i 3).g,
    b := shade_channel comp_shade_strength (sample X lighting state face i 0).b
      (sample X lighting state face i 1).b (sample X lighting state face i 2).b
      (sample X lighting state face i 3).b }

/-- The four calls of `get_lighting_color` of the loop body for `i`, in order. -/
def corner_calls (state : RenderState) (face : SmoothLightingFace) (i : Fin 4) : List Call :=
  (List.finRange 4).map (fun k =>
    Call.get_lighting_color (sample_point state face i k).1 (sample_point state face i k).2.1
      (sample_point state face i k).2.2)

/-- The vertex arguments `x + pts[i].imgx, y + pts[i].imgy, pts_r[i], pts_g[i],
pts_b[i]` of `draw_triangle`, with `x = state->imgx` and `y = state->imgy`. -/
def corner_vertex (X : LightingExternals) (lighting : RenderPrimitiveLighting)
    (state : RenderState) (face : SmoothLightingFace) (i : Fin 4) : Vertex :=
  { x := state.imgx + (face.corners i).imgx,
    y := state.imgy + (face.corners i).imgy,
    r := (corner_color X lighting state face i).r,
    g := (corner_color X lighting state face i).g,
    b := (corner_color X lighting state face i).b }

/-- The function `do_shading_with_rule`: the calls it makes, in order. -/
def do_shading_with_rule (X : LightingExternals)
    (self : RenderPrimitiveSmoothLightingHideUnderground) (state : RenderState)
    (face : SmoothLightingFace) : List Call :=
  let lighting := self.parent
  let x := state.imgx
  let y := state.imgy
  let cx := state.x + face.dx
  let cy := state.y + face.dy
  let cz := state.z + face.dz
  if X.lighting_is_face_occluded state false cx cy cz then []
  else
    corner_calls state face 0 ++ corner_calls state face 1 ++ corner_calls state face 2 ++
    corner_calls state face 3 ++
    [Call.draw_triangle
       { inclusive := 1,
         v0 := corner_vertex X lighting state face 0,
         v1 := corner_vertex X lighting state face 1,
         v2 := corner_vertex X lighting state face 2,
         tux := x, tuy := y,
         touchups := face.touch_up_points,
         num_touchups := face.num_touch_up_points },
     Call.draw_triangle
       { inclusive := 0,
         v0 := corner_vertex X lighting state face 0,
         v1 := corner_vertex X lighting state face 2,
         v2 := corner_vertex X lighting state face 3,
         tux := x, tuy := y,
         touchups := none,
         num_touchups := 0 }]

/-- The condition of the first `if` of `smooth_lighting_draw`; the compound literal
is the four-element array `{block_leaves, block_flowing_water, block_water,
block_ice}`. -/
def flat_lit (sse2 mmx : Bool) (block_leaves : mc_block_t) (E : Externals)
    (state : RenderState) : Bool :=
  !block_class_is_subset sse2 mmx state.block
      [block_leaves, block_flowing_water, block_water, block_ice] 4 &&
    E.is_transparent state.block

/-- Value of the local `light_top` after the special code for water. -/
def light_top (state : RenderState) : Bool :=
  if state.block = block_water ∧ state.block_pdata &&& (1 <<< 4) = 0 then false else true

/-- Value of the local `light_left` after the special code for water. -/
def light_left (state : RenderState) : Bool :=
  if state.block = block_water ∧ state.block_pdata &&& (1 <<< 1) = 0 then false else true

/-- Value of the local `light_right` after the special code for water. -/
def light_right (state : RenderState) : Bool :=
  if state.block = block_water ∧ state.block_pdata &&& (1 <<< 2) = 0 then false else true

/-- The part of `smooth_lighting_draw` after the first `if`: the three conditional
calls of `do_shading_with_rule`. -/
def smooth_faces (X : LightingExternals) (self : RenderPrimitiveSmoothLightingHideUnderground)
    (state : RenderState) : List Call :=
  (if light_top state then do_shading_with_rule X self state (lighting_rules FACE_TOP) else []) ++
  (if light_left state then do_shading_with_rule X self state (lighting_rules FACE_LEFT)
    else []) ++
  (if light_right state then do_shading_with_rule X self state (lighting_rules FACE_RIGHT)
    else [])

/-- The function `smooth_lighting_draw`: the calls it makes, in order. -/
def smooth_lighting_draw (sse2 mmx : Bool) (block_leaves : mc_block_t) (E : Externals)
    (X : LightingExternals) (self : RenderPrimitiveSmoothLightingHideUnderground)
    (state : RenderState) : List Call :=
  if flat_lit sse2 mmx block_leaves E state then [Call.primitive_lighting_draw]
  else smooth_faces X self state

/-! ## Concrete inputs for the face renderer -/

/-- A sample instance of the lighting functions: no face is occluded and every
voxel has the colour `c`. -/
def uniform_lighting (c : Rgb) : LightingExternals where
  lighting_is_face_occluded := fun _ _ _ _ _ => false
  get_lighting_color := fun _ _ _ _ _ => c

/-- A primitive with shading strength 1. -/
def full_strength : RenderPrimitiveSmoothLightingHideUnderground :=
  { parent := { strength := 1 } }

/-- A primitive with shading strength 0. -/
def zero_strength : RenderPrimitiveSmoothLightingHideUnderground :=
  { parent := { strength := 0 } }

/-- A water voxel at (5,5,5) drawn at pixel (100,200), with `block_pdata` equal
to `pdata`. -/
def water_state (pdata : Nat) : RenderState where
  x := 5
  y := 5
  z := 5
  imgx := 100
  imgy := 200
  chunky := 3
  chunks := fun _ _ => { loaded := true, has_blocks := fun _ => true }
  blocks := fun _ _ _ => block_water
  block := block_water
  block_pdata := pdata

/-! ## The loops of the resolver with the visited rows recorded -/

/-- The five-row loop of `boundary_scan` with the rows `dy` given to `get_data`
recorded in order. -/
def boundary_scan_trace (E : Externals) (state : RenderState) (x z : Int) : Bool × List Int :=
  (List.range 5).foldl
    (fun acc dy =>
      (if E.get_data state DataType.BLOCKS x (dy : Int) z ≠ 0 then true else acc.1,
       acc.2 ++ [(dy : Int)]))
    (false, [])

/-- The loop of `column_scan` with the rows `dy` given to `get_data` recorded in
order. -/
def column_scan_trace (E : Externals) (state : RenderState) (x z : Int) :
    Nat → Int → Option Bool × List Int
  | 0, _ => (none, [])
  | fuel + 1, dy =>
    if dy < 255 then
      if E.get_data state DataType.SKYLIGHT x dy z ≠ 0 then (some false, [dy])
      else if !transparent_at E state x dy z then (some true, [dy])
      else ((column_scan_trace E state x z fuel (dy + 1)).1,
            dy :: (column_scan_trace E state x z fuel (dy + 1)).2)
    else (none, [])

/-- The rows visited by the column scan of `underground` for the voxel `(x, y, z)`:
none when the block ID is neither 8 nor 11. -/
def special_scan_rows (E : Externals) (state : RenderState) (x y z : Int) : List Int :=
  let blockID := state.blocks x y z
  if blockID = 8 ∨ blockID = 11 then (column_scan_trace E state x z (254 - y).toNat (y + 1)).2
  else []

/-- A sample instance of the lighting functions: the face towards a voxel of row
6 is occluded, no other face is, and every voxel has the colour `c`. -/
def top_occluded_lighting (c : Rgb) : LightingExternals where
  lighting_is_face_occluded := fun _ _ _ y _ => decide (y = 6)
  get_lighting_color := fun _ _ _ _ _ => c

/-- A sample instance of the lighting functions: colour (255, 255, 255) at every
voxel except those with x = 100, which are black; no face is occluded. -/
def spot_lighting : LightingExternals where
  lighting_is_face_occluded := fun _ _ _ _ _ => false
  get_lighting_color := fun _ _ x _ _ => if x = 100 then ⟨0, 0, 0⟩ else ⟨255, 255, 255⟩

/-! ## The blend with rounding

For shading strengths other than 0 and 1 the `float` operations of the blend
round. The definitions below take the rounding as a parameter: `rnd` maps the
exact result of a `float` operation or conversion to the `float` that the
machine produces, `rnd_sub` does so for `1.0 - lighting->strength`, which is
computed in `double` and then stored in a `float`. With the identity for both,
these definitions are `blend` and `shade_channel`. -/

/-- The statement `gather += (255 * 4 - gather) * comp_shade_strength;` with every
`float` conversion and operation rounded by `rnd`. -/
def blend_rounded (rnd : ℚ → ℚ) (comp_shade_strength : ℚ) (gather : Nat) : Nat :=
  ⌊rnd (rnd (gather : ℚ) +
      rnd (rnd (((4294967296 + 255 * 4 - gather) % 4294967296 : Nat) : ℚ) *
        comp_shade_strength))⌋.toNat
    % 4294967296

/-- One channel of one corner for the shading strength `strength`, with rounding:
`comp_shade_strength = 1.0 - strength`, the four `gather += ...;`, the blend and
the store `pts[i] = gather / 4` into a `uint8_t`. -/
def shade_channel_rounded (rnd_sub rnd : ℚ → ℚ) (strength : ℚ) (s0 s1 s2 s3 : Nat) : Nat :=
  let comp_shade_strength : ℚ := rnd_sub (1 - strength)
  let gather := (s0 + s1 + s2 + s3) % 4294967296
  (blend_rounded rnd comp_shade_strength gather / 4) % 256

/-! ## primitives/smooth-lighting-hide-underground.c: the lifecycle functions

The flat-lighting primitive `primitive_lighting` is not among the verified
sources. Its entries `start` and `finish` are parameters acting on a world `W`,
which stands for everything they can read or change (`data`, `state`,
`support`). -/

/-- The entries `start` and `finish` of `primitive_lighting`: `start` returns a
`bool` and the changed world, `finish` the changed world. -/
structure PrimitiveLighting (W : Type) where
  start : W → Bool × W
  finish : W → W

/-- The function `smooth_lighting_start`: the returned `bool` and the world after
the call. -/
def smooth_lighting_start {W : Type} (primitive_lighting : PrimitiveLighting W) (w : W) :
    Bool × W :=
  let ret := (primitive_lighting.start w).1
  let w' := (primitive_lighting.start w).2
  if ret != false then (ret, w') else (false, w')

/-- The function `smooth_lighting_finish`: the world after the call. -/
def smooth_lighting_finish {W : Type} (primitive_lighting : PrimitiveLighting W) (w : W) : W :=
  primitive_lighting.finish w

/-! ## block_class.c: the block classes

The arrays of `block_class.c` name enumerators `block_minecraft__...` that
`mc_id.h` does not declare, so their numeric values are a parameter: a class is
kept as the list of the enumerators it names, and the array of the C program is
that list mapped through an assignment `ids` of values to the enumerators. -/

/-- The enumerators named in the arrays of `block_class.c`, in the order of their
first appearance. -/
inductive block_name where
  | block_minecraft__oak_stairs
  | block_minecraft__brick_stairs
  | block_minecraft__stone_brick_stairs
  | block_minecraft__nether_brick_stairs
  | block_minecraft__sandstone_stairs
  | block_minecraft__spruce_stairs
  | block_minecraft__birch_stairs
  | block_minecraft__jungle_stairs
  | block_minecraft__quartz_stairs
  | block_minecraft__acacia_stairs
  | block_minecraft__dark_oak_stairs
  | block_minecraft__red_sandstone_stairs
  | block_minecraft__smooth_red_sandstone_stairs
  | block_minecraft__purpur_stairs
  | block_minecraft__prismarine_stairs
  | block_minecraft__dark_prismarine_stairs
  | block_minecraft__prismarine_brick_stairs
  | block_minecraft__mossy_cobblestone_stairs
  | block_minecraft__cobblestone_stairs
  | block_minecraft__smooth_quartz_stairs
  | block_minecraft__polished_granite_stairs
  | block_minecraft__polished_diorite_stairs
  | block_minecraft__polished_andesite_stairs
  | block_minecraft__stone_stairs
  | block_minecraft__granite_stairs
  | block_minecraft__diorite_stairs
  | block_minecraft__andesite_stairs
  | block_minecraft__end_stone_brick_stairs
  | block_minecraft__red_nether_brick_stairs
  | block_minecraft__mossy_stone_brick_stairs
  | block_minecraft__smooth_sandstone_stairs
  | block_minecraft__crimson_stairs
  | block_minecraft__warped_stairs
  | block_minecraft__blackstone_stairs
  | block_minecraft__polished_blackstone_brick_stairs
  | block_minecraft__polished_blackstone_stairs
  | block_minecraft__oak_door
  | block_minecraft__iron_door
  | block_minecraft__spruce_door
  | block_minecraft__birch_door
  | block_minecraft__jungle_door
  | block_minecraft__acacia_door
  | block_minecraft__dark_oak_door
  | block_minecraft__crimson_door
  | block_minecraft__warped_door
  | block_minecraft__oak_fence
  | block_minecraft__spruce_fence
  | block_minecraft__birch_fence
  | block_minecraft__jungle_fence
  | block_minecraft__acacia_fence
  | block_minecraft__crimson_fence
  | block_minecraft__warped_fence
  | block_minecraft__dark_oak_fence
  | block_minecraft__nether_brick_fence
  | block_minecraft__oak_fence_gate
  | block_minecraft__spruce_fence_gate
  | block_minecraft__birch_fence_gate
  | block_minecraft__jungle_fence_gate
  | block_minecraft__acacia_fence_gate
  | block_minecraft__crimson_fence_gate
  | block_minecraft__warped_fence_gate
  | block_minecraft__dark_oak_fence_gate
  | block_minecraft__grass_block
  | block_minecraft__flowing_water
  | block_minecraft__water
  | block_minecraft__glass
  | block_minecraft__ice
  | block_minecraft__nether_portal
  | block_minecraft__iron_bars
  | block_minecraft__glass_pane
  | block_minecraft__lily_pad
  | block_minecraft__andesite_wall
  | block_minecraft__brick_wall
  | block_minecraft__cobblestone_wall
  | block_minecraft__diorite_wall
  | block_minecraft__end_stone_brick_wall
  | block_minecraft__granite_wall
  | block_minecraft__mossy_cobblestone_wall
  | block_minecraft__mossy_stone_brick_wall
  | block_minecraft__nether_brick_wall
  | block_minecraft__prismarine_wall
  | block_minecraft__red_nether_brick_wall
  | block_minecraft__red_sandstone_wall
  | block_minecraft__sandstone_wall
  | block_minecraft__stone_brick_wall
  | block_minecraft__blackstone_wall
  | block_minecraft__polished_blackstone_brick_wall
  | block_minecraft__polished_blackstone_wall
  | block_minecraft__double_plant
  | block_minecraft__white_stained_glass_pane
  | block_minecraft__orange_stained_glass_pane
  | block_minecraft__magenta_stained_glass_pane
  | block_minecraft__light_blue_stained_glass_pane
  | block_minecraft__yellow_stained_glass_pane
  | block_minecraft__lime_stained_glass_pane
  | block_minecraft__pink_stained_glass_pane
  | block_minecraft__gray_stained_glass_pane
  | block_minecraft__light_gray_stained_glass_pane
  | block_minecraft__cyan_stained_glass_pane
  | block_minecraft__purple_stained_glass_pane
  | block_minecraft__blue_stained_glass_pane
  | block_minecraft__brown_stained_glass_pane
  | block_minecraft__green_stained_glass_pane
  | block_minecraft__red_stained_glass_pane
  | block_minecraft__black_stained_glass_pane
  | block_minecraft__white_stained_glass
  | block_minecraft__orange_stained_glass
  | block_minecraft__magenta_stained_glass
  | block_minecraft__light_blue_stained_glass
  | block_minecraft__yellow_stained_glass
  | block_minecraft__lime_stained_glass
  | block_minecraft__pink_stained_glass
  | block_minecraft__gray_stained_glass
  | block_minecraft__light_gray_stained_glass
  | block_minecraft__cyan_stained_glass
  | block_minecraft__purple_stained_glass
  | block_minecraft__blue_stained_glass
  | block_minecraft__brown_stained_glass
  | block_minecraft__green_stained_glass
  | block_minecraft__red_stained_glass
  | block_minecraft__black_stained_glass
  | block_minecraft__oak_slab
  | block_minecraft__spruce_slab
  | block_minecraft__birch_slab
  | block_minecraft__jungle_slab
  | block_minecraft__acacia_slab
  | block_minecraft__dark_oak_slab
  | block_minecraft__petrified_oak_slab
  | block_minecraft__stone_slab
  | block_minecraft__sandstone_slab
  | block_minecraft__cobblestone_slab
  | block_minecraft__brick_slab
  | block_minecraft__stone_brick_slab
  | block_minecraft__nether_brick_slab
  | block_minecraft__quartz_slab
  | block_minecraft__red_sandstone_slab
  | block_minecraft__purpur_slab
  | block_minecraft__prismarine_slab
  | block_minecraft__dark_prismarine_slab
  | block_minecraft__prismarine_brick_slab
  | block_minecraft__andesite_slab
  | block_minecraft__diorite_slab
  | block_minecraft__granite_slab
  | block_minecraft__polished_andesite_slab
  | block_minecraft__polished_diorite_slab
  | block_minecraft__polished_granite_slab
  | block_minecraft__red_nether_brick_slab
  | block_minecraft__smooth_sandstone_slab
  | block_minecraft__cut_sandstone_slab
  | block_minecraft__smooth_red_sandstone_slab
  | block_minecraft__cut_red_sandstone_slab
  | block_minecraft__end_stone_brick_slab
  | block_minecraft__mossy_cobblestone_slab
  | block_minecraft__mossy_stone_brick_slab
  | block_minecraft__smooth_quartz_slab
  | block_minecraft__smooth_stone_slab
  | block_minecraft__crimson_slab
  | block_minecraft__warped_slab
  | block_minecraft__polished_blackstone_brick_slab
  | block_minecraft__blackstone_slab
  | block_minecraft__polished_blackstone_slab
  | block_minecraft__bedrock
  | block_minecraft__netherrack
  | block_minecraft__nether_quartz_ore
  | block_minecraft__lava
  | block_minecraft__soul_sand
  | block_minecraft__basalt
  | block_minecraft__blackstone
  | block_minecraft__soul_soil
  | block_minecraft__nether_gold_ore
  deriving DecidableEq, Repr

open block_name

/-- The array `block_class_stair`, as the list of its enumerators. -/
def block_class_stair : List block_name :=
  [block_minecraft__oak_stairs, block_minecraft__brick_stairs,
   block_minecraft__stone_brick_stairs, block_minecraft__nether_brick_stairs,
   block_minecraft__sandstone_stairs, block_minecraft__spruce_stairs,
   block_minecraft__birch_stairs, block_minecraft__jungle_stairs, block_minecraft__quartz_stairs,
   block_minecraft__acacia_stairs, block_minecraft__dark_oak_stairs,
   block_minecraft__red_sandstone_stairs, block_minecraft__smooth_red_sandstone_stairs,
   block_minecraft__purpur_stairs, block_minecraft__prismarine_stairs,
   block_minecraft__dark_prismarine_stairs, block_minecraft__prismarine_brick_stairs,
   block_minecraft__mossy_cobblestone_stairs, block_minecraft__cobblestone_stairs,
   block_minecraft__smooth_quartz_stairs, block_minecraft__polished_granite_stairs,
   block_minecraft__polished_diorite_stairs, block_minecraft__polished_andesite_stairs,
   block_minecraft__stone_stairs, block_minecraft__granite_stairs,
   block_minecraft__diorite_stairs, block_minecraft__andesite_stairs,
   block_minecraft__end_stone_brick_stairs, block_minecraft__red_nether_brick_stairs,
   block_minecraft__mossy_stone_brick_stairs, block_minecraft__smooth_sandstone_stairs,
   block_minecraft__crimson_stairs, block_minecraft__warped_stairs,
   block_minecraft__blackstone_stairs, block_minecraft__polished_blackstone_brick_stairs,
   block_minecraft__polished_blackstone_stairs]

/-- The constant `block_class_stair_len`, which is `COUNT_OF(block_class_stair)`. -/
def block_class_stair_len : Nat := block_class_stair.length

/-- The array `block_class_door`, as the list of its enumerators. -/
def block_class_door : List block_name :=
  [block_minecraft__oak_door, block_minecraft__iron_door, block_minecraft__spruce_door,
   block_minecraft__birch_door, block_minecraft__jungle_door, block_minecraft__acacia_door,
   block_minecraft__dark_oak_door, block_minecraft__crimson_door, block_minecraft__warped_door]

/-- The constant `block_class_door_len`, which is `COUNT_OF(block_class_door)`. -/
def block_class_door_len : Nat := block_class_door.length

/-- The array `block_class_fence`, as the list of its enumerators. -/
def block_class_fence : List block_name :=
  [block_minecraft__oak_fence, block_minecraft__spruce_fence, block_minecraft__birch_fence,
   block_minecraft__jungle_fence, block_minecraft__acacia_fence, block_minecraft__crimson_fence,
   block_minecraft__warped_fence, block_minecraft__dark_oak_fence,
   block_minecraft__nether_brick_fence]

/-- The constant `block_class_fence_len`, which is `COUNT_OF(block_class_fence)`. -/
def block_class_fence_len : Nat := block_class_fence.length

/-- The array `block_class_fence_gate`, as the list of its enumerators. -/
def block_class_fence_gate : List block_name :=
  [block_minecraft__oak_fence_gate, block_minecraft__spruce_fence_gate,
   block_minecraft__birch_fence_gate, block_minecraft__jungle_fence_gate,
   block_minecraft__acacia_fence_gate, block_minecraft__crimson_fence_gate,
   block_minecraft__warped_fence_gate, block_minecraft__dark_oak_fence_gate]

/-- The constant `block_class_fence_gate_len`, which is `COUNT_OF(block_class_fence_gate)`. -/
def block_class_fence_gate_len : Nat := block_class_fence_gate.length

/-- The array `block_class_ancil`, as the list of its enumerators. -/
def block_class_ancil : List block_name :=
  [block_minecraft__oak_door, block_minecraft__iron_door, block_minecraft__spruce_door,
   block_minecraft__birch_door, block_minecraft__jungle_door, block_minecraft__acacia_door,
   block_minecraft__dark_oak_door, block_minecraft__crimson_door, block_minecraft__warped_door,
   block_minecraft__grass_block, block_minecraft__flowing_water, block_minecraft__water,
   block_minecraft__glass, block_minecraft__ice, block_minecraft__oak_fence,
   block_minecraft__nether_portal, block_minecraft__iron_bars, block_minecraft__glass_pane,
   block_minecraft__lily_pad, block_minecraft__nether_brick_fence,
   block_minecraft__andesite_wall, block_minecraft__brick_wall,
   block_minecraft__cobblestone_wall, block_minecraft__diorite_wall,
   block_minecraft__end_stone_brick_wall, block_minecraft__granite_wall,
   block_minecraft__mossy_cobblestone_wall, block_minecraft__mossy_stone_brick_wall,
   block_minecraft__nether_brick_wall, block_minecraft__prismarine_wall,
   block_minecraft__red_nether_brick_wall, block_minecraft__red_sandstone_wall,
   block_minecraft__sandstone_wall, block_minecraft__stone_brick_wall,
   block_minecraft__blackstone_wall, block_minecraft__polished_blackstone_brick_wall,
   block_minecraft__polished_blackstone_wall, block_minecraft__double_plant,
   block_minecraft__white_stained_glass_pane, block_minecraft__orange_stained_glass_pane,
   block_minecraft__magenta_stained_glass_pane, block_minecraft__light_blue_stained_glass_pane,
   block_minecraft__yellow_stained_glass_pane, block_minecraft__lime_stained_glass_pane,
   block_minecraft__pink_stained_glass_pane, block_minecraft__gray_stained_glass_pane,
   block_minecraft__light_gray_stained_glass_pane, block_minecraft__cyan_stained_glass_pane,
   block_minecraft__purple_stained_glass_pane, block_minecraft__blue_stained_glass_pane,
   block_minecraft__brown_stained_glass_pane, block_minecraft__green_stained_glass_pane,
   block_minecraft__red_stained_glass_pane, block_minecraft__black_stained_glass_pane,
   block_minecraft__white_stained_glass, block_minecraft__orange_stained_glass,
   block_minecraft__magenta_stained_glass, block_minecraft__light_blue_stained_glass,
   block_minecraft__yellow_stained_glass, block_minecraft__lime_stained_glass,
   block_minecraft__pink_stained_glass, block_minecraft__gray_stained_glass,
   block_minecraft__light_gray_stained_glass, block_minecraft__cyan_stained_glass,
   block_minecraft__purple_stained_glass, block_minecraft__blue_stained_glass,
   block_minecraft__brown_stained_glass, block_minecraft__green_stained_glass,
   block_minecraft__red_stained_glass, block_minecraft__black_stained_glass,
   block_minecraft__crimson_fence, block_minecraft__warped_fence, block_minecraft__spruce_fence,
   block_minecraft__birch_fence, block_minecraft__jungle_fence, block_minecraft__dark_oak_fence,
   block_minecraft__acacia_fence]

/-- The constant `block_class_ancil_len`, which is `COUNT_OF(block_class_ancil)`. -/
def block_class_ancil_len : Nat := block_class_ancil.length

/-- The array `block_class_alt_height`, as the list of its enumerators. -/
def block_class_alt_height : List block_name :=
  [block_minecraft__oak_slab, block_minecraft__spruce_slab, block_minecraft__birch_slab,
   block_minecraft__jungle_slab, block_minecraft__acacia_slab, block_minecraft__dark_oak_slab,
   block_minecraft__petrified_oak_slab, block_minecraft__stone_slab,
   block_minecraft__sandstone_slab, block_minecraft__cobblestone_slab,
   block_minecraft__brick_slab, block_minecraft__stone_brick_slab,
   block_minecraft__nether_brick_slab, block_minecraft__quartz_slab,
   block_minecraft__red_sandstone_slab, block_minecraft__purpur_slab,
   block_minecraft__prismarine_slab, block_minecraft__dark_prismarine_slab,
   block_minecraft__prismarine_brick_slab, block_minecraft__andesite_slab,
   block_minecraft__diorite_slab, block_minecraft__granite_slab,
   block_minecraft__polished_andesite_slab, block_minecraft__polished_diorite_slab,
   block_minecraft__polished_granite_slab, block_minecraft__red_nether_brick_slab,
   block_minecraft__smooth_sandstone_slab, block_minecraft__cut_sandstone_slab,
   block_minecraft__smooth_red_sandstone_slab, block_minecraft__cut_red_sandstone_slab,
   block_minecraft__end_stone_brick_slab, block_minecraft__mossy_cobblestone_slab,
   block_minecraft__mossy_stone_brick_slab, block_minecraft__smooth_quartz_slab,
   block_minecraft__smooth_stone_slab, block_minecraft__crimson_slab,
   block_minecraft__warped_slab, block_minecraft__polished_blackstone_brick_slab,
   block_minecraft__blackstone_slab, block_minecraft__polished_blackstone_slab]

/-- The constant `block_class_alt_height_len`, which is `COUNT_OF(block_class_alt_height)`. -/
def block_class_alt_height_len : Nat := block_class_alt_height.length

/-- The array `block_class_slab`, as the list of its enumerators. -/
def block_class_slab : List block_name :=
  [block_minecraft__oak_slab, block_minecraft__spruce_slab, block_minecraft__birch_slab,
   block_minecraft__jungle_slab, block_minecraft__acacia_slab, block_minecraft__dark_oak_slab,
   block_minecraft__petrified_oak_slab, block_minecraft__stone_slab,
   block_minecraft__sandstone_slab, block_minecraft__cobblestone_slab,
   block_minecraft__brick_slab, block_minecraft__stone_brick_slab,
   block_minecraft__nether_brick_slab, block_minecraft__quartz_slab,
   block_minecraft__red_sandstone_slab, block_minecraft__purpur_slab,
   block_minecraft__prismarine_slab, block_minecraft__dark_prismarine_slab,
   block_minecraft__prismarine_brick_slab, block_minecraft__andesite_slab,
   block_minecraft__diorite_slab, block_minecraft__granite_slab,
   block_minecraft__polished_andesite_slab, block_minecraft__polished_diorite_slab,
   block_minecraft__polished_granite_slab, block_minecraft__red_nether_brick_slab,
   block_minecraft__smooth_sandstone_slab, block_minecraft__cut_sandstone_slab,
   block_minecraft__smooth_red_sandstone_slab, block_minecraft__cut_red_sandstone_slab,
   block_minecraft__end_stone_brick_slab, block_minecraft__mossy_cobblestone_slab,
   block_minecraft__mossy_stone_brick_slab, block_minecraft__smooth_quartz_slab,
   block_minecraft__smooth_stone_slab, block_minecraft__crimson_slab,
   block_minecraft__warped_slab, block_minecraft__polished_blackstone_brick_slab,
   block_minecraft__blackstone_slab, block_minecraft__polished_blackstone_slab]

/-- The constant `block_class_slab_len`, which is `COUNT_OF(block_class_slab)`. -/
def block_class_slab_len : Nat := block_class_slab.length

/-- The array `block_class_nether_roof`, as the list of its enumerators. -/
def block_class_nether_roof : List block_name :=
  [block_minecraft__bedrock, block_minecraft__netherrack, block_minecraft__nether_quartz_ore,
   block_minecraft__lava, block_minecraft__soul_sand, block_minecraft__basalt,
   block_minecraft__blackstone, block_minecraft__soul_soil, block_minecraft__nether_gold_ore]

/-- The constant `block_class_nether_roof_len`, which is `COUNT_OF(block_class_nether_roof)`. -/
def block_class_nether_roof_len : Nat := block_class_nether_roof.length

/-- The array `block_class_no_inner_surfaces`, as the list of its enumerators. -/
def block_class_no_inner_surfaces : List block_name :=
  [block_minecraft__white_stained_glass, block_minecraft__orange_stained_glass,
   block_minecraft__magenta_stained_glass, block_minecraft__light_blue_stained_glass,
   block_minecraft__yellow_stained_glass, block_minecraft__lime_stained_glass,
   block_minecraft__pink_stained_glass, block_minecraft__gray_stained_glass,
   block_minecraft__light_gray_stained_glass, block_minecraft__cyan_stained_glass,
   block_minecraft__purple_stained_glass, block_minecraft__blue_stained_glass,
   block_minecraft__brown_stained_glass, block_minecraft__green_stained_glass,
   block_minecraft__red_stained_glass, block_minecraft__black_stained_glass,
   block_minecraft__glass, block_minecraft__ice]

/-- The constant `block_class_no_inner_surfaces_len`, which is `COUNT_OF(block_class_no_inner_surfaces)`. -/
def block_class_no_inner_surfaces_len : Nat := block_class_no_inner_surfaces.length

/-- The array `block_class_pane_and_bars`, as the list of its enumerators. -/
def block_class_pane_and_bars : List block_name :=
  [block_minecraft__iron_bars, block_minecraft__glass_pane,
   block_minecraft__white_stained_glass_pane, block_minecraft__orange_stained_glass_pane,
   block_minecraft__magenta_stained_glass_pane, block_minecraft__light_blue_stained_glass_pane,
   block_minecraft__yellow_stained_glass_pane, block_minecraft__lime_stained_glass_pane,
   block_minecraft__pink_stained_glass_pane, block_minecraft__gray_stained_glass_pane,
   block_minecraft__light_gray_stained_glass_pane, block_minecraft__cyan_stained_glass_pane,
   block_minecraft__purple_stained_glass_pane, block_minecraft__blue_stained_glass_pane,
   block_minecraft__brown_stained_glass_pane, block_minecraft__green_stained_glass_pane,
   block_minecraft__red_stained_glass_pane, block_minecraft__black_stained_glass_pane]

/-- The constant `block_class_pane_and_bars_len`, which is `COUNT_OF(block_class_pane_and_bars)`. -/
def block_class_pane_and_bars_len : Nat := block_class_pane_and_bars.length

/-- A sample assignment of values: the enumerators numbered from 1 in the order of
their first appearance in `block_class.c`, so that different enumerators have
different values. -/
def order_ids (n : block_name) : mc_block_t := n.toCtorIdx + 1

/-! ## mc_id.h: the whole of `enum mc_block_id` -/

/-- The enumerators of `enum mc_block_id` with their values, in the order of the
header. -/
def mc_block_id : List (String × Nat) :=
  [
   ("block_air", 0), ("block_stone", 1),
   ("block_granite", 2), ("block_polished_granite", 3),
   ("block_diorite", 4), ("block_polished_diorite", 5),
   ("block_andesite", 6), ("block_polished_andesite", 7),
   ("block_grass_block", 8), ("block_dirt", 9),
   ("block_coarse_dirt", 10), ("block_podzol", 11),
   ("block_cobblestone", 12), ("block_infested_stone", 232),
   ("block_infested_cobblestone", 233), ("block_infested_stone_bricks", 234),
   ("block_infested_mossy_stone_bricks", 235), ("block_infested_cracked_stone_bricks", 236),
   ("block_infested_chiseled_stone_bricks", 237), ("block_oak_planks", 13),
   ("block_spruce_planks", 14), ("block_birch_planks", 15),
   ("block_jungle_planks", 16), ("block_acacia_planks", 17),
   ("block_dark_oak_planks", 18), ("block_oak_sapling", 19),
   ("block_spruce_sapling", 20), ("block_birch_sapling", 21),
   ("block_jungle_sapling", 22), ("block_acacia_sapling", 23),
   ("block_dark_oak_sapling", 24), ("block_bedrock", 25),
   ("block_flowing_water", 26), ("block_flowing_lava", 28),
   ("block_water", 26), ("block_lava", 28),
   ("block_ice", 185), ("block_glass", 67),
   ("block_white_stained_glass", 206), ("block_orange_stained_glass", 207),
   ("block_magenta_stained_glass", 208), ("block_light_blue_stained_glass", 209),
   ("block_yellow_stained_glass", 210), ("block_lime_stained_glass", 211),
   ("block_pink_stained_glass", 212), ("block_gray_stained_glass", 213),
   ("block_light_gray_stained_glass", 214), ("block_cyan_stained_glass", 215),
   ("block_purple_stained_glass", 216), ("block_blue_stained_glass", 217),
   ("block_brown_stained_glass", 218), ("block_green_stained_glass", 219),
   ("block_red_stained_glass", 220), ("block_black_stained_glass", 221),
   ("block_sand", 28), ("block_red_sand", 29),
   ("block_gravel", 30), ("block_gold_ore", 31),
   ("block_iron_ore", 32), ("block_coal_ore", 33),
   ("block_nether_gold_ore", 34), ("block_oak_log", 35),
   ("block_spruce_log", 36), ("block_birch_log", 37),
   ("block_jungle_log", 38), ("block_acacia_log", 39),
   ("block_dark_oak_log", 40), ("block_stripped_oak_log", 46),
   ("block_stripped_spruce_log", 41), ("block_stripped_birch_log", 42),
   ("block_stripped_jungle_log", 43), ("block_stripped_acacia_log", 44),
   ("block_stripped_dark_oak_log", 45), ("block_oak_wood", 47),
   ("block_spruce_wood", 48), ("block_birch_wood", 49),
   ("block_jungle_wood", 50), ("block_acacia_wood", 51),
   ("block_dark_oak_wood", 52), ("block_stripped_oak_wood", 53),
   ("block_stripped_spruce_wood", 54), ("block_stripped_birch_wood", 55),
   ("block_stripped_jungle_wood", 56), ("block_stripped_acacia_wood", 57),
   ("block_stripped_dark_oak_wood", 58), ("block_oak_leaves", 59),
   ("block_spruce_leaves", 60), ("block_birch_leaves", 61),
   ("block_jungle_leaves", 62), ("block_acacia_leaves", 63),
   ("block_dark_oak_leaves", 64), ("block_sponge", 65),
   ("block_wet_sponge", 66), ("block_lapis_ore", 68),
   ("block_lapis_block", 69), ("block_sandstone", 71),
   ("block_chiseled_sandstone", 72), ("block_cut_sandstone", 73),
   ("block_noteblock", 74), ("block_white_bed", 75),
   ("block_orange_bed", 76), ("block_magenta_bed", 77),
   ("block_light_blue_bed", 78), ("block_yellow_bed", 79),
   ("block_lime_bed", 80), ("block_pink_bed", 81),
   ("block_gray_bed", 82), ("block_light_gray_bed", 83),
   ("block_cyan_bed", 84), ("block_purple_bed", 85),
   ("block_blue_bed", 86), ("block_brown_bed", 87),
   ("block_green_bed", 88), ("block_red_bed", 89),
   ("block_black_bed", 90), ("block_powered_rail", 91),
   ("block_detector_rail", 92), ("block_sticky_piston", 93),
   ("block_piston", 100), ("block_piston_head", 101),
   ("block_cobweb", 94), ("block_dead_bush", 97),
   ("block_grass", 95), ("block_fern", 96),
   ("block_tall_grass", 414), ("block_white_wool", 102),
   ("block_orange_wool", 103), ("block_magenta_wool", 104),
   ("block_light_blue_wool", 105), ("block_yellow_wool", 106),
   ("block_lime_wool", 107), ("block_pink_wool", 108),
   ("block_gray_wool", 109), ("block_light_gray_wool", 110),
   ("block_cyan_wool", 111), ("block_purple_wool", 112),
   ("block_blue_wool", 113), ("block_brown_wool", 114),
   ("block_green_wool", 115), ("block_red_wool", 116),
   ("block_black_wool", 117), ("block_poppy", 120),
   ("block_blue_orchid", 121), ("block_allium", 122),
   ("block_azure_bluet", 123), ("block_red_tulip", 124),
   ("block_orange_tulip", 125), ("block_white_tulip", 126),
   ("block_pink_tulip", 127), ("block_oxeye_daisy", 128),
   ("block_dandelion", 119), ("block_wither_rose", 130),
   ("block_cornflower", 129), ("block_lily_of_the_valley", 131),
   ("block_brown_mushroom", 132), ("block_red_mushroom", 133),
   ("block_gold_block", 134), ("block_iron_block", 135),
   ("block_oak_slab", 452), ("block_spruce_slab", 453),
   ("block_birch_slab", 454), ("block_jungle_slab", 455),
   ("block_acacia_slab", 456), ("block_dark_oak_slab", 457),
   ("block_petrified_oak_slab", 462), ("block_stone_slab", 458),
   ("block_sandstone_slab", 460), ("block_cobblestone_slab", 463),
   ("block_brick_slab", 464), ("block_stone_brick_slab", 465),
   ("block_nether_brick_slab", 466), ("block_quartz_slab", 467),
   ("block_red_sandstone_slab", 468), ("block_purpur_slab", 470),
   ("block_prismarine_slab", 386), ("block_dark_prismarine_slab", 388),
   ("block_prismarine_brick_slab", 387), ("block_andesite_slab", 650),
   ("block_diorite_slab", 653), ("block_granite_slab", 649),
   ("block_polished_andesite_slab", 652), ("block_polished_diorite_slab", 644),
   ("block_polished_granite_slab", 641), ("block_red_nether_brick_slab", 651),
   ("block_smooth_sandstone_slab", 647), ("block_cut_sandstone_slab", 461),
   ("block_smooth_red_sandstone_slab", 642), ("block_cut_red_sandstone_slab", 469),
   ("block_end_stone_brick_slab", 646), ("block_mossy_cobblestone_slab", 645),
   ("block_mossy_stone_brick_slab", 643), ("block_smooth_quartz_slab", 648),
   ("block_smooth_stone_slab", 459), ("block_brick", 136),
   ("block_tnt", 137), ("block_bookshelf", 138),
   ("block_mossy_cobblestone", 139), ("block_obsidian", 140),
   ("block_torch", 141), ("block_wall_torch", 142),
   ("block_redstone_torch", 181), ("block_redstone_wall_torch", 182),
   ("block_fire", 143), ("block_spawner", 145),
   ("block_oak_stairs", 146), ("block_cobblestone_stairs", 164),
   ("block_brick_stairs", 251), ("block_stone_brick_stairs", 252),
   ("block_nether_brick_stairs", 257), ("block_sandstone_stairs", 268),
   ("block_spruce_stairs", 274), ("block_birch_stairs", 275),
   ("block_jungle_stairs", 276), ("block_quartz_stairs", 340),
   ("block_acacia_stairs", 375), ("block_dark_oak_stairs", 376),
   ("block_red_sandstone_stairs", 451), ("block_purpur_stairs", 495),
   ("block_prismarine_stairs", 383), ("block_dark_prismarine_stairs", 385),
   ("block_prismarine_brick_stairs", 384), ("block_mossy_stone_brick_stairs", 629),
   ("block_mossy_cobblestone_stairs", 631), ("block_smooth_sandstone_stairs", 634),
   ("block_smooth_quartz_stairs", 635), ("block_polished_granite_stairs", 627),
   ("block_polished_diorite_stairs", 630), ("block_polished_andesite_stairs", 639),
   ("block_stone_stairs", 633), ("block_granite_stairs", 636),
   ("block_diorite_stairs", 640), ("block_andesite_stairs", 637),
   ("block_end_stone_brick_stairs", 632), ("block_red_nether_brick_stairs", 638),
   ("block_smooth_red_sandstone_stairs", 628), ("block_chest", 147),
   ("block_ender_chest", 270), ("block_trapped_chest", 329),
   ("block_redstone_wire", 148), ("block_diamond_ore", 149),
   ("block_diamond_block", 150), ("block_crafting_table", 151),
   ("block_fletching_table", 671), ("block_cartography_table", 672),
   ("block_smithing_table", 675), ("block_wheat", 152),
   ("block_farmland", 153), ("block_grass_path", 498),
   ("block_dispenser", 70), ("block_furnace", 154),
   ("block_dropper", 342), ("block_blast_furnace", 670),
   ("block_smoker", 669), ("block_oak_sign", 155),
   ("block_spruce_sign", 156), ("block_birch_sign", 157),
   ("block_jungle_sign", 158), ("block_acacia_sign", 159),
   ("block_dark_oak_sign", 160), ("block_oak_door", 161),
   ("block_iron_door", 173), ("block_spruce_door", 485),
   ("block_birch_door", 486), ("block_jungle_door", 487),
   ("block_acacia_door", 488), ("block_dark_oak_door", 489),
   ("block_ladder", 162), ("block_rail", 163),
   ("block_activator_rail", 341), ("block_oak_wall_sign", 165),
   ("block_spruce_wall_sign", 166), ("block_birch_wall_sign", 167),
   ("block_jungle_wall_sign", 168), ("block_acacia_wall_sign", 169),
   ("block_dark_oak_wall_sign", 170), ("block_lever", 171),
   ("block_stone_pressure_plate", 172), ("block_oak_pressure_plate", 174),
   ("block_spruce_pressure_plate", 175), ("block_birch_pressure_plate", 176),
   ("block_jungle_pressure_plate", 177), ("block_acacia_pressure_plate", 178),
   ("block_dark_oak_pressure_plate", 179), ("block_light_weighted_pressure_plate", 330),
   ("block_heavy_weighted_pressure_plate", 331), ("block_redstone_ore", 180),
   ("block_stone_button", 183), ("block_oak_button", 308),
   ("block_spruce_button", 309), ("block_birch_button", 310),
   ("block_jungle_button", 311), ("block_acacia_button", 312),
   ("block_dark_oak_button", 313), ("block_snow", 184),
   ("block_snow_block", 186), ("block_cactus", 187),
   ("block_clay", 188), ("block_sugar_cane", 189),
   ("block_jukebox", 190), ("block_oak_fence", 191),
   ("block_oak_fence_gate", 250), ("block_nether_brick_fence", 256),
   ("block_spruce_fence_gate", 475), ("block_birch_fence_gate", 476),
   ("block_jungle_fence_gate", 477), ("block_acacia_fence_gate", 478),
   ("block_dark_oak_fence_gate", 479), ("block_spruce_fence", 480),
   ("block_birch_fence", 481), ("block_jungle_fence", 482),
   ("block_dark_oak_fence", 483), ("block_acacia_fence", 484),
   ("block_pumpkin", 192), ("block_jack_o_lantern", 203),
   ("block_carved_pumpkin", 202), ("block_netherrack", 193),
   ("block_soul_sand", 194), ("block_glowstone", 200),
   ("block_nether_portal", 201), ("block_oak_trapdoor", 222),
   ("block_iron_trapdoor", 379), ("block_spruce_trapdoor", 223),
   ("block_birch_trapdoor", 224), ("block_jungle_trapdoor", 225),
   ("block_acacia_trapdoor", 226), ("block_dark_oak_trapdoor", 227),
   ("block_brown_mushroom_block", 238), ("block_red_mushroom_block", 239),
   ("block_mushroom_stem", 240), ("block_prismarine", 380),
   ("block_prismarine_bricks", 381), ("block_dark_prismarine", 382),
   ("block_cake", 204), ("block_repeater", 205),
   ("block_iron_bars", 241), ("block_glass_pane", 243),
   ("block_white_stained_glass_pane", 359), ("block_orange_stained_glass_pane", 360),
   ("block_magenta_stained_glass_pane", 361), ("block_light_blue_stained_glass_pane", 362),
   ("block_yellow_stained_glass_pane", 363), ("block_lime_stained_glass_pane", 364),
   ("block_pink_stained_glass_pane", 365), ("block_gray_stained_glass_pane", 366),
   ("block_light_gray_stained_glass_pane", 367), ("block_cyan_stained_glass_pane", 368),
   ("block_purple_stained_glass_pane", 369), ("block_blue_stained_glass_pane", 370),
   ("block_brown_stained_glass_pane", 371), ("block_green_stained_glass_pane", 372),
   ("block_red_stained_glass_pane", 373), ("block_black_stained_glass_pane", 374),
   ("block_melon_block", 103), ("block_melon", 244),
   ("block_attached_pumpkin_stem", 245), ("block_attached_melon_stem", 246),
   ("block_pumpkin_stem", 247), ("block_melon_stem", 248),
   ("block_terracotta", 407), ("block_white_terracotta", 343),
   ("block_orange_terracotta", 344), ("block_magenta_terracotta", 345),
   ("block_light_blue_terracotta", 346), ("block_yellow_terracotta", 347),
   ("block_lime_terracotta", 348), ("block_pink_terracotta", 349),
   ("block_gray_terracotta", 350), ("block_light_gray_terracotta", 351),
   ("block_cyan_terracotta", 352), ("block_purple_terracotta", 353),
   ("block_blue_terracotta", 354), ("block_brown_terracotta", 355),
   ("block_green_terracotta", 356), ("block_red_terracotta", 357),
   ("block_black_terracotta", 358), ("block_white_glazed_terracotta", 526),
   ("block_orange_glazed_terracotta", 527), ("block_magenta_glazed_terracotta", 528),
   ("block_light_blue_glazed_terracotta", 529), ("block_yellow_glazed_terracotta", 530),
   ("block_lime_glazed_terracotta", 531), ("block_pink_glazed_terracotta", 532),
   ("block_gray_glazed_terracotta", 533), ("block_light_gray_glazed_terracotta", 534),
   ("block_cyan_glazed_terracotta", 535), ("block_purple_glazed_terracotta", 536),
   ("block_blue_glazed_terracotta", 537), ("block_brown_glazed_terracotta", 538),
   ("block_green_glazed_terracotta", 539), ("block_red_glazed_terracotta", 540),
   ("block_black_glazed_terracotta", 541), ("block_vine", 249),
   ("block_mycelium", 253), ("block_lily_pad", 254),
   ("block_nether_brick", 255), ("block_nether_wart", 258),
   ("block_enchanting_table", 259), ("block_brewing_stand", 260),
   ("block_cauldron", 261), ("block_end_portal", 262),
   ("block_end_portal_frame", 263), ("block_end_stone", 264),
   ("block_dragon_egg", 265), ("block_redstone_lamp", 266),
   ("block_cocoa", 267), ("block_emerald_ore", 269),
   ("block_tripwire_hook", 272), ("block_tripwire_wire", 271),
   ("block_emerald_block", 273), ("block_beacon", 278),
   ("block_carrots", 306), ("block_potatoes", 307),
   ("block_redstone_block", 334), ("block_nether_quartz_ore", 335),
   ("block_quartz_block", 337), ("block_smooth_quartz", 473),
   ("block_quartz_pillar", 339), ("block_chiseled_quartz_block", 338),
   ("block_command_block", 277), ("block_repeating_command_block", 500),
   ("block_chain_command_block", 501), ("block_slime", 377),
   ("block_anvil", 326), ("block_chipped_anvil", 327),
   ("block_damaged_anvil", 328), ("block_andesite_wall", 661),
   ("block_brick_wall", 654), ("block_cobblestone_wall", 279),
   ("block_diorite_wall", 665), ("block_end_stone_brick_wall", 664),
   ("block_granite_wall", 658), ("block_mossy_cobblestone_wall", 280),
   ("block_mossy_stone_brick_wall", 657), ("block_nether_brick_wall", 660),
   ("block_prismarine_wall", 655), ("block_red_nether_brick_wall", 662),
   ("block_red_sandstone_wall", 656), ("block_sandstone_wall", 663),
   ("block_stone_brick_wall", 659), ("block_chorus_plant", 491),
   ("block_comparator", 332), ("block_daylight_detector", 333),
   ("block_hopper", 336), ("block_white_carpet", 391),
   ("block_orange_carpet", 392), ("block_magenta_carpet", 393),
   ("block_light_blue_carpet", 394), ("block_yellow_carpet", 395),
   ("block_lime_carpet", 396), ("block_pink_carpet", 397),
   ("block_gray_carpet", 398), ("block_light_gray_carpet", 399),
   ("block_cyan_carpet", 400), ("block_purple_carpet", 401),
   ("block_blue_carpet", 402), ("block_brown_carpet", 403),
   ("block_green_carpet", 404), ("block_red_carpet", 405),
   ("block_black_carpet", 406), ("block_chorus_flower", 492),
   ("block_purpur_block", 493), ("block_purpur_pillar", 494),
   ("block_sea_lantern", 389), ("block_hay_block", 390),
   ("block_coal_block", 408), ("block_packed_ice", 409),
   ("block_red_sandstone", 448), ("block_chiseled_red_sandstone", 449),
   ("block_cut_red_sandstone", 450), ("block_end_bricks", 496),
   ("block_beetroots", 497), ("block_sweet_berry_bush", 682),
   ("block_frosted_ice", 502), ("block_magma_block", 503),
   ("block_nether_wart_block", 504), ("block_red_nether_brick", 505),
   ("block_bone_block", 506), ("block_shulker_box", 509),
   ("block_white_shulker_box", 510), ("block_orange_shulker_box", 511),
   ("block_magenta_shulker_box", 512), ("block_light_blue_shulker_box", 513),
   ("block_yellow_shulker_box", 514), ("block_lime_shulker_box", 515),
   ("block_pink_shulker_box", 516), ("block_gray_shulker_box", 517),
   ("block_light_gray_shulker_box", 518), ("block_cyan_shulker_box", 519),
   ("block_purple_shulker_box", 520), ("block_blue_shulker_box", 521),
   ("block_brown_shulker_box", 522), ("block_green_shulker_box", 523),
   ("block_red_shulker_box", 524), ("block_black_shulker_box", 525),
   ("block_observer", 508), ("block_ancient_debris", 735),
   ("block_basalt", 196), ("block_polished_basalt", 197),
   ("block_soul_campfire", 681), ("block_campfire", 680),
   ("block_blackstone", 743), ("block_netherite_block", 734),
   ("block_warped_nylium", 687), ("block_crimson_nylium", 696),
   ("block_soul_soil", 195), ("block_bell", 677),
   ("block_beehive", 731), ("block_bee_nest", 730),
   ("block_honeycomb_block", 733), ("block_honey_block", 732),
   ("block_dried_kelp_block", 576), ("block_scaffolding", 666),
   ("block_white_concrete", 542), ("block_orange_concrete", 543),
   ("block_magenta_concrete", 544), ("block_light_blue_concrete", 545),
   ("block_yellow_concrete", 546), ("block_lime_concrete", 547),
   ("block_pink_concrete", 548), ("block_gray_concrete", 549),
   ("block_light_gray_concrete", 550), ("block_cyan_concrete", 551),
   ("block_purple_concrete", 552), ("block_blue_concrete", 553),
   ("block_brown_concrete", 554), ("block_green_concrete", 555),
   ("block_red_concrete", 556), ("block_black_concrete", 557),
   ("block_white_concrete_powder", 558), ("block_orange_concrete_powder", 559),
   ("block_magenta_concrete_powder", 560), ("block_light_blue_concrete_powder", 561),
   ("block_yellow_concrete_powder", 562), ("block_lime_concrete_powder", 563),
   ("block_pink_concrete_powder", 564), ("block_gray_concrete_powder", 565),
   ("block_light_gray_concrete_powder", 566), ("block_cyan_concrete_powder", 567),
   ("block_purple_concrete_powder", 568), ("block_blue_concrete_powder", 569),
   ("block_brown_concrete_powder", 570), ("block_green_concrete_powder", 571),
   ("block_red_concrete_powder", 572), ("block_black_concrete_powder", 573),
   ("block_jigsaw", 727), ("block_structure_block", 726),
   ("block_warped_wart_block", 689), ("block_shroomlight", 698),
   ("block_twisting_vines", 701), ("block_twisting_vines_plant", 702),
   ("block_weeping_vines", 699), ("block_weeping_vines_plant", 700),
   ("block_grindstone", 673), ("block_loom", 667),
   ("block_stonecutter", 676), ("block_lectern", 674),
   ("block_composter", 728), ("block_bamboo", 622),
   ("block_bamboo_sapling", 621), ("block_warped_fungus", 688),
   ("block_crimson_fungus", 697), ("block_warped_roots", 690),
   ("block_crimson_roots", 703), ("block_lantern", 678),
   ("block_sapling", 116), ("block_monster_egg", 97),
   ("block_stonebrick", 98), ("block_lit_redstone_lamp", 124),
   ("block_flower_pot", 140), ("block_skull", 144),
   ("block_stained_hardened_clay", 159), ("block_barrier", 166),
   ("block_hardened_clay", 172), ("block_double_plant", 175),
   ("block_standing_banner", 176), ("block_wall_banner", 177),
   ("block_end_rod", 198), ("block_structure_void", 217),
   ("block_end_gateway", 209)
  ]

/-- The numeric values that `enum mc_block_id` gives to more than one enumerator. -/
def shared_values : List Nat :=
  [26, 28, 97, 103, 116, 124, 140, 159, 166, 172, 175, 176, 177, 209, 217]

/-- One step of the distinctness check: `acc` is a bit set of the values seen so
far, or `none` once a value came twice. -/
def seen_step (acc : Option Nat) (v : Nat) : Option Nat :=
  match acc with
  | none => none
  | some m => if m.testBit v then none else some (m ||| 1 <<< v)

/-- A linear check that the values of a list are pairwise distinct. -/
def distinct_values (l : List Nat) : Bool := (l.foldl seen_step (some 0)).isSome

/-! ## `underground` with its column scan recorded, and further concrete worlds -/

/-- The function `underground` once more, returning next to its result a record of
the statement `for (dy = y + 1; dy < 255; dy++)`: `some rows` when control reaches
that statement, `rows` being the rows `dy` on which the loop body ran, in order, and
`none` when the function returns without reaching it. -/
def underground_trace (E : Externals) (state : RenderState) (x y z : Int) :
    Bool × Option (List Int) :=
  if exposed_valid E state x y z then
    if touches_light E state DataType.SKYLIGHT (to_uint32 x) (to_uint32 y) (to_uint32 z) then
      let blockID := state.blocks x y z
      if blockID = 8 ∨ blockID = 11 then
        match (column_scan_trace E state x z (254 - y).toNat (y + 1)).1 with
        | some r => (r, some (column_scan_trace E state x z (254 - y).toNat (y + 1)).2)
        | none =>
          (if transparent_invalid E state x y z then true else false,
           some (column_scan_trace E state x z (254 - y).toNat (y + 1)).2)
      else (if transparent_invalid E state x y z then true else false, none)
    else (true, none)
  else (true, none)

/-- Stone everywhere with a block of ID 8 at (5,5,5). -/
def buried_grass_blocks : Int → Int → Int → Nat :=
  fun x y z => if x = 5 ∧ y = 5 ∧ z = 5 then 8 else 1

/-- A voxel of ID 8 at (5,5,5) inside stone, all chunks loaded. -/
def buried_grass_state : RenderState := voxel_state true buried_grass_blocks 5 5 5

/-- The sky light of `pocket_sky` with sky light 15 also at (5,4,5), the voxel
below (5,5,5). -/
def below_sky : Int → Int → Int → Nat :=
  fun x y z => if x = 5 ∧ y = 4 ∧ z = 5 then 15 else pocket_sky x y z

/-- Stone with a single water voxel (ID 26) at (5,5,5) and lit air at (6,5,5). -/
def water_pocket_blocks : Int → Int → Int → Nat :=
  fun x y z => if x = 5 ∧ y = 5 ∧ z = 5 then 26 else pocket_blocks x y z

/-- A water voxel at (5,5,5) beside the lit air pocket, all chunks loaded. -/
def water_pocket_state : RenderState := voxel_state true water_pocket_blocks 5 5 5

/-! ## block_class.c: the reads of `block_class_is_subset`

The loops of `block_class_is_subset` once more, returning the indices at which
they read the array: the start index `i` of every vector load
`block_class[i .. i + w - 1]`, and every index `i` of a scalar read
`block_class[i]`. -/

/-- The start indices of the loads of a vector phase, in order. -/
def vector_phase_loads (w : Nat) (block : mc_block_t) (block_class : List mc_block_t)
    (block_class_len : Nat) : Nat → Nat → List Nat
  | 0, _ => []
  | fuel + 1, i =>
    if i / w < block_class_len / w then
      if lanes_hit block block_class i w then [i]
      else i :: vector_phase_loads w block block_class block_class_len fuel (i + w)
    else []

/-- The indices read by the scalar loop, in order. -/
def scalar_phase_reads (block : mc_block_t) (block_class : List mc_block_t)
    (block_class_len : Nat) : Nat → Nat → List Nat
  | 0, _ => []
  | fuel + 1, i =>
    if i < block_class_len then
      if block_class[i]? == some block then [i]
      else i :: scalar_phase_reads block block_class block_class_len fuel (i + 1)
    else []

/-- The start indices of the 8-wide loads of `block_class_is_subset`. -/
def sse2_loads (sse2 : Bool) (block : mc_block_t) (block_class : List mc_block_t)
    (block_class_len : Nat) : List Nat :=
  if sse2 then vector_phase_loads 8 block block_class block_class_len block_class_len 0
  else []

/-- The start indices of the 4-wide loads of `block_class_is_subset`: none when the
function returned from the 8-wide phase. -/
def mmx_loads (sse2 mmx : Bool) (block : mc_block_t) (block_class : List mc_block_t)
    (block_class_len : Nat) : List Nat :=
  let p1 := if sse2 then vector_phase 8 block block_class block_class_len block_class_len 0
            else (false, 0)
  if p1.1 then []
  else if mmx then vector_phase_loads 4 block block_class block_class_len block_class_len p1.2
  else []

/-- The indices of the scalar reads of `block_class_is_subset`: none when the
function returned from a vector phase. -/
def scalar_reads (sse2 mmx : Bool) (block : mc_block_t) (block_class : List mc_block_t)
    (block_class_len : Nat) : List Nat :=
  let p1 := if sse2 then vector_phase 8 block block_class block_class_len block_class_len 0
            else (false, 0)
  if p1.1 then []
  else
    let p2 := if mmx then vector_phase 4 block block_class block_class_len block_class_len p1.2
              else (false, p1.2)
    if p2.1 then []
    else scalar_phase_reads block block_class block_class_len block_class_len p2.2

/-- The indices examined by loads of width `w` starting at the given indices. -/
def covered (w : Nat) : List Nat → List Nat
  | [] => []
  | i :: rest => List.range' i w ++ covered w rest

/-! ## The sample offsets of the rule table -/

/-- The offset from the face-adjacent voxel to the voxel of the `k`-th sample of a
corner: 0, `d1`, `d2` and `d1 + d2`. -/
def sample_offset (face : SmoothLightingFace) (i k : Fin 4) : Int × Int × Int :=
  let p := face.corners i
  match k with
  | 0 => (0, 0, 0)
  | 1 => (p.dx1, p.dy1, p.dz1)
  | 2 => (p.dx2, p.dy2, p.dz2)
  | 3 => (p.dx1 + p.dx2, p.dy1 + p.dy2, p.dz1 + p.dz2)

/-- The 16 sample offsets of a face, corner by corner. -/
def sample_offsets (face : SmoothLightingFace) : List (Int × Int × Int) :=
  (List.finRange 4).flatMap (fun i => (List.finRange 4).map (fun k => sample_offset face i k))

/-- The 27 offsets with components in -1..1. -/
def cube_offsets : List (Int × Int × Int) :=
  [-1, 0, 1].flatMap (fun a => [-1, 0, 1].flatMap (fun b => [-1, 0, 1].map (fun c => (a, b, c))))

/-! ## The corner colour with rounding -/

/-- A run of C code that reads `*state` and calls `get_data`: it returns a value, or
reads `*state` and goes on, or calls `get_data(state, t, x, y, z)` and goes on with
the value returned. -/
inductive Prog (α : Type) where
  | ret (a : α) : Prog α
  | read_state (k : RenderState → Prog α) : Prog α
  | call_get_data (t : DataType) (x y z : Int) (k : Nat → Prog α) : Prog α

/-- Sequencing: `p`, then `f` on the value of `p`. -/
def Prog.bind {α β : Type} : Prog α → (α → Prog β) → Prog β
  | Prog.ret a, f => f a
  | Prog.read_state k, f => Prog.read_state (fun s => (k s).bind f)
  | Prog.call_get_data t x y z k, f => Prog.call_get_data t x y z (fun v => (k v).bind f)

/-- What the code runs against: `view w` is `*state` as it is in the world `w`,
`get_data w t x y z` the value returned by `get_data(state, t, x, y, z)` called in
`w` together with the world after the call, and `is_transparent` the macro. -/
structure World (W : Type) where
  view : W → RenderState
  get_data : W → DataType → Int → Int → Int → Nat × W
  is_transparent : Nat → Bool

/-- Running the code in a world: the value returned and the world at the end. -/
def Prog.run {W α : Type} (G : World W) : Prog α → W → α × W
  | Prog.ret a, w => (a, w)
  | Prog.read_state k, w => (k (G.view w)).run G w
  | Prog.call_get_data t x y z k, w =>
    (k (G.get_data w t x y z).1).run G (G.get_data w t x y z).2

/-- The value of the code when `get_data` is the lookup `E.get_data state` and every
read of `*state` gives `state`. -/
def Prog.eval {α : Type} (E : Externals) (state : RenderState) : Prog α → α
  | Prog.ret a => a
  | Prog.read_state k => (k state).eval E state
  | Prog.call_get_data t x y z k => (k (E.get_data state t x y z)).eval E state

/-- The lookups as they answer in the world `w`. -/
def World.externals {W : Type} (G : World W) (w : W) : Externals where
  get_data := fun _ t x y z => (G.get_data w t x y z).1
  is_transparent := G.is_transparent

/-- The loop `for(dy = 0; dy < 5; dy++) if(get_data(state, BLOCKS, x, dy, z)) valid = true;`
over the rows still to visit, `valid` being the flag so far. -/
def boundary_scan_from (x z : Int) : List Nat → Bool → Prog Bool
  | [], valid => Prog.ret valid
  | dy :: rest, valid =>
    Prog.call_get_data DataType.BLOCKS x (dy : Int) z
      (fun v => boundary_scan_from x z rest (if v ≠ 0 then true else valid))

/-- The statement `if (x == 0 && (...)) { validMinusX = false; for ... }`: the value
of `validMinusX` after it. -/
def validMinusX_run (x z : Int) : Prog Bool :=
  if x = 0 then
    Prog.read_state (fun s =>
      if no_section s 0 1 = true then boundary_scan_from (x - 1) z (List.range 5) false
      else Prog.ret true)
  else Prog.ret true

/-- The statement `if (x == 15 && (...)) { validPlusX = false; for ... }`. -/
def validPlusX_run (x z : Int) : Prog Bool :=
  if x = 15 then
    Prog.read_state (fun s =>
      if no_section s 2 1 = true then boundary_scan_from (x + 1) z (List.range 5) false
      else Prog.ret true)
  else Prog.ret true

/-- The statement `if (y == 0 && (...)) validMinusY = false;`. -/
def validMinusY_run (y : Int) : Prog Bool :=
  if y = 0 then Prog.read_state (fun s => Prog.ret (validMinusY s y)) else Prog.ret true

/-- The statement `if (y == 15 && (...)) validPlusY = false;`. -/
def validPlusY_run (y : Int) : Prog Bool :=
  if y = 15 then Prog.read_state (fun s => Prog.ret (validPlusY s y)) else Prog.ret true

/-- The statement `if (z == 0 && (...)) { validMinusZ = false; for ... }`. -/
def validMinusZ_run (x z : Int) : Prog Bool :=
  if z = 0 then
    Prog.read_state (fun s =>
      if no_section s 1 0 = true then boundary_scan_from x (z - 1) (List.range 5) false
      else Prog.ret true)
  else Prog.ret true

/-- The statement `if (z == 15 && (...)) { validPlusZ = false; for ... }`. -/
def validPlusZ_run (x z : Int) : Prog Bool :=
  if z = 15 then
    Prog.read_state (fun s =>
      if no_section s 1 2 = true then boundary_scan_from x (z + 1) (List.range 5) false
      else Prog.ret true)
  else Prog.ret true

/-- The expression `is_transparent(get_data(state, BLOCKS, x, y, z))`. -/
def transparent_run (tr : Nat → Bool) (x y z : Int) : Prog Bool :=
  Prog.call_get_data DataType.BLOCKS x y z (fun v => Prog.ret (tr v))

/-- The expression `a && p`: `p` is run only when `a` holds. -/
def and_then (a : Bool) (p : Prog Bool) : Prog Bool :=
  if a then p else Prog.ret false

/-- The expression `p || q`: `q` is run only when `p` gave false. -/
def or_else (p q : Prog Bool) : Prog Bool :=
  p.bind (fun b => if b then Prog.ret true else q)

/-- The condition of the outer `if` of `underground`, the six flags being given. -/
def exposed_run (tr : Nat → Bool) (v1 v2 v3 v4 v5 v6 : Bool) (x y z : Int) : Prog Bool :=
  or_else (and_then v1 (transparent_run tr (x - 1) y z))
    (or_else (and_then v2 (transparent_run tr (x + 1) y z))
      (or_else (and_then v3 (transparent_run tr x (y - 1) z))
        (or_else (and_then v4 (transparent_run tr x (y + 1) z))
          (or_else (and_then v5 (transparent_run tr x y (z - 1)))
            (and_then v6 (transparent_run tr x y (z + 1)))))))

/-- The function `touches_light` on its `uint32_t` parameters. -/
def touches_light_run (type : DataType) (x y z : Int) : Prog Bool :=
  Prog.call_get_data type (to_int32 x) (to_int32 (to_uint32 (y + 1))) (to_int32 z) (fun v0 =>
    if v0 ≠ 0 then Prog.ret true
    else Prog.call_get_data type (to_int32 (to_uint32 (x + 1))) (to_int32 y) (to_int32 z) (fun v1 =>
      if v1 ≠ 0 then Prog.ret true
      else Prog.call_get_data type (to_int32 (to_uint32 (x - 1))) (to_int32 y) (to_int32 z)
        (fun v2 =>
          if v2 ≠ 0 then Prog.ret true
          else Prog.call_get_data type (to_int32 x) (to_int32 y) (to_int32 (to_uint32 (z + 1)))
            (fun v3 =>
              if v3 ≠ 0 then Prog.ret true
              else Prog.call_get_data type (to_int32 x) (to_int32 y)
                (to_int32 (to_uint32 (z - 1)))
                (fun v4 => if v4 ≠ 0 then Prog.ret true else Prog.ret false)))))

/-- The loop `for (dy = y + 1; dy < 255; dy++)` of the special-ID case, started at
`dy`: `some r` when the loop body returns `r`, `none` when the loop is left. -/
def column_scan_run (tr : Nat → Bool) (x z : Int) : Nat → Int → Prog (Option Bool)
  | 0, _ => Prog.ret none
  | fuel + 1, dy =>
    if dy < 255 then
      Prog.call_get_data DataType.SKYLIGHT x dy z (fun v =>
        if v ≠ 0 then Prog.ret (some false)
        else Prog.call_get_data DataType.BLOCKS x dy z (fun b =>
          if !tr b then Prog.ret (some true) else column_scan_run tr x z fuel (dy + 1)))
    else Prog.ret none

/-- One statement `if(!validD) { if(is_transparent(get_data(...))) return 1; }`
followed by `rest`. -/
def guard_run (tr : Nat → Bool) (valid : Bool) (x y z : Int) (rest : Prog Bool) : Prog Bool :=
  if !valid then
    Prog.call_get_data DataType.BLOCKS x y z (fun b => if tr b then Prog.ret true else rest)
  else rest

/-- The six guards of the invalid directions and the final `return 0`. -/
def guards_run (tr : Nat → Bool) (v1 v2 v3 v4 v5 v6 : Bool) (x y z : Int) : Prog Bool :=
  guard_run tr v1 (x - 1) y z
    (guard_run tr v2 (x + 1) y z
      (guard_run tr v3 x (y - 1) z
        (guard_run tr v4 x (y + 1) z
          (guard_run tr v5 x y (z - 1)
            (guard_run tr v6 x y (z + 1) (Prog.ret false))))))

/-- The body of `underground` as a run: the six flags, the exposure test, the
sky-light test, the column scan of the IDs 8 and 11, the six guards. -/
def underground_run (tr : Nat → Bool) (x y z : Int) : Prog Bool :=
  (validMinusX_run x z).bind (fun v1 =>
  (validPlusX_run x z).bind (fun v2 =>
  (validMinusY_run y).bind (fun v3 =>
  (validPlusY_run y).bind (fun v4 =>
  (validMinusZ_run x z).bind (fun v5 =>
  (validPlusZ_run x z).bind (fun v6 =>
  (exposed_run tr v1 v2 v3 v4 v5 v6 x y z).bind (fun exposed =>
    if exposed then
      (touches_light_run DataType.SKYLIGHT (to_uint32 x) (to_uint32 y) (to_uint32 z)).bind
        (fun lit =>
          if lit then
            Prog.read_state (fun s =>
              (if s.blocks x y z = 8 ∨ s.blocks x y z = 11 then
                column_scan_run tr x z (254 - y).toNat (y + 1)
              else Prog.ret none).bind (fun r =>
                match r with
                | some b => Prog.ret b
                | none => guards_run tr v1 v2 v3 v4 v5 v6 x y z))
          else Prog.ret true)
    else Prog.ret true)))))))

/-- The function `underground` called in the world `w`: its result and the world
after the call. -/
def underground_st {W : Type} (G : World W) (w : W) (x y z : Int) : Bool × W :=
  (underground_run G.is_transparent x y z).run G w

/-- A world that counts the calls of `get_data`: the render state is `state`, the
lookups are those of `E`, and each call adds 1 to the counter. -/
def counting_world (E : Externals) (state : RenderState) : World Nat where
  view := fun _ => state
  get_data := fun n t x y z => (E.get_data state t x y z, n + 1)
  is_transparent := E.is_transparent

/-- A world in which `get_data` loads chunks on demand: the world is the `loaded`
flag of `chunks[0][1]`, which every call of `get_data` sets. The section holds
stone, and `get_data` answers air and full sky light outside it. -/
def loading_world : World Bool where
  view := fun loaded => voxel_state loaded stone_blocks 0 5 5
  get_data := fun _ t x _ z =>
    (if 0 ≤ x ∧ x < 16 ∧ 0 ≤ z ∧ z < 16 then
       match t with
       | DataType.BLOCKS => 1
       | DataType.SKYLIGHT => 0
     else
       match t with
       | DataType.BLOCKS => 0
       | DataType.SKYLIGHT => 15,
     true)
  is_transparent := fun b => b == 0

/-! ## Lemmas on the block classifier -/

theorem lanes_hit_iff (block : mc_block_t) (C : List mc_block_t) (i w : Nat) :
    lanes_hit block C i w = true ↔ ∃ k, k < w ∧ C[i + k]? = some block := by
  simp [lanes_hit, List.any_eq_true, List.mem_range]

theorem block_fits {w i len : Nat} (hi : i % w = 0) (h : i / w < len / w) : i + w ≤ len := by
  have h1 := Nat.div_add_mod i w
  have h2 := Nat.div_mul_le_self len w
  have h3 : (i / w + 1) * w ≤ len / w * w := Nat.mul_le_mul_right w h
  have h4 : (i / w + 1) * w = w * (i / w) + w := by ring
  omega

/-- What a vector phase establishes: a hit is a real member below `len`; without a
hit the loop was left through its own condition, at a multiple of `w` not above
`len`, and no element in between equals `block`. -/
theorem vector_phase_spec (w : Nat) (hw : 0 < w) (block : mc_block_t) (C : List mc_block_t)
    (len : Nat) : ∀ fuel i, i % w = 0 → i ≤ len → len / w - i / w ≤ fuel →
      ((vector_phase w block C len fuel i).1 = true → ∃ j, j < len ∧ C[j]? = some block) ∧
      ((vector_phase w block C len fuel i).1 = false →
        i ≤ (vector_phase w block C len fuel i).2 ∧
        (vector_phase w block C len fuel i).2 ≤ len ∧
        (vector_phase w block C len fuel i).2 % w = 0 ∧
        ¬ ((vector_phase w block C len fuel i).2 / w < len / w) ∧
        ∀ j, i ≤ j → j < (vector_phase w block C len fuel i).2 → C[j]? ≠ some block) := by
  intro fuel
  induction fuel with
  | zero =>
    intro i hi hle hf
    simp only [vector_phase]
    refine ⟨by simp, fun _ => ⟨le_refl _, hle, hi, by omega, fun j h1 h2 => by omega⟩⟩
  | succ n ih =>
    intro i hi hle hf
    by_cases hc : i / w < len / w
    · have hfit := block_fits hi hc
      by_cases hl : lanes_hit block C i w = true
      · simp only [vector_phase, hc, hl, if_true]
        refine ⟨fun _ => ?_, by simp⟩
        obtain ⟨k, hk, hk2⟩ := (lanes_hit_iff block C i w).1 hl
        exact ⟨i + k, by omega, hk2⟩
      · have hdiv : (i + w) / w = i / w + 1 := Nat.add_div_right i hw
        have hmod : (i + w) % w = 0 := by rw [Nat.add_mod_right]; exact hi
        obtain ⟨ih1, ih2⟩ := ih (i + w) hmod hfit (by omega)
        rw [vector_phase, if_pos hc, if_neg hl]
        refine ⟨ih1, fun hr => ?_⟩
        obtain ⟨a1, a2, a3, a4, a5⟩ := ih2 hr
        refine ⟨by omega, a2, a3, a4, fun j hj1 hj2 => ?_⟩
        by_cases hjw : i + w ≤ j
        · exact a5 j hjw hj2
        · intro hj
          apply hl
          rw [lanes_hit_iff]
          refine ⟨j - i, by omega, ?_⟩
          rw [show i + (j - i) = j by omega]
          exact hj
    · rw [vector_phase, if_neg hc]
      exact ⟨by simp, fun _ => ⟨le_refl _, hle, hi, hc, fun j h1 h2 => by omega⟩⟩

/-- The scalar loop finds exactly the members at the indices from `i` up to `len`. -/
theorem scalar_phase_spec (block : mc_block_t) (C : List mc_block_t) (len : Nat) :
    ∀ fuel i, len - i ≤ fuel →
      (scalar_phase block C len fuel i = true ↔ ∃ j, i ≤ j ∧ j < len ∧ C[j]? = some block) := by
  intro fuel
  induction fuel with
  | zero =>
    intro i hf
    simp only [scalar_phase]
    constructor
    · intro h; cases h
    · rintro ⟨j, h1, h2, _⟩; omega
  | succ n ih =>
    intro i hf
    by_cases hc : i < len
    · by_cases he : C[i]? = some block
      · simp only [scalar_phase, hc, he, beq_self_eq_true, if_true, true_iff]
        exact ⟨i, le_refl _, hc, he⟩
      · have hb : ¬ ((C[i]? == some block) = true) := by simpa using he
        rw [scalar_phase, if_pos hc, if_neg hb]
        rw [ih (i + 1) (by omega)]
        constructor
        · rintro ⟨j, h1, h2, h3⟩
          exact ⟨j, by omega, h2, h3⟩
        · rintro ⟨j, h1, h2, h3⟩
          have : j ≠ i := by
            rintro rfl
            exact he h3
          exact ⟨j, by omega, h2, h3⟩
    · simp only [scalar_phase, hc, if_false]
      constructor
      · intro h; cases h
      · rintro ⟨j, h1, h2, _⟩; omega

/-- A vector phase that is compiled in or not: same facts as `vector_phase_spec`. -/
theorem optional_phase_spec (enabled : Bool) (w : Nat) (hw : 0 < w) (block : mc_block_t)
    (C : List mc_block_t) (len i : Nat) (hi : i % w = 0) (hle : i ≤ len) :
    ((if enabled then vector_phase w block C len len i else (false, i)).1 = true →
        ∃ j, j < len ∧ C[j]? = some block) ∧
    ((if enabled then vector_phase w block C len len i else (false, i)).1 = false →
        i ≤ (if enabled then vector_phase w block C len len i else (false, i)).2 ∧
        (if enabled then vector_phase w block C len len i else (false, i)).2 ≤ len ∧
        (if enabled then vector_phase w block C len len i else (false, i)).2 % w = 0 ∧
        ∀ j, i ≤ j → j < (if enabled then vector_phase w block C len len i else (false, i)).2 →
          C[j]? ≠ some block) := by
  cases enabled
  · simp only [Bool.false_eq_true, if_false]
    exact ⟨by simp, fun _ => ⟨le_refl _, hle, hi, fun j h1 h2 => by omega⟩⟩
  · simp only [if_true]
    have hfuel : len / w - i / w ≤ len :=
      le_trans (Nat.sub_le _ _) (Nat.div_le_self _ _)
    obtain ⟨h1, h2⟩ := vector_phase_spec w hw block C len len i hi hle hfuel
    refine ⟨h1, fun hr => ?_⟩
    obtain ⟨a1, a2, a3, _, a5⟩ := h2 hr
    exact ⟨a1, a2, a3, a5⟩

/-- Membership characterisation of `block_class_is_subset`, for every choice of
compiled-in vector phases. -/
theorem block_class_is_subset_iff (sse2 mmx : Bool) (block : mc_block_t)
    (C : List mc_block_t) (len : Nat) :
    block_class_is_subset sse2 mmx block C len = true ↔
      ∃ j, j < len ∧ C[j]? = some block := by
  unfold block_class_is_subset
  obtain ⟨s1, s2⟩ := optional_phase_spec sse2 8 (by decide) block C len 0 (by simp) (Nat.zero_le _)
  generalize (if sse2 = true then vector_phase 8 block C len len 0 else (false, 0)) = p1 at s1 s2 ⊢
  obtain ⟨f1, i1⟩ := p1
  cases f1
  · obtain ⟨a1, a2, a3, a5⟩ := s2 rfl
    simp only at a1 a2 a3 a5
    obtain ⟨t1, t2⟩ := optional_phase_spec mmx 4 (by decide) block C len i1 (by omega) a2
    simp only [Bool.false_eq_true, if_false]
    generalize (if mmx = true then vector_phase 4 block C len len i1 else (false, i1)) = p2
      at t1 t2 ⊢
    obtain ⟨f2, i2⟩ := p2
    cases f2
    · obtain ⟨b1, b2, b3, b5⟩ := t2 rfl
      simp only at b1 b2 b3 b5
      simp only [Bool.false_eq_true, if_false]
      rw [scalar_phase_spec block C len len i2 (by omega)]
      constructor
      · rintro ⟨j, _, h2, h3⟩
        exact ⟨j, h2, h3⟩
      · rintro ⟨j, h2, h3⟩
        refine ⟨j, ?_, h2, h3⟩
        by_contra hlt
        by_cases hj : j < i1
        · exact a5 j (Nat.zero_le _) hj h3
        · exact b5 j (by omega) (by omega) h3
    · simp only [if_true, true_iff]
      exact t1 rfl
  · simp only [if_true, true_iff]
    exact s1 rfl

/-- More fuel than the remaining number of blocks does not change a vector phase:
the loop ends through its condition or a `return`, never through the fuel. -/
theorem vector_phase_exit (w : Nat) (hw : 0 < w) (block : mc_block_t) (C : List mc_block_t)
    (len : Nat) : ∀ fuel extra i, len / w - i / w ≤ fuel →
      vector_phase w block C len (fuel + extra) i = vector_phase w block C len fuel i := by
  intro fuel
  induction fuel with
  | zero =>
    intro extra i hf
    have hc : ¬ (i / w < len / w) := by omega
    cases extra with
    | zero => rfl
    | succ e =>
      rw [show 0 + (e + 1) = e + 1 by omega]
      simp only [vector_phase, hc, if_false]
  | succ n ih =>
    intro extra i hf
    rw [show n + 1 + extra = (n + extra) + 1 by omega, vector_phase, vector_phase]
    by_cases hc : i / w < len / w
    · have hdiv : (i + w) / w = i / w + 1 := Nat.add_div_right i hw
      rw [if_pos hc, if_pos hc, ih extra (i + w) (by omega)]
    · rw [if_neg hc, if_neg hc]

/-- More fuel than the remaining number of elements does not change the scalar
phase. -/
theorem scalar_phase_exit (block : mc_block_t) (C : List mc_block_t) (len : Nat) :
    ∀ fuel extra i, len - i ≤ fuel →
      scalar_phase block C len (fuel + extra) i = scalar_phase block C len fuel i := by
  intro fuel
  induction fuel with
  | zero =>
    intro extra i hf
    have hc : ¬ (i < len) := by omega
    cases extra with
    | zero => rfl
    | succ e =>
      rw [show 0 + (e + 1) = e + 1 by omega]
      simp only [scalar_phase, hc, if_false]
  | succ n ih =>
    intro extra i hf
    rw [show n + 1 + extra = (n + extra) + 1 by omega, scalar_phase, scalar_phase]
    by_cases hc : i < len
    · rw [if_pos hc, if_pos hc, ih extra (i + 1) (by omega)]
    · rw [if_neg hc, if_neg hc]

/-- With `len` the whole length, the indices below `len` are all the elements. -/
theorem exists_index_iff_mem (block : mc_block_t) (C : List mc_block_t) :
    (∃ j, j < C.length ∧ C[j]? = some block) ↔ block ∈ C := by
  rw [List.mem_iff_getElem?]
  constructor
  · rintro ⟨j, _, h⟩
    exact ⟨j, h⟩
  · rintro ⟨j, h⟩
    obtain ⟨hj, _⟩ := List.getElem?_eq_some.1 h
    exact ⟨j, hj, h⟩

/-- Masking a 32-bit value with `~0b11111111` clears its low 8 bits. -/
theorem and_int_not_mask (b : Nat) (hb : b < 2 ^ 32) :
    b &&& int_not 0b11111111 = b / 256 * 256 := by
  unfold int_not
  apply Nat.eq_of_testBit_eq
  intro i
  have h1 : (2 ^ 32 - 1 - 0b11111111 : Nat) = 2 ^ 32 - (255 + 1) := by norm_num
  have h2 : (255 : Nat) = 2 ^ 8 - 1 := by norm_num
  have h3 : b / 256 * 256 = (b >>> 8) <<< 8 := by
    rw [Nat.shiftLeft_eq, Nat.shiftRight_eq_div_pow]
  rw [Nat.testBit_and, h1, Nat.testBit_two_pow_sub_succ (by norm_num), h3, Nat.testBit_shiftLeft,
    Nat.testBit_shiftRight, h2, Nat.testBit_two_pow_sub_one]
  by_cases hi : i < 8
  · simp [hi]
  · have h8 : 8 + (i - 8) = i := by omega
    rw [h8]
    by_cases hi2 : i < 32
    · simp [hi, hi2]
      omega
    · have : b.testBit i = false := by
        apply Nat.testBit_lt_two_pow
        calc b < 2 ^ 32 := hb
          _ ≤ 2 ^ i := Nat.pow_le_pow_right (by norm_num) (by omega)
      simp [this, hi2]

/-- The multiples of 256 equal to 1792 come from the numbers 1792 to 2047. -/
theorem wall_band_arith (n : Nat) : n / 256 * 256 = 1792 ↔ 1792 ≤ n ∧ n ≤ 2047 := by
  omega

/-- The wall test compares the block, low 8 bits cleared, with `0b111 << 8`. -/
theorem block_class_is_wall_iff (b : mc_block_t) (hb : b < 2 ^ 32) :
    block_class_is_wall b = true ↔ b / 256 * 256 = 0b111 <<< 8 := by
  unfold block_class_is_wall
  simp only [beq_iff_eq]
  rw [and_int_not_mask b hb, Nat.xor_eq_zero]

/-! ## The claims on the block classifier -/

/-- C1: for every block ID, every array holding at least `len` elements and every
choice of compiled-in vector phases, `block_class_is_subset` returns true if and
only if some index `i < len` has `C[i] = b`. -/
theorem block_class_is_subset_membership (sse2 mmx : Bool) (b : mc_block_t)
    (C : List mc_block_t) (len : Nat) (_hlen : len ≤ C.length) :
    block_class_is_subset sse2 mmx b C len = true ↔ ∃ i, i < len ∧ C[i]? = some b :=
  block_class_is_subset_iff sse2 mmx b C len

/-- Instance of C1 on a 13-element array, which takes one 8-wide block, one 4-wide
block and one scalar step. -/
theorem block_class_is_subset_membership_witness :
    13 ≤ [20, 21, 22, 23, 24, 25, 26, 27, 28, 29, 30, 31, 32].length ∧
    (block_class_is_subset true true 32 [20, 21, 22, 23, 24, 25, 26, 27, 28, 29, 30, 31, 32] 13
        = true ↔
      ∃ i, i < 13 ∧ [20, 21, 22, 23, 24, 25, 26, 27, 28, 29, 30, 31, 32][i]? = some 32) :=
  ⟨by decide, block_class_is_subset_membership true true 32
    [20, 21, 22, 23, 24, 25, 26, 27, 28, 29, 30, 31, 32] 13 (by decide)⟩

/-- C2: whichever of the two vector phases are compiled in, the three-phase
`block_class_is_subset` returns the same boolean as the scalar linear scan run
alone from index 0, which is the function with both vector phases left out. -/
theorem block_class_is_subset_refines_scalar (sse2 mmx : Bool) (b : mc_block_t)
    (C : List mc_block_t) (len : Nat) :
    block_class_is_subset sse2 mmx b C len = scalar_phase b C len len 0 ∧
    block_class_is_subset false false b C len = scalar_phase b C len len 0 := by
  have h : block_class_is_subset false false b C len = scalar_phase b C len len 0 := rfl
  refine ⟨?_, h⟩
  rw [← h, Bool.eq_iff_iff, block_class_is_subset_iff, block_class_is_subset_iff]

/-- C3: with length 0, `block_class_is_subset` returns false for every block ID
and every array, the empty one included: no loop body runs, so no element is
read. -/
theorem block_class_is_subset_empty (sse2 mmx : Bool) (b : mc_block_t) (C : List mc_block_t) :
    block_class_is_subset sse2 mmx b C 0 = false := by
  cases sse2 <;> cases mmx <;> rfl

/-- C4: `block_class_is_subset` is order-independent: on two arrays of the same
length `len` that are permutations of each other it returns the same boolean. -/
theorem block_class_is_subset_perm (sse2 mmx : Bool) (b : mc_block_t)
    (C C' : List mc_block_t) (len : Nat) (hC : C.length = len) (hC' : C'.length = len)
    (hperm : C.Perm C') :
    block_class_is_subset sse2 mmx b C len = block_class_is_subset sse2 mmx b C' len := by
  rw [Bool.eq_iff_iff, block_class_is_subset_iff, block_class_is_subset_iff]
  subst hC
  rw [exists_index_iff_mem, ← hC', exists_index_iff_mem]
  exact hperm.mem_iff

/-- Instance of C4 on a 9-element array and its reversal. -/
theorem block_class_is_subset_perm_witness :
    block_class_is_subset true true 4 [1, 2, 3, 4, 5, 6, 7, 8, 9] 9 =
      block_class_is_subset true true 4 [9, 8, 7, 6, 5, 4, 3, 2, 1] 9 :=
  block_class_is_subset_perm true true 4 [1, 2, 3, 4, 5, 6, 7, 8, 9] [9, 8, 7, 6, 5, 4, 3, 2, 1] 9
    (by decide) (by decide) (by decide)

/-- C5: for every 16-bit block ID `b`, `block_class_is_wall b` is true if and only
if `1792 <= b <= 2047`, equivalently if and only if `b` with its low 8 bits cleared
equals `0b111 << 8`; it is false for 1791 and for 2048. -/
theorem block_class_is_wall_band (b : mc_block_t) (hb : b < 65536) :
    (block_class_is_wall b = true ↔ 1792 ≤ b ∧ b ≤ 2047) ∧
    (block_class_is_wall b = true ↔ b / 256 * 256 = 0b111 <<< 8) ∧
    block_class_is_wall 1791 = false ∧ block_class_is_wall 2048 = false := by
  have h := block_class_is_wall_iff b (Nat.lt_of_lt_of_le hb (by norm_num))
  refine ⟨?_, h, by decide, by decide⟩
  rw [h, show (0b111 <<< 8 : Nat) = 1792 by decide]
  exact wall_band_arith b

/-- Instance of C5 at the first ID of the band. -/
theorem block_class_is_wall_band_witness :
    (1792 : Nat) < 65536 ∧ block_class_is_wall 1792 = true :=
  ⟨by decide, ((block_class_is_wall_band 1792 (by decide)).1).2 ⟨by decide, by decide⟩⟩

/-- C6: evaluation of the wall test on the wall enumerators of `mc_id.h`. Their
IDs (279, 280 and 654 to 665) are all below 1792, so none lies in the band
1792..2047 and `block_class_is_wall` returns false on every one of them. -/
theorem wall_enumerators_outside_band :
    wall_blocks.length = 14 ∧
    (∀ b ∈ wall_blocks, b < 1792) ∧
    (∀ b ∈ wall_blocks, block_class_is_wall b = false) ∧
    block_class_is_wall block_andesite_wall = false := by
  decide

/-! ## Lemmas on the resolver -/

/-- More fuel than the rows left below 255 does not change the column scan: the
loop ends through its condition or a `return`, never through the fuel. -/
theorem column_scan_exit (E : Externals) (state : RenderState) (x z : Int) :
    ∀ fuel extra dy, (255 - dy).toNat ≤ fuel →
      column_scan E state x z (fuel + extra) dy = column_scan E state x z fuel dy := by
  intro fuel
  induction fuel with
  | zero =>
    intro extra dy hf
    have hc : ¬ (dy < 255) := by omega
    cases extra with
    | zero => rfl
    | succ e =>
      rw [show 0 + (e + 1) = e + 1 by omega]
      simp only [column_scan, hc, if_false]
  | succ n ih =>
    intro extra dy hf
    rw [show n + 1 + extra = (n + extra) + 1 by omega, column_scan, column_scan]
    by_cases hc : dy < 255
    · rw [if_pos hc, if_pos hc, ih extra (dy + 1) (by omega)]
    · rw [if_neg hc, if_neg hc]

/-- When no neighbour block is transparent, the outer condition of `underground`
fails, whatever the validity flags are. -/
theorem exposed_valid_of_solid (E : Externals) (state : RenderState) (x y z : Int)
    (h : transparent_at E state (x - 1) y z = false ∧ transparent_at E state (x + 1) y z = false ∧
      transparent_at E state x (y - 1) z = false ∧ transparent_at E state x (y + 1) z = false ∧
      transparent_at E state x y (z - 1) = false ∧ transparent_at E state x y (z + 1) = false) :
    exposed_valid E state x y z = false := by
  obtain ⟨h1, h2, h3, h4, h5, h6⟩ := h
  simp [exposed_valid, h1, h2, h3, h4, h5, h6]

/-- The result of `underground` once the outer condition and the sky-light check
have both succeeded. -/
theorem underground_of_exposed_lit (E : Externals) (state : RenderState) (x y z : Int)
    (hexp : exposed_valid E state x y z = true)
    (hlit : touches_light E state DataType.SKYLIGHT (to_uint32 x) (to_uint32 y) (to_uint32 z)
      = true) :
    underground E state x y z =
      match special_scan E state x y z with
      | some r => r
      | none => transparent_invalid E state x y z := by
  unfold underground
  rw [if_pos hexp, if_pos hlit]
  cases special_scan E state x y z with
  | some r => rfl
  | none => cases transparent_invalid E state x y z <;> rfl

/-- The only way for `underground` to return false. -/
theorem underground_false_iff (E : Externals) (state : RenderState) (x y z : Int) :
    underground E state x y z = false ↔
      exposed_valid E state x y z = true ∧
      touches_light E state DataType.SKYLIGHT (to_uint32 x) (to_uint32 y) (to_uint32 z) = true ∧
      (special_scan E state x y z = some false ∨
        (special_scan E state x y z = none ∧ transparent_invalid E state x y z = false)) := by
  unfold underground
  cases exposed_valid E state x y z <;>
    cases touches_light E state DataType.SKYLIGHT (to_uint32 x) (to_uint32 y) (to_uint32 z) <;>
    cases special_scan E state x y z with
    | none => cases transparent_invalid E state x y z <;> simp
    | some r => cases r <;> simp

/-! ## The claims on the resolver -/

/-- C7: when all six neighbour directions are valid and none of the six adjacent
blocks is transparent, `underground` returns true, whether or not sky light
reaches the voxel. -/
theorem underground_enclosed (E : Externals) (state : RenderState) (x y z : Int)
    (hvalid : validMinusX E state x z = true ∧ validPlusX E state x z = true ∧
      validMinusY state y = true ∧ validPlusY state y = true ∧
      validMinusZ E state x z = true ∧ validPlusZ E state x z = true)
    (hsolid : transparent_at E state (x - 1) y z = false ∧
      transparent_at E state (x + 1) y z = false ∧
      transparent_at E state x (y - 1) z = false ∧ transparent_at E state x (y + 1) z = false ∧
      transparent_at E state x y (z - 1) = false ∧ transparent_at E state x y (z + 1) = false) :
    underground E state x y z = true := by
  obtain ⟨v1, v2, v3, v4, v5, v6⟩ := hvalid
  obtain ⟨h1, h2, h3, h4, h5, h6⟩ := hsolid
  simp [underground, exposed_valid, v1, v2, v3, v4, v5, v6, h1, h2, h3, h4, h5, h6]

/-- Instance of C7: a stone voxel at (5,5,5) whose neighbour chunks are all loaded
and whose six neighbours are stone is reported underground. -/
theorem underground_enclosed_witness :
    buried_state.block = 1 ∧
    underground (sample_externals no_sky) buried_state 5 5 5 = true :=
  ⟨by decide, underground_enclosed (sample_externals no_sky) buried_state 5 5 5
    (by decide) (by decide)⟩

/-- C8 as stated fails on two inputs whose voxel has a transparent block in a valid
direction and passes the sky-light check, yet is reported underground. First a
voxel of ID 8 at (5,5,5) with lit air on its +X side and unlit stone above: the
column scan returns 1. Second a stone voxel at (0,5,5) under lit air whose -X chunk
is not loaded: the -X direction is invalid and its block is transparent. -/
theorem underground_exposed_lit_counterexample :
    (validPlusX (sample_externals pocket_sky) grass_state 5 5 = true ∧
      transparent_at (sample_externals pocket_sky) grass_state (5 + 1) 5 5 = true ∧
      touches_light (sample_externals pocket_sky) grass_state DataType.SKYLIGHT
        (to_uint32 5) (to_uint32 5) (to_uint32 5) = true ∧
      underground (sample_externals pocket_sky) grass_state 5 5 5 = true) ∧
    (validPlusY edge_state 5 = true ∧
      transparent_at (sample_externals surface_sky) edge_state 0 (5 + 1) 5 = true ∧
      touches_light (sample_externals surface_sky) edge_state DataType.SKYLIGHT
        (to_uint32 0) (to_uint32 5) (to_uint32 5) = true ∧
      underground (sample_externals surface_sky) edge_state 0 5 5 = true) := by
  decide

/-- C8, amended: when some valid neighbour direction contains a transparent block
and `touches_light(SKYLIGHT)` succeeds, `underground` returns false exactly when
either the column scan of a voxel of ID 8 or 11 returns 0, or that scan returns
nothing (the ID is neither 8 nor 11, or the loop is left) and no invalid direction
has a transparent block; in the other cases it returns true. -/
theorem underground_exposed_lit (E : Externals) (state : RenderState) (x y z : Int)
    (hexp : exposed_valid E state x y z = true)
    (hlit : touches_light E state DataType.SKYLIGHT (to_uint32 x) (to_uint32 y) (to_uint32 z)
      = true) :
    underground E state x y z = false ↔
      (special_scan E state x y z = some false ∨
        (special_scan E state x y z = none ∧ transparent_invalid E state x y z = false)) := by
  rw [underground_false_iff]
  simp [hexp, hlit]

/-- Instance of the amended C8: a stone voxel at (5,5,5) with lit air on its +X
side, all chunks loaded, is not underground. -/
theorem underground_exposed_lit_witness :
    underground (sample_externals pocket_sky) pocket_state 5 5 5 = false :=
  (underground_exposed_lit (sample_externals pocket_sky) pocket_state 5 5 5
    (by decide) (by decide)).2 (Or.inr ⟨by decide, by decide⟩)

/-- C9 as stated fails: for the stone voxel at (0,5,5) under lit air whose -X chunk
is not loaded, the -X direction is marked invalid and the block looked up on that
side is transparent, the sky-light check succeeds, and `underground` returns true
(hidden), not false. -/
theorem underground_invalid_transparent_counterexample :
    validMinusX (sample_externals surface_sky) edge_state 0 5 = false ∧
    transparent_at (sample_externals surface_sky) edge_state (0 - 1) 5 5 = true ∧
    touches_light (sample_externals surface_sky) edge_state DataType.SKYLIGHT
      (to_uint32 0) (to_uint32 5) (to_uint32 5) = true ∧
    underground (sample_externals surface_sky) edge_state 0 5 5 = true := by
  decide

/-- C9, amended: when some neighbour direction was marked invalid and the block on
that side is transparent, the voxel is treated as hidden: `underground` returns
true whatever the sky-light check gives, the one exception being a voxel of ID 8 or
11 that passed the exposure and sky-light checks and whose column scan returns 0. -/
theorem underground_invalid_transparent (E : Externals) (state : RenderState) (x y z : Int)
    (hinv : transparent_invalid E state x y z = true) :
    (underground E state x y z = false ↔
      exposed_valid E state x y z = true ∧
      touches_light E state DataType.SKYLIGHT (to_uint32 x) (to_uint32 y) (to_uint32 z) = true ∧
      special_scan E state x y z = some false) ∧
    (special_scan E state x y z ≠ some false → underground E state x y z = true) := by
  have h := underground_false_iff E state x y z
  rw [hinv] at h
  have h1 : underground E state x y z = false ↔
      exposed_valid E state x y z = true ∧
      touches_light E state DataType.SKYLIGHT (to_uint32 x) (to_uint32 y) (to_uint32 z) = true ∧
      special_scan E state x y z = some false := by
    rw [h]
    simp
  refine ⟨h1, fun hs => ?_⟩
  cases hu : underground E state x y z with
  | true => rfl
  | false => exact absurd (h1.1 hu).2.2 hs

/-- Instance of the amended C9 at the stone voxel on the unloaded western edge. -/
theorem underground_invalid_transparent_witness :
    transparent_invalid (sample_externals surface_sky) edge_state 0 5 5 = true ∧
    underground (sample_externals surface_sky) edge_state 0 5 5 = true :=
  ⟨by decide, (underground_invalid_transparent (sample_externals surface_sky) edge_state 0 5 5
    (by decide)).2 (by decide)⟩

/-- C10: when no neighbour block, in a valid or an invalid direction, is
transparent, or when `touches_light(SKYLIGHT)` is false, `underground` returns
true. -/
theorem underground_default (E : Externals) (state : RenderState) (x y z : Int)
    (h : (transparent_at E state (x - 1) y z = false ∧ transparent_at E state (x + 1) y z = false ∧
        transparent_at E state x (y - 1) z = false ∧ transparent_at E state x (y + 1) z = false ∧
        transparent_at E state x y (z - 1) = false ∧ transparent_at E state x y (z + 1) = false) ∨
      touches_light E state DataType.SKYLIGHT (to_uint32 x) (to_uint32 y) (to_uint32 z) = false) :
    underground E state x y z = true := by
  cases hu : underground E state x y z with
  | true => rfl
  | false =>
    obtain ⟨hexp, hlit, _⟩ := (underground_false_iff E state x y z).1 hu
    rcases h with h | h
    · rw [exposed_valid_of_solid E state x y z h] at hexp
      cases hexp
    · rw [h] at hlit
      cases hlit

/-- Instance of C10: a stone voxel next to an air voxel in a cave without any sky
light is underground. -/
theorem underground_default_witness :
    transparent_at (sample_externals no_sky) pocket_state (5 + 1) 5 5 = true ∧
    underground (sample_externals no_sky) pocket_state 5 5 5 = true :=
  ⟨by decide, underground_default (sample_externals no_sky) pocket_state 5 5 5
    (Or.inr (by decide))⟩


/-! ## Further lemmas on the resolver -/

/-- The five-row scan sets the flag exactly when one of the rows 0..4 holds a
nonzero block. -/
theorem boundary_scan_iff (E : Externals) (state : RenderState) (x z : Int) :
    boundary_scan E state x z = true ↔
      ∃ dy : Nat, dy < 5 ∧ E.get_data state DataType.BLOCKS x (dy : Int) z ≠ 0 := by
  have hr : List.range 5 = [0, 1, 2, 3, 4] := by decide
  unfold boundary_scan
  rw [hr]
  simp only [List.foldl]
  constructor
  · intro h
    by_contra hne
    have hall : ∀ dy : Nat, dy < 5 → E.get_data state DataType.BLOCKS x (dy : Int) z = 0 := by
      intro dy hdy
      by_contra h0
      exact hne ⟨dy, hdy, h0⟩
    have h0 := hall 0 (by decide)
    have h1 := hall 1 (by decide)
    have h2 := hall 2 (by decide)
    have h3 := hall 3 (by decide)
    have h4 := hall 4 (by decide)
    push_cast at h0 h1 h2 h3 h4
    simp [h0, h1, h2, h3, h4] at h
  · rintro ⟨dy, hdy, hne⟩
    have hcases : dy = 0 ∨ dy = 1 ∨ dy = 2 ∨ dy = 3 ∨ dy = 4 := by omega
    rcases hcases with rfl | rfl | rfl | rfl | rfl <;> simp at hne <;> simp [hne]

/-- The column scan returns 0 when it meets a lit voxel with only transparent
voxels before it. -/
theorem column_scan_lit (E : Externals) (state : RenderState) (x z d : Int) (hd : d < 255)
    (hsky : E.get_data state DataType.SKYLIGHT x d z ≠ 0) :
    ∀ n fuel dy, (d - dy).toNat = n → dy ≤ d → n < fuel →
      (∀ d', dy ≤ d' → d' < d → transparent_at E state x d' z = true) →
      column_scan E state x z fuel dy = some false := by
  intro n
  induction n with
  | zero =>
    intro fuel dy hn hle hf _
    have hdy : dy = d := by omega
    subst hdy
    obtain ⟨f, rfl⟩ : ∃ f, fuel = f + 1 := ⟨fuel - 1, by omega⟩
    rw [column_scan, if_pos hd, if_pos hsky]
  | succ m ih =>
    intro fuel dy hn hle hf htr
    obtain ⟨f, rfl⟩ : ∃ f, fuel = f + 1 := ⟨fuel - 1, by omega⟩
    have hlt : dy < d := by omega
    rw [column_scan, if_pos (by omega)]
    by_cases hs : E.get_data state DataType.SKYLIGHT x dy z ≠ 0
    · rw [if_pos hs]
    · have ht := htr dy (le_refl _) hlt
      rw [if_neg hs, ht]
      simp only [Bool.not_true, Bool.false_eq_true, if_false]
      exact ih f (dy + 1) (by omega) (by omega) (by omega)
        (fun d' h1 h2 => htr d' (by omega) h2)

/-- The column scan returns 1 when it meets an unlit non-transparent voxel with only
unlit transparent voxels before it. -/
theorem column_scan_blocked (E : Externals) (state : RenderState) (x z d : Int) (hd : d < 255)
    (hsky : E.get_data state DataType.SKYLIGHT x d z = 0)
    (hblock : transparent_at E state x d z = false) :
    ∀ n fuel dy, (d - dy).toNat = n → dy ≤ d → n < fuel →
      (∀ d', dy ≤ d' → d' < d →
        E.get_data state DataType.SKYLIGHT x d' z = 0 ∧ transparent_at E state x d' z = true) →
      column_scan E state x z fuel dy = some true := by
  intro n
  induction n with
  | zero =>
    intro fuel dy hn hle hf _
    have hdy : dy = d := by omega
    subst hdy
    obtain ⟨f, rfl⟩ : ∃ f, fuel = f + 1 := ⟨fuel - 1, by omega⟩
    rw [column_scan, if_pos hd, if_neg (by simpa using hsky), hblock]
    simp
  | succ m ih =>
    intro fuel dy hn hle hf htr
    obtain ⟨f, rfl⟩ : ∃ f, fuel = f + 1 := ⟨fuel - 1, by omega⟩
    have hlt : dy < d := by omega
    obtain ⟨hs, ht⟩ := htr dy (le_refl _) hlt
    rw [column_scan, if_pos (by omega), if_neg (by simpa using hs), ht]
    simp only [Bool.not_true, Bool.false_eq_true, if_false]
    exact ih f (dy + 1) (by omega) (by omega) (by omega)
      (fun d' h1 h2 => htr d' (by omega) h2)

/-- Conversion to `uint32_t` and back is the identity on the `int32_t` range. -/
theorem to_int32_to_uint32 (i : Int) (h1 : -2147483648 ≤ i) (h2 : i < 2147483648) :
    to_int32 (to_uint32 i) = i := by
  unfold to_int32 to_uint32
  omega

/-- Adding `c` in `uint32_t` arithmetic and converting back gives `i + c` as long as
`i + c` is in the `int32_t` range. -/
theorem to_int32_uint32_add (i c : Int) (h1 : -2147483648 ≤ i + c) (h2 : i + c < 2147483648) :
    to_int32 (to_uint32 (to_uint32 i + c)) = i + c := by
  unfold to_int32 to_uint32
  omega

/-- The function `touches_light`, called as `underground` calls it, reads the five
voxels adjacent to `(x, y, z)` and nothing else. -/
theorem touches_light_iff (E : Externals) (state : RenderState) (type : DataType) (x y z : Int)
    (hx : -2147483648 < x ∧ x < 2147483647) (hy : -2147483648 ≤ y ∧ y < 2147483647)
    (hz : -2147483648 < z ∧ z < 2147483647) :
    touches_light E state type (to_uint32 x) (to_uint32 y) (to_uint32 z) = true ↔
      (E.get_data state type x (y + 1) z ≠ 0 ∨ E.get_data state type (x + 1) y z ≠ 0 ∨
       E.get_data state type (x - 1) y z ≠ 0 ∨ E.get_data state type x y (z + 1) ≠ 0 ∨
       E.get_data state type x y (z - 1) ≠ 0) := by
  unfold touches_light
  rw [to_int32_to_uint32 x (by omega) (by omega), to_int32_to_uint32 y (by omega) (by omega),
    to_int32_to_uint32 z (by omega) (by omega),
    to_int32_uint32_add y 1 (by omega) (by omega), to_int32_uint32_add x 1 (by omega) (by omega),
    to_int32_uint32_add z 1 (by omega) (by omega),
    show to_uint32 x - 1 = to_uint32 x + (-1) by ring,
    show to_uint32 z - 1 = to_uint32 z + (-1) by ring,
    to_int32_uint32_add x (-1) (by omega) (by omega),
    to_int32_uint32_add z (-1) (by omega) (by omega),
    show x + -1 = x - 1 by ring, show z + -1 = z - 1 by ring]
  split_ifs <;> simp_all

/-! ## The claims on validity, the column scan and the sky-light check -/

/-- C11: for a voxel with x = 15 whose +X neighbour chunk is not loaded or whose +X
section has a null block array, if `get_data(BLOCKS, x+1, dy, z)` is nonzero for
some `dy` in 0..4 then `validPlusX` is true, so a transparent block at (x+1,y,z)
makes the exposure test succeed. -/
theorem validPlusX_heuristic (E : Externals) (state : RenderState) (x y z : Int)
    (hx : x = 15)
    (hno : (state.chunks 2 1).loaded = false ∨ (state.chunks 2 1).has_blocks state.chunky = false)
    (hrow : ∃ dy : Nat, dy < 5 ∧ E.get_data state DataType.BLOCKS (x + 1) (dy : Int) z ≠ 0) :
    validPlusX E state x z = true ∧
    (transparent_at E state (x + 1) y z = true → exposed_valid E state x y z = true) := by
  have hns : no_section state 2 1 = true := by
    unfold no_section
    rcases hno with h | h <;> simp [h]
  have hv : validPlusX E state x z = true := by
    unfold validPlusX
    rw [if_pos ⟨hx, hns⟩]
    exact (boundary_scan_iff E state (x + 1) z).2 hrow
  refine ⟨hv, fun ht => ?_⟩
  simp [exposed_valid, hv, ht]

/-- Instance of C11: the stone voxel at (15,5,5) whose +X chunk is not loaded, with
stone in the rows 0..4 of the column at x = 16 and air at (16,5,5). -/
theorem validPlusX_heuristic_witness :
    validPlusX (lazy_externals no_sky) east_edge_state 15 5 = true ∧
    exposed_valid (lazy_externals no_sky) east_edge_state 15 5 5 = true :=
  ⟨(validPlusX_heuristic (lazy_externals no_sky) east_edge_state 15 5 5 rfl
      (Or.inl (by decide)) ⟨0, by decide, by decide⟩).1,
   (validPlusX_heuristic (lazy_externals no_sky) east_edge_state 15 5 5 rfl
      (Or.inl (by decide)) ⟨0, by decide, by decide⟩).2 (by decide)⟩

/-- C12: `validMinusY` is false exactly when y = 0 and (chunky - 1 < 0 or section
chunky-1 of the centre chunk has a null block array); `validPlusY` is false exactly
when y = 15 and (chunky + 1 >= SECTIONS_PER_CHUNK or section chunky+1 of the centre
chunk has a null block array); neither flag depends on any block data, so no block
lookup can turn it back to true. -/
theorem vertical_validity (state : RenderState) (y : Int) :
    (validMinusY state y = false ↔
      y = 0 ∧ (state.chunky - 1 < 0 ∨ (state.chunks 1 1).has_blocks (state.chunky - 1) = false)) ∧
    (validPlusY state y = false ↔
      y = 15 ∧ (state.chunky + 1 ≥ SECTIONS_PER_CHUNK ∨
        (state.chunks 1 1).has_blocks (state.chunky + 1) = false)) ∧
    (∀ (blk : Int → Int → Int → Nat) (b : mc_block_t) (p : Nat),
      validMinusY { state with blocks := blk, block := b, block_pdata := p } y =
        validMinusY state y ∧
      validPlusY { state with blocks := blk, block := b, block_pdata := p } y =
        validPlusY state y) := by
  refine ⟨?_, ?_, fun _ _ _ => ⟨rfl, rfl⟩⟩
  · unfold validMinusY
    split_ifs with h
    · simp only [true_iff]
      exact h
    · simp only [Bool.true_eq_false, false_iff]
      exact h
  · unfold validPlusY
    split_ifs with h
    · simp only [true_iff]
      exact h
    · simp only [Bool.true_eq_false, false_iff]
      exact h

/-- C13: for a voxel whose own block ID is 8 or 11 and which passed the exposure
and sky-light checks, the scan of (x,dy,z) upward from dy = y+1 decides: if it
meets a voxel with nonzero sky light before any non-transparent voxel, `underground`
returns false; if it meets a non-transparent voxel with zero sky light first,
`underground` returns true. The scanned rows are those below 255. -/
theorem underground_special_column (E : Externals) (state : RenderState) (x y z : Int)
    (hid : state.blocks x y z = 8 ∨ state.blocks x y z = 11)
    (hexp : exposed_valid E state x y z = true)
    (hlit : touches_light E state DataType.SKYLIGHT (to_uint32 x) (to_uint32 y) (to_uint32 z)
      = true) :
    (∀ d, y < d → d < 255 → E.get_data state DataType.SKYLIGHT x d z ≠ 0 →
      (∀ d', y < d' → d' < d → transparent_at E state x d' z = true) →
      underground E state x y z = false) ∧
    (∀ d, y < d → d < 255 → E.get_data state DataType.SKYLIGHT x d z = 0 →
      transparent_at E state x d z = false →
      (∀ d', y < d' → d' < d →
        E.get_data state DataType.SKYLIGHT x d' z = 0 ∧ transparent_at E state x d' z = true) →
      underground E state x y z = true) := by
  have hu := underground_of_exposed_lit E state x y z hexp hlit
  have hs : special_scan E state x y z = column_scan E state x z (254 - y).toNat (y + 1) := by
    unfold special_scan
    simp only [hid, if_true]
  constructor
  · intro d h1 h2 hsky htr
    have hc := column_scan_lit E state x z d h2 hsky (d - (y + 1)).toNat (254 - y).toNat (y + 1)
      rfl (by omega) (by omega) (fun d' a b => htr d' (by omega) b)
    rw [hu, hs, hc]
  · intro d h1 h2 hsky hblock htr
    have hc := column_scan_blocked E state x z d h2 hsky hblock (d - (y + 1)).toNat
      (254 - y).toNat (y + 1) rfl (by omega) (by omega) (fun d' a b => htr d' (by omega) b)
    rw [hu, hs, hc]

/-- Instance of C13: the voxel of ID 8 under lit air is not underground, the voxel
of ID 8 under unlit stone, with lit air beside it, is underground. -/
theorem underground_special_column_witness :
    underground (sample_externals surface_sky) grass_surface_state 5 5 5 = false ∧
    underground (sample_externals pocket_sky) grass_state 5 5 5 = true :=
  ⟨(underground_special_column (sample_externals surface_sky) grass_surface_state 5 5 5
      (Or.inl (by decide)) (by decide) (by decide)).1 6 (by decide) (by decide) (by decide)
      (fun d' h1 h2 => by omega),
   (underground_special_column (sample_externals pocket_sky) grass_state 5 5 5
      (Or.inl (by decide)) (by decide) (by decide)).2 6 (by decide) (by decide) (by decide)
      (by decide) (fun d' h1 h2 => by omega)⟩

/-- C14 as stated fails: from the stone voxel at (5,5,5) the +X ray passes the
unlit air voxel (6,5,5) and reaches the lit voxel (7,5,5), two voxels away, with
only a transparent voxel before it, and the sky-light check of `underground`
still fails, so the voxel is reported underground. -/
theorem skylight_check_counterexample :
    transparent_at (sample_externals far_sky) tunnel_state 6 5 5 = true ∧
    (sample_externals far_sky).get_data tunnel_state DataType.SKYLIGHT 6 5 5 = 0 ∧
    (sample_externals far_sky).get_data tunnel_state DataType.SKYLIGHT 7 5 5 = 15 ∧
    touches_light (sample_externals far_sky) tunnel_state DataType.SKYLIGHT
      (to_uint32 5) (to_uint32 5) (to_uint32 5) = false ∧
    underground (sample_externals far_sky) tunnel_state 5 5 5 = true := by
  decide

/-- C14, amended: the sky-light check of `underground` makes no walk. It reads the
sky light of the voxel directly above and of the four voxels directly adjacent in
the cardinal directions, and succeeds exactly when one of these five values is
nonzero; a lit voxel two or more voxels away has no effect on it. -/
theorem skylight_check_adjacent (E : Externals) (state : RenderState) (x y z : Int)
    (hx : -2147483648 < x ∧ x < 2147483647) (hy : -2147483648 ≤ y ∧ y < 2147483647)
    (hz : -2147483648 < z ∧ z < 2147483647) :
    touches_light E state DataType.SKYLIGHT (to_uint32 x) (to_uint32 y) (to_uint32 z) = true ↔
      (E.get_data state DataType.SKYLIGHT x (y + 1) z ≠ 0 ∨
       E.get_data state DataType.SKYLIGHT (x + 1) y z ≠ 0 ∨
       E.get_data state DataType.SKYLIGHT (x - 1) y z ≠ 0 ∨
       E.get_data state DataType.SKYLIGHT x y (z + 1) ≠ 0 ∨
       E.get_data state DataType.SKYLIGHT x y (z - 1) ≠ 0) :=
  touches_light_iff E state DataType.SKYLIGHT x y z hx hy hz

/-- Instance of the amended C14: at the stone voxel beside the lit air pocket the
check succeeds through the voxel (6,5,5). -/
theorem skylight_check_adjacent_witness :
    touches_light (sample_externals pocket_sky) pocket_state DataType.SKYLIGHT
      (to_uint32 5) (to_uint32 5) (to_uint32 5) = true :=
  (skylight_check_adjacent (sample_externals pocket_sky) pocket_state 5 5 5
    (by decide) (by decide) (by decide)).2 (Or.inr (Or.inl (by decide)))

/-! ## Lemmas on the face renderer -/

/-- The first test of `smooth_lighting_draw` holds exactly for a transparent block
outside the four-element array. -/
theorem flat_lit_iff (sse2 mmx : Bool) (block_leaves : mc_block_t) (E : Externals)
    (state : RenderState) :
    flat_lit sse2 mmx block_leaves E state = true ↔
      (E.is_transparent state.block = true ∧
        state.block ∉ [block_leaves, block_flowing_water, block_water, block_ice]) := by
  unfold flat_lit
  have h : block_class_is_subset sse2 mmx state.block
      [block_leaves, block_flowing_water, block_water, block_ice] 4 = true ↔
      state.block ∈ [block_leaves, block_flowing_water, block_water, block_ice] :=
    (block_class_is_subset_iff sse2 mmx state.block
      [block_leaves, block_flowing_water, block_water, block_ice] 4).trans
      (exists_index_iff_mem state.block
        [block_leaves, block_flowing_water, block_water, block_ice])
  rw [Bool.and_eq_true, Bool.not_eq_true', ← Bool.not_eq_true, h]
  exact And.comm

/-- The function `do_shading_with_rule` never calls the flat-lighting `draw`. -/
theorem do_shading_with_rule_no_flat (X : LightingExternals)
    (self : RenderPrimitiveSmoothLightingHideUnderground) (state : RenderState)
    (face : SmoothLightingFace) :
    Call.primitive_lighting_draw ∉ do_shading_with_rule X self state face := by
  unfold do_shading_with_rule
  simp only
  split_ifs
  · simp
  · simp [corner_calls]

/-- The smooth-lighting path never calls the flat-lighting `draw`. -/
theorem smooth_faces_no_flat (X : LightingExternals)
    (self : RenderPrimitiveSmoothLightingHideUnderground) (state : RenderState) :
    Call.primitive_lighting_draw ∉ smooth_faces X self state := by
  unfold smooth_faces
  have h := do_shading_with_rule_no_flat X self state
  simp only [List.mem_append, not_or]
  refine ⟨⟨?_, ?_⟩, ?_⟩ <;> split_ifs <;> first | exact h _ | simp

/-- The test of a bit of `block_pdata` with `&` and a shifted 1. -/
theorem and_shift_eq_zero_iff (p k : Nat) : p &&& (1 <<< k) = 0 ↔ p.testBit k = false := by
  rw [Nat.one_shiftLeft, Nat.and_two_pow]
  cases p.testBit k <;> simp

/-- With `comp_shade_strength` 0 the blend leaves the sum as it is, and the stored
channel is the integer average of the four samples. -/
theorem shade_channel_comp_zero (s0 s1 s2 s3 : Nat) (h0 : s0 ≤ 255) (h1 : s1 ≤ 255)
    (h2 : s2 ≤ 255) (h3 : s3 ≤ 255) :
    shade_channel 0 s0 s1 s2 s3 = (s0 + s1 + s2 + s3) / 4 := by
  unfold shade_channel blend
  simp only [mul_zero, add_zero, Int.floor_natCast, Int.toNat_ofNat]
  omega

/-- With `comp_shade_strength` 1 the blend gives `255 * 4`, and the stored channel
is 255. -/
theorem shade_channel_comp_one (s0 s1 s2 s3 : Nat) (h0 : s0 ≤ 255) (h1 : s1 ≤ 255)
    (h2 : s2 ≤ 255) (h3 : s3 ≤ 255) :
    shade_channel 1 s0 s1 s2 s3 = 255 := by
  unfold shade_channel blend
  have hg : (s0 + s1 + s2 + s3) % 4294967296 = s0 + s1 + s2 + s3 := by omega
  have hd : (4294967296 + 255 * 4 - (s0 + s1 + s2 + s3)) % 4294967296 =
      1020 - (s0 + s1 + s2 + s3) := by omega
  have hle : s0 + s1 + s2 + s3 ≤ 1020 := by omega
  simp only [hg, hd, mul_one]
  have hq : (((s0 + s1 + s2 + s3 : Nat) : ℚ) + ((1020 - (s0 + s1 + s2 + s3) : Nat) : ℚ)) =
      ((1020 : Nat) : ℚ) := by
    rw [Nat.cast_sub hle]
    ring
  rw [hq, Int.floor_natCast, Int.toNat_ofNat]

/-- The calls of `get_lighting_color` are no triangles. -/
theorem triangles_corner_calls (state : RenderState) (face : SmoothLightingFace) (i : Fin 4) :
    triangles (corner_calls state face i) = [] := by
  simp [triangles, corner_calls, List.filterMap_map, Function.comp_def]

/-- The triangles of a concatenation. -/
theorem triangles_append (a b : List Call) : triangles (a ++ b) = triangles a ++ triangles b := by
  simp [triangles, List.filterMap_append]

/-- The triangles of `do_shading_with_rule`, for an occluded face or not. -/
theorem do_shading_with_rule_triangles_eq (X : LightingExternals)
    (self : RenderPrimitiveSmoothLightingHideUnderground) (state : RenderState)
    (face : SmoothLightingFace) :
    triangles (do_shading_with_rule X self state face) =
      if X.lighting_is_face_occluded state false (state.x + face.dx) (state.y + face.dy)
          (state.z + face.dz) = true then []
      else
        [{ inclusive := 1,
           v0 := corner_vertex X self.parent state face 0,
           v1 := corner_vertex X self.parent state face 1,
           v2 := corner_vertex X self.parent state face 2,
           tux := state.imgx, tuy := state.imgy,
           touchups := face.touch_up_points,
           num_touchups := face.num_touch_up_points },
         { inclusive := 0,
           v0 := corner_vertex X self.parent state face 0,
           v1 := corner_vertex X self.parent state face 2,
           v2 := corner_vertex X self.parent state face 3,
           tux := state.imgx, tuy := state.imgy,
           touchups := none,
           num_touchups := 0 }] := by
  unfold do_shading_with_rule
  simp only
  split_ifs
  · rfl
  · simp only [triangles_append, triangles_corner_calls, List.nil_append]
    rfl

/-! ## The claims on the face renderer -/

/-- C15: `smooth_lighting_draw` delegates to the `draw` of the flat-lighting
primitive, and then makes no other call, if and only if the block of the voxel is
transparent and is not one of the four entries leaves, flowing water, water, ice;
for every other block it takes the smooth-lighting path, which never calls the
flat-lighting `draw`. -/
theorem smooth_lighting_draw_delegates (sse2 mmx : Bool) (block_leaves : mc_block_t)
    (E : Externals) (X : LightingExternals)
    (self : RenderPrimitiveSmoothLightingHideUnderground) (state : RenderState) :
    (smooth_lighting_draw sse2 mmx block_leaves E X self state = [Call.primitive_lighting_draw] ↔
      (E.is_transparent state.block = true ∧
        state.block ∉ [block_leaves, block_flowing_water, block_water, block_ice])) ∧
    (Call.primitive_lighting_draw ∈ smooth_lighting_draw sse2 mmx block_leaves E X self state ↔
      (E.is_transparent state.block = true ∧
        state.block ∉ [block_leaves, block_flowing_water, block_water, block_ice])) ∧
    (smooth_lighting_draw sse2 mmx block_leaves E X self state = smooth_faces X self state ↔
      ¬ (E.is_transparent state.block = true ∧
        state.block ∉ [block_leaves, block_flowing_water, block_water, block_ice])) := by
  have hno := smooth_faces_no_flat X self state
  have hne : smooth_faces X self state ≠ [Call.primitive_lighting_draw] := by
    intro h
    rw [h] at hno
    exact hno (List.mem_singleton.2 rfl)
  rw [← flat_lit_iff sse2 mmx block_leaves E state]
  unfold smooth_lighting_draw
  by_cases hf : flat_lit sse2 mmx block_leaves E state = true
  · rw [if_pos hf]
    refine ⟨by simp [hf], by simp [hf], ?_⟩
    constructor
    · intro h
      exact absurd h.symm hne
    · intro h
      exact absurd hf h
  · rw [if_neg hf]
    refine ⟨?_, ?_, by simp [hf]⟩
    · constructor
      · intro h
        exact absurd h hne
      · intro h
        exact absurd h hf
    · constructor
      · intro h
        exact absurd h hno
      · intro h
        exact absurd h hf

/-- C16: on the smooth-lighting path a water voxel has its top face shaded iff bit
4 of `block_pdata` is set, its left face iff bit 1 is set and its right face iff
bit 2 is set, each flag depending on its own bit only; a water voxel always takes
that path; for a voxel that is not water all three faces are shaded whatever
`block_pdata` is. -/
theorem smooth_faces_water_bits (sse2 mmx : Bool) (block_leaves : mc_block_t)
    (E : Externals) (X : LightingExternals)
    (self : RenderPrimitiveSmoothLightingHideUnderground) (state : RenderState) :
    (state.block = block_water →
      light_top state = state.block_pdata.testBit 4 ∧
      light_left state = state.block_pdata.testBit 1 ∧
      light_right state = state.block_pdata.testBit 2 ∧
      smooth_lighting_draw sse2 mmx block_leaves E X self state = smooth_faces X self state ∧
      smooth_faces X self state =
        (if state.block_pdata.testBit 4 = true
          then do_shading_with_rule X self state (lighting_rules FACE_TOP) else []) ++
        (if state.block_pdata.testBit 1 = true
          then do_shading_with_rule X self state (lighting_rules FACE_LEFT) else []) ++
        (if state.block_pdata.testBit 2 = true
          then do_shading_with_rule X self state (lighting_rules FACE_RIGHT) else [])) ∧
    (state.block ≠ block_water →
      light_top state = true ∧ light_left state = true ∧ light_right state = true ∧
      smooth_faces X self state =
        do_shading_with_rule X self state (lighting_rules FACE_TOP) ++
        do_shading_with_rule X self state (lighting_rules FACE_LEFT) ++
        do_shading_with_rule X self state (lighting_rules FACE_RIGHT)) := by
  have hbit : ∀ k, (if state.block = block_water ∧ state.block_pdata &&& (1 <<< k) = 0
      then false else true) =
      (if state.block = block_water then state.block_pdata.testBit k else true) := by
    intro k
    by_cases hw : state.block = block_water
    · simp only [hw, true_and, if_true, and_shift_eq_zero_iff]
      cases state.block_pdata.testBit k <;> simp
    · simp [hw]
  have ht : light_top state =
      (if state.block = block_water then state.block_pdata.testBit 4 else true) := hbit 4
  have hl : light_left state =
      (if state.block = block_water then state.block_pdata.testBit 1 else true) := hbit 1
  have hr : light_right state =
      (if state.block = block_water then state.block_pdata.testBit 2 else true) := hbit 2
  constructor
  · intro hw
    rw [if_pos hw] at ht hl hr
    refine ⟨ht, hl, hr, ?_, ?_⟩
    · have hf : ¬ (flat_lit sse2 mmx block_leaves E state = true) := by
        rw [flat_lit_iff, hw]
        simp
      unfold smooth_lighting_draw
      rw [if_neg hf]
    · unfold smooth_faces
      rw [ht, hl, hr]
  · intro hw
    rw [if_neg hw] at ht hl hr
    refine ⟨ht, hl, hr, ?_⟩
    unfold smooth_faces
    rw [ht, hl, hr]
    simp

/-- Instance of C16: a water voxel whose `block_pdata` is 0b00110 (bit 4 unset,
bits 1 and 2 set) has its left and right faces shaded and not its top face. -/
theorem smooth_faces_water_bits_witness :
    (water_state 6).block = block_water ∧
    smooth_lighting_draw true true 59 (sample_externals no_sky) (uniform_lighting ⟨255, 255, 255⟩)
        full_strength (water_state 6) =
      do_shading_with_rule (uniform_lighting ⟨255, 255, 255⟩) full_strength (water_state 6)
        (lighting_rules FACE_LEFT) ++
      do_shading_with_rule (uniform_lighting ⟨255, 255, 255⟩) full_strength (water_state 6)
        (lighting_rules FACE_RIGHT) := by
  have h := (smooth_faces_water_bits true true 59 (sample_externals no_sky)
    (uniform_lighting ⟨255, 255, 255⟩) full_strength (water_state 6)).1 rfl
  refine ⟨rfl, ?_⟩
  rw [h.2.2.2.1, h.2.2.2.2]
  have h4 : (water_state 6).block_pdata.testBit 4 = false := by decide
  have h1 : (water_state 6).block_pdata.testBit 1 = true := by decide
  have h2 : (water_state 6).block_pdata.testBit 2 = true := by decide
  rw [h4, h1, h2]
  simp

/-- C17: with shading strength 1.0 each channel of each corner colour computed by
`do_shading_with_rule` is the integer average `(s0 + s1 + s2 + s3) / 4` of the four
sampled values of that channel; when the four samples are 255 in every channel the
corner colour is 255 in every channel. -/
theorem corner_color_strength_one (X : LightingExternals)
    (self : RenderPrimitiveSmoothLightingHideUnderground) (state : RenderState)
    (face : SmoothLightingFace) (i : Fin 4)
    (hs : self.parent.strength = 1)
    (hu8 : ∀ k, (sample X self.parent state face i k).r ≤ 255 ∧
      (sample X self.parent state face i k).g ≤ 255 ∧
      (sample X self.parent state face i k).b ≤ 255) :
    corner_color X self.parent state face i =
      { r := ((sample X self.parent state face i 0).r + (sample X self.parent state face i 1).r +
          (sample X self.parent state face i 2).r + (sample X self.parent state face i 3).r) / 4,
        g := ((sample X self.parent state face i 0).g + (sample X self.parent state face i 1).g +
          (sample X self.parent state face i 2).g + (sample X self.parent state face i 3).g) / 4,
        b := ((sample X self.parent state face i 0).b + (sample X self.parent state face i 1).b +
          (sample X self.parent state face i 2).b + (sample X self.parent state face i 3).b) / 4 } ∧
    ((∀ k, sample X self.parent state face i k = { r := 255, g := 255, b := 255 }) →
      corner_color X self.parent state face i = { r := 255, g := 255, b := 255 }) := by
  have hc : corner_color X self.parent state face i =
      { r := ((sample X self.parent state face i 0).r + (sample X self.parent state face i 1).r +
          (sample X self.parent state face i 2).r + (sample X self.parent state face i 3).r) / 4,
        g := ((sample X self.parent state face i 0).g + (sample X self.parent state face i 1).g +
          (sample X self.parent state face i 2).g + (sample X self.parent state face i 3).g) / 4,
        b := ((sample X self.parent state face i 0).b + (sample X self.parent state face i 1).b +
          (sample X self.parent state face i 2).b + (sample X self.parent state face i 3).b) / 4 } := by
    unfold corner_color
    simp only [hs, sub_self]
    rw [shade_channel_comp_zero _ _ _ _ (hu8 0).1 (hu8 1).1 (hu8 2).1 (hu8 3).1,
      shade_channel_comp_zero _ _ _ _ (hu8 0).2.1 (hu8 1).2.1 (hu8 2).2.1 (hu8 3).2.1,
      shade_channel_comp_zero _ _ _ _ (hu8 0).2.2 (hu8 1).2.2 (hu8 2).2.2 (hu8 3).2.2]
  refine ⟨hc, fun h => ?_⟩
  rw [hc, h 0, h 1, h 2, h 3]
  rfl

/-- Instance of C17: every voxel lit with (255, 255, 255), strength 1, top face of
the water voxel. -/
theorem corner_color_strength_one_witness :
    corner_color (uniform_lighting ⟨255, 255, 255⟩) full_strength.parent (water_state 0)
      (lighting_rules FACE_TOP) 0 = { r := 255, g := 255, b := 255 } :=
  (corner_color_strength_one (uniform_lighting ⟨255, 255, 255⟩) full_strength (water_state 0)
    (lighting_rules FACE_TOP) 0 rfl
    (fun _ => ⟨Nat.le_refl 255, Nat.le_refl 255, Nat.le_refl 255⟩)).2 (fun _ => rfl)

/-- C18: with shading strength 0.0 every channel of every corner colour computed by
`do_shading_with_rule` is 255, whatever the four sampled values in 0..255 are. -/
theorem corner_color_strength_zero (X : LightingExternals)
    (self : RenderPrimitiveSmoothLightingHideUnderground) (state : RenderState)
    (face : SmoothLightingFace) (i : Fin 4)
    (hs : self.parent.strength = 0)
    (hu8 : ∀ k, (sample X self.parent state face i k).r ≤ 255 ∧
      (sample X self.parent state face i k).g ≤ 255 ∧
      (sample X self.parent state face i k).b ≤ 255) :
    corner_color X self.parent state face i = { r := 255, g := 255, b := 255 } := by
  unfold corner_color
  simp only [hs, sub_zero]
  rw [shade_channel_comp_one _ _ _ _ (hu8 0).1 (hu8 1).1 (hu8 2).1 (hu8 3).1,
    shade_channel_comp_one _ _ _ _ (hu8 0).2.1 (hu8 1).2.1 (hu8 2).2.1 (hu8 3).2.1,
    shade_channel_comp_one _ _ _ _ (hu8 0).2.2 (hu8 1).2.2 (hu8 2).2.2 (hu8 3).2.2]

/-- Instance of C18: every voxel lit with (10, 20, 30), strength 0, left face of
the water voxel. -/
theorem corner_color_strength_zero_witness :
    corner_color (uniform_lighting ⟨10, 20, 30⟩) zero_strength.parent (water_state 0)
      (lighting_rules FACE_LEFT) 2 = { r := 255, g := 255, b := 255 } :=
  corner_color_strength_zero (uniform_lighting ⟨10, 20, 30⟩) zero_strength (water_state 0)
    (lighting_rules FACE_LEFT) 2 rfl (fun _ => by simp [sample, uniform_lighting])

/-- C19: for a face that is not occluded `do_shading_with_rule` emits exactly two
triangles, in this order: the first with the vertices of corners 0, 1, 2, the
second with those of corners 0, 2, 3; the vertex of corner `i` is at
`(state.imgx + corner.imgx, state.imgy + corner.imgy)` and carries the colour
computed for that corner; both triangles are anchored at `(state.imgx,
state.imgy)`. -/
theorem do_shading_with_rule_two_triangles (X : LightingExternals)
    (self : RenderPrimitiveSmoothLightingHideUnderground) (state : RenderState)
    (face : SmoothLightingFace)
    (hvis : X.lighting_is_face_occluded state false (state.x + face.dx) (state.y + face.dy)
      (state.z + face.dz) = false) :
    triangles (do_shading_with_rule X self state face) =
      [{ inclusive := 1,
         v0 := corner_vertex X self.parent state face 0,
         v1 := corner_vertex X self.parent state face 1,
         v2 := corner_vertex X self.parent state face 2,
         tux := state.imgx, tuy := state.imgy,
         touchups := face.touch_up_points,
         num_touchups := face.num_touch_up_points },
       { inclusive := 0,
         v0 := corner_vertex X self.parent state face 0,
         v1 := corner_vertex X self.parent state face 2,
         v2 := corner_vertex X self.parent state face 3,
         tux := state.imgx, tuy := state.imgy,
         touchups := none,
         num_touchups := 0 }] ∧
    (∀ i, corner_vertex X self.parent state face i =
      { x := state.imgx + (face.corners i).imgx,
        y := state.imgy + (face.corners i).imgy,
        r := (corner_color X self.parent state face i).r,
        g := (corner_color X self.parent state face i).g,
        b := (corner_color X self.parent state face i).b }) := by
  refine ⟨?_, fun _ => rfl⟩
  rw [do_shading_with_rule_triangles_eq, if_neg (by simp [hvis])]

/-- Instance of C19: the top face of the water voxel drawn at pixel (100, 200), no
face occluded: two triangles, the first vertex of the first one at (100, 206). -/
theorem do_shading_with_rule_two_triangles_witness :
    (triangles (do_shading_with_rule (uniform_lighting ⟨255, 255, 255⟩) full_strength
        (water_state 0) (lighting_rules FACE_TOP))).length = 2 ∧
    (corner_vertex (uniform_lighting ⟨255, 255, 255⟩) full_strength.parent (water_state 0)
        (lighting_rules FACE_TOP) 0).x = 100 ∧
    (corner_vertex (uniform_lighting ⟨255, 255, 255⟩) full_strength.parent (water_state 0)
        (lighting_rules FACE_TOP) 0).y = 206 := by
  have h := do_shading_with_rule_two_triangles (uniform_lighting ⟨255, 255, 255⟩) full_strength
    (water_state 0) (lighting_rules FACE_TOP) rfl
  refine ⟨?_, ?_, ?_⟩
  · rw [h.1]
    rfl
  · rw [h.2 0]
    rfl
  · rw [h.2 0]
    rfl

/-- C20: only the top face passes touch-up points to the rasterizer. The top rule
holds the array `top_touchups` of 12 integers with the count 6, and passes both to
the first of its two `draw_triangle` calls; the second call of the top rule and
every call of the left and right rules receive `NULL` and 0. -/
theorem touch_up_points_top_only (X : LightingExternals)
    (self : RenderPrimitiveSmoothLightingHideUnderground) (state : RenderState) :
    (lighting_rules FACE_TOP).touch_up_points = some top_touchups ∧
    (lighting_rules FACE_TOP).num_touch_up_points = 6 ∧
    top_touchups.length = 2 * 6 ∧
    ((triangles (do_shading_with_rule X self state (lighting_rules FACE_TOP))).map
        (fun t => (t.touchups, t.num_touchups)) =
      if X.lighting_is_face_occluded state false (state.x + (lighting_rules FACE_TOP).dx)
          (state.y + (lighting_rules FACE_TOP).dy) (state.z + (lighting_rules FACE_TOP).dz) = true
      then [] else [(some top_touchups, 6), (none, 0)]) ∧
    (∀ t ∈ triangles (do_shading_with_rule X self state (lighting_rules FACE_LEFT)),
      t.touchups = none ∧ t.num_touchups = 0) ∧
    (∀ t ∈ triangles (do_shading_with_rule X self state (lighting_rules FACE_RIGHT)),
      t.touchups = none ∧ t.num_touchups = 0) := by
  refine ⟨rfl, rfl, rfl, ?_, ?_, ?_⟩
  · rw [do_shading_with_rule_triangles_eq]
    split_ifs
    · rfl
    · rfl
  · intro t ht
    rw [do_shading_with_rule_triangles_eq] at ht
    split_ifs at ht
    · cases ht
    · simp only [List.mem_cons, List.mem_singleton, List.not_mem_nil, or_false] at ht
      rcases ht with rfl | rfl <;> exact ⟨rfl, rfl⟩
  · intro t ht
    rw [do_shading_with_rule_triangles_eq] at ht
    split_ifs at ht
    · cases ht
    · simp only [List.mem_cons, List.mem_singleton, List.not_mem_nil, or_false] at ht
      rcases ht with rfl | rfl <;> exact ⟨rfl, rfl⟩

/-! ## Further claims on the face renderer -/

/-- C21: when `lighting_is_face_occluded` reports the voxel `(x+dx, y+dy, z+dz)`
that a face points to as occluding, `do_shading_with_rule` makes no call at all for
that face: no triangle is emitted and no lighting colour is sampled. The other
faces of the voxel are processed as usual. -/
theorem do_shading_with_rule_occluded (X : LightingExternals)
    (self : RenderPrimitiveSmoothLightingHideUnderground) (state : RenderState)
    (face : SmoothLightingFace)
    (hocc : X.lighting_is_face_occluded state false (state.x + face.dx) (state.y + face.dy)
      (state.z + face.dz) = true) :
    do_shading_with_rule X self state face = [] ∧
    (face = lighting_rules FACE_TOP →
      smooth_faces X self state =
        (if light_left state then do_shading_with_rule X self state (lighting_rules FACE_LEFT)
          else []) ++
        (if light_right state then do_shading_with_rule X self state (lighting_rules FACE_RIGHT)
          else [])) ∧
    (face = lighting_rules FACE_LEFT →
      smooth_faces X self state =
        (if light_top state then do_shading_with_rule X self state (lighting_rules FACE_TOP)
          else []) ++
        (if light_right state then do_shading_with_rule X self state (lighting_rules FACE_RIGHT)
          else [])) ∧
    (face = lighting_rules FACE_RIGHT →
      smooth_faces X self state =
        (if light_top state then do_shading_with_rule X self state (lighting_rules FACE_TOP)
          else []) ++
        (if light_left state then do_shading_with_rule X self state (lighting_rules FACE_LEFT)
          else [])) := by
  have h : do_shading_with_rule X self state face = [] := by
    unfold do_shading_with_rule
    simp only [hocc, if_true]
  refine ⟨h, ?_, ?_, ?_⟩
  · intro hf
    rw [hf] at h
    unfold smooth_faces
    rw [h]
    simp
  · intro hf
    rw [hf] at h
    unfold smooth_faces
    rw [h]
    simp
  · intro hf
    rw [hf] at h
    unfold smooth_faces
    rw [h]
    simp

/-- Instance of C21: a water voxel with the bits 4, 2 and 1 set whose top face is
occluded: nothing is done for the top face, and the left and right faces give the
four triangles of the voxel. -/
theorem do_shading_with_rule_occluded_witness :
    do_shading_with_rule (top_occluded_lighting ⟨255, 255, 255⟩) full_strength (water_state 22)
      (lighting_rules FACE_TOP) = [] ∧
    (triangles (smooth_faces (top_occluded_lighting ⟨255, 255, 255⟩) full_strength
      (water_state 22))).length = 4 := by
  have h := do_shading_with_rule_occluded (top_occluded_lighting ⟨255, 255, 255⟩) full_strength
    (water_state 22) (lighting_rules FACE_TOP) (by decide)
  refine ⟨h.1, ?_⟩
  rw [h.2.1 rfl, if_pos (by decide), if_pos (by decide), triangles_append,
    do_shading_with_rule_triangles_eq, do_shading_with_rule_triangles_eq,
    if_neg (by decide), if_neg (by decide)]
  rfl

/-! ## Lemmas on validity, purity and the visited rows -/

/-- The section test spelled out. -/
theorem no_section_iff (state : RenderState) (i j : Nat) :
    no_section state i j = true ↔
      ((state.chunks i j).loaded = false ∨ (state.chunks i j).has_blocks state.chunky = false) := by
  unfold no_section
  cases (state.chunks i j).loaded <;> cases (state.chunks i j).has_blocks state.chunky <;> simp

/-- The five-row scan leaves the flag false exactly when the five rows are 0. -/
theorem boundary_scan_false_iff (E : Externals) (state : RenderState) (x z : Int) :
    boundary_scan E state x z = false ↔
      ∀ dy : Nat, dy < 5 → E.get_data state DataType.BLOCKS x (dy : Int) z = 0 := by
  rw [← Bool.not_eq_true, boundary_scan_iff]
  constructor
  · intro h dy hdy
    by_contra hne
    exact h ⟨dy, hdy, hne⟩
  · rintro h ⟨dy, hdy, hne⟩
    exact hne (h dy hdy)

/-- The column scan with recorded rows computes the result of `column_scan`, visits
only rows from `dy` up to 254, and at most as many rows as there are between them. -/
theorem column_scan_trace_spec (E : Externals) (state : RenderState) (x z : Int) :
    ∀ fuel dy,
      (column_scan_trace E state x z fuel dy).1 = column_scan E state x z fuel dy ∧
      (∀ r ∈ (column_scan_trace E state x z fuel dy).2, dy ≤ r ∧ r < 255) ∧
      (column_scan_trace E state x z fuel dy).2.length ≤ (255 - dy).toNat := by
  intro fuel
  induction fuel with
  | zero =>
    intro dy
    simp [column_scan_trace, column_scan]
  | succ n ih =>
    intro dy
    obtain ⟨ih1, ih2, ih3⟩ := ih (dy + 1)
    rw [column_scan_trace, column_scan]
    by_cases hc : dy < 255
    · rw [if_pos hc, if_pos hc]
      by_cases hs : E.get_data state DataType.SKYLIGHT x dy z ≠ 0
      · rw [if_pos hs, if_pos hs]
        refine ⟨rfl, ?_, ?_⟩
        · intro r hr
          rw [List.mem_singleton] at hr
          omega
        · simp only [List.length_singleton]
          omega
      · rw [if_neg hs, if_neg hs]
        by_cases ht : (!transparent_at E state x dy z) = true
        · rw [if_pos ht, if_pos ht]
          refine ⟨rfl, ?_, ?_⟩
          · intro r hr
            rw [List.mem_singleton] at hr
            omega
          · simp only [List.length_singleton]
            omega
        · rw [if_neg ht, if_neg ht]
          refine ⟨ih1, ?_, ?_⟩
          · intro r hr
            rcases List.mem_cons.1 hr with rfl | hr'
            · omega
            · have := ih2 r hr'
              omega
          · simp only [List.length_cons]
            omega
    · rw [if_neg hc, if_neg hc]
      simp

/-- The result of `underground` depends on the state and the lookups only through
the values of `get_data` and `is_transparent`, the load state of the chunks, the
section index and the block ID of the voxel itself. -/
theorem underground_congr (E E' : Externals) (state state' : RenderState) (x y z : Int)
    (hget : ∀ t a b c, E.get_data state t a b c = E'.get_data state' t a b c)
    (htr : ∀ b, E.is_transparent b = E'.is_transparent b)
    (hchunky : state.chunky = state'.chunky)
    (hloaded : ∀ i j, (state.chunks i j).loaded = (state'.chunks i j).loaded)
    (hsec : ∀ i j k, (state.chunks i j).has_blocks k = (state'.chunks i j).has_blocks k)
    (hblock : state.blocks x y z = state'.blocks x y z) :
    underground E state x y z = underground E' state' x y z := by
  have hscan : ∀ a c, boundary_scan E state a c = boundary_scan E' state' a c := by
    intro a c
    unfold boundary_scan
    simp only [hget]
  have hns : ∀ i j, no_section state i j = no_section state' i j := by
    intro i j
    unfold no_section
    rw [hloaded, hsec, hchunky]
  have hta : ∀ a b c, transparent_at E state a b c = transparent_at E' state' a b c := by
    intro a b c
    unfold transparent_at
    rw [hget, htr]
  have hcol : ∀ fuel dy, column_scan E state x z fuel dy = column_scan E' state' x z fuel dy := by
    intro fuel
    induction fuel with
    | zero => intro dy; rfl
    | succ n ih =>
      intro dy
      rw [column_scan, column_scan, hget, hta, ih]
  have hsp : special_scan E state x y z = special_scan E' state' x y z := by
    unfold special_scan
    simp only [hblock, hcol]
  have htl : touches_light E state DataType.SKYLIGHT (to_uint32 x) (to_uint32 y) (to_uint32 z) =
      touches_light E' state' DataType.SKYLIGHT (to_uint32 x) (to_uint32 y) (to_uint32 z) := by
    unfold touches_light
    simp only [hget]
  have hv1 : validMinusX E state x z = validMinusX E' state' x z := by
    unfold validMinusX
    rw [hns, hscan]
  have hv2 : validPlusX E state x z = validPlusX E' state' x z := by
    unfold validPlusX
    rw [hns, hscan]
  have hv3 : validMinusY state y = validMinusY state' y := by
    unfold validMinusY
    rw [hchunky, hsec]
  have hv4 : validPlusY state y = validPlusY state' y := by
    unfold validPlusY
    rw [hchunky, hsec]
  have hv5 : validMinusZ E state x z = validMinusZ E' state' x z := by
    unfold validMinusZ
    rw [hns, hscan]
  have hv6 : validPlusZ E state x z = validPlusZ E' state' x z := by
    unfold validPlusZ
    rw [hns, hscan]
  have hexp : exposed_valid E state x y z = exposed_valid E' state' x y z := by
    unfold exposed_valid
    simp only [hv1, hv2, hv3, hv4, hv5, hv6, hta]
  have hinv : transparent_invalid E state x y z = transparent_invalid E' state' x y z := by
    unfold transparent_invalid
    simp only [hv1, hv2, hv3, hv4, hv5, hv6, hta]
  unfold underground
  rw [hexp, htl, hsp, hinv]

/-! ## Lemmas on the runs -/

/-- The value of a sequence is that of its second part on the value of the first. -/
theorem eval_bind {α β : Type} (E : Externals) (state : RenderState) (p : Prog α)
    (f : α → Prog β) :
    (p.bind f).eval E state = (f (p.eval E state)).eval E state := by
  induction p with
  | ret a => rfl
  | read_state k ih =>
    simp only [Prog.bind, Prog.eval]
    exact ih state
  | call_get_data t x y z k ih =>
    simp only [Prog.bind, Prog.eval]
    exact ih _

/-- Worlds with the same answers of `get_data` give the same lookups. -/
theorem externals_congr {W : Type} (G : World W) (w w' : W)
    (h : ∀ t a b c, (G.get_data w' t a b c).1 = (G.get_data w t a b c).1) :
    G.externals w' = G.externals w := by
  unfold World.externals
  congr 1
  funext _ t a b c
  exact h t a b c

/-- When no call of `get_data` changes the render state or a later answer of
`get_data`, a run returns the value computed from the lookups of the world it starts
in, and ends in a world with the same render state and the same answers. -/
theorem run_stable {W α : Type} (G : World W)
    (hview : ∀ w t a b c, G.view (G.get_data w t a b c).2 = G.view w)
    (hdata : ∀ w t a b c t' a' b' c',
      (G.get_data (G.get_data w t a b c).2 t' a' b' c').1 = (G.get_data w t' a' b' c').1)
    (p : Prog α) :
    ∀ w, (p.run G w).1 = p.eval (G.externals w) (G.view w) ∧
      G.view (p.run G w).2 = G.view w ∧
      ∀ t a b c, (G.get_data (p.run G w).2 t a b c).1 = (G.get_data w t a b c).1 := by
  induction p with
  | ret a =>
    intro w
    exact ⟨rfl, rfl, fun _ _ _ _ => rfl⟩
  | read_state k ih =>
    intro w
    exact ih (G.view w) w
  | call_get_data t x y z k ih =>
    intro w
    obtain ⟨h1, h2, h3⟩ := ih (G.get_data w t x y z).1 (G.get_data w t x y z).2
    have he : G.externals (G.get_data w t x y z).2 = G.externals w :=
      externals_congr G w _ (hdata w t x y z)
    refine ⟨?_, ?_, ?_⟩
    · simp only [Prog.run, Prog.eval]
      rw [h1, he, hview]
      rfl
    · simp only [Prog.run]
      rw [h2, hview]
    · intro t' a' b' c'
      simp only [Prog.run]
      rw [h3, hdata]

/-- When `get_data` leaves the world as it is, so does every run. -/
theorem run_no_effect {W α : Type} (G : World W)
    (hsame : ∀ w t a b c, (G.get_data w t a b c).2 = w) (p : Prog α) :
    ∀ w, (p.run G w).2 = w := by
  induction p with
  | ret a =>
    intro w
    rfl
  | read_state k ih =>
    intro w
    exact ih (G.view w) w
  | call_get_data t x y z k ih =>
    intro w
    simp only [Prog.run]
    rw [ih, hsame]

/-- The five-row loop as a run computes the fold of `boundary_scan`. -/
theorem boundary_scan_from_eval (E : Externals) (state : RenderState) (x z : Int)
    (l : List Nat) :
    ∀ valid, (boundary_scan_from x z l valid).eval E state =
      l.foldl
        (fun valid dy =>
          if E.get_data state DataType.BLOCKS x (dy : Int) z ≠ 0 then true else valid)
        valid := by
  induction l with
  | nil =>
    intro valid
    rfl
  | cons dy rest ih =>
    intro valid
    simp only [boundary_scan_from, Prog.eval, List.foldl_cons]
    exact ih _

/-- The run of the -X flag computes `validMinusX`. -/
theorem validMinusX_run_eval (E : Externals) (state : RenderState) (x z : Int) :
    (validMinusX_run x z).eval E state = validMinusX E state x z := by
  unfold validMinusX_run validMinusX boundary_scan
  by_cases hx : x = 0
  · by_cases hs : no_section state 0 1 = true
    · rw [if_pos hx, if_pos ⟨hx, hs⟩]
      simp only [Prog.eval]
      rw [if_pos hs, boundary_scan_from_eval]
    · rw [if_pos hx, if_neg (fun h => hs h.2)]
      simp only [Prog.eval]
      rw [if_neg hs]
      rfl
  · rw [if_neg hx, if_neg (fun h => hx h.1)]
    rfl

/-- The run of the +X flag computes `validPlusX`. -/
theorem validPlusX_run_eval (E : Externals) (state : RenderState) (x z : Int) :
    (validPlusX_run x z).eval E state = validPlusX E state x z := by
  unfold validPlusX_run validPlusX boundary_scan
  by_cases hx : x = 15
  · by_cases hs : no_section state 2 1 = true
    · rw [if_pos hx, if_pos ⟨hx, hs⟩]
      simp only [Prog.eval]
      rw [if_pos hs, boundary_scan_from_eval]
    · rw [if_pos hx, if_neg (fun h => hs h.2)]
      simp only [Prog.eval]
      rw [if_neg hs]
      rfl
  · rw [if_neg hx, if_neg (fun h => hx h.1)]
    rfl

/-- The run of the -Z flag computes `validMinusZ`. -/
theorem validMinusZ_run_eval (E : Externals) (state : RenderState) (x z : Int) :
    (validMinusZ_run x z).eval E state = validMinusZ E state x z := by
  unfold validMinusZ_run validMinusZ boundary_scan
  by_cases hz : z = 0
  · by_cases hs : no_section state 1 0 = true
    · rw [if_pos hz, if_pos ⟨hz, hs⟩]
      simp only [Prog.eval]
      rw [if_pos hs, boundary_scan_from_eval]
    · rw [if_pos hz, if_neg (fun h => hs h.2)]
      simp only [Prog.eval]
      rw [if_neg hs]
      rfl
  · rw [if_neg hz, if_neg (fun h => hz h.1)]
    rfl

/-- The run of the +Z flag computes `validPlusZ`. -/
theorem validPlusZ_run_eval (E : Externals) (state : RenderState) (x z : Int) :
    (validPlusZ_run x z).eval E state = validPlusZ E state x z := by
  unfold validPlusZ_run validPlusZ boundary_scan
  by_cases hz : z = 15
  · by_cases hs : no_section state 1 2 = true
    · rw [if_pos hz, if_pos ⟨hz, hs⟩]
      simp only [Prog.eval]
      rw [if_pos hs, boundary_scan_from_eval]
    · rw [if_pos hz, if_neg (fun h => hs h.2)]
      simp only [Prog.eval]
      rw [if_neg hs]
      rfl
  · rw [if_neg hz, if_neg (fun h => hz h.1)]
    rfl

/-- The run of the -Y flag computes `validMinusY`. -/
theorem validMinusY_run_eval (E : Externals) (state : RenderState) (y : Int) :
    (validMinusY_run y).eval E state = validMinusY state y := by
  unfold validMinusY_run
  by_cases hy : y = 0
  · rw [if_pos hy]
    rfl
  · rw [if_neg hy]
    unfold validMinusY
    rw [if_neg (fun h => hy h.1)]
    rfl

/-- The run of the +Y flag computes `validPlusY`. -/
theorem validPlusY_run_eval (E : Externals) (state : RenderState) (y : Int) :
    (validPlusY_run y).eval E state = validPlusY state y := by
  unfold validPlusY_run
  by_cases hy : y = 15
  · rw [if_pos hy]
    rfl
  · rw [if_neg hy]
    unfold validPlusY
    rw [if_neg (fun h => hy h.1)]
    rfl

/-- The value of `a && p`. -/
theorem and_then_eval (E : Externals) (state : RenderState) (a : Bool) (p : Prog Bool) :
    (and_then a p).eval E state = (a && p.eval E state) := by
  cases a <;> rfl

/-- The value of `p || q`. -/
theorem or_else_eval (E : Externals) (state : RenderState) (p q : Prog Bool) :
    (or_else p q).eval E state = (p.eval E state || q.eval E state) := by
  unfold or_else
  rw [eval_bind]
  cases p.eval E state <;> rfl

/-- The run of the exposure test computes the condition of the outer `if`. -/
theorem exposed_run_eval (E : Externals) (state : RenderState) (v1 v2 v3 v4 v5 v6 : Bool)
    (x y z : Int) :
    (exposed_run E.is_transparent v1 v2 v3 v4 v5 v6 x y z).eval E state =
      ((v1 && transparent_at E state (x - 1) y z) ||
       (v2 && transparent_at E state (x + 1) y z) ||
       (v3 && transparent_at E state x (y - 1) z) ||
       (v4 && transparent_at E state x (y + 1) z) ||
       (v5 && transparent_at E state x y (z - 1)) ||
       (v6 && transparent_at E state x y (z + 1))) := by
  unfold exposed_run
  simp only [or_else_eval, and_then_eval, Bool.or_assoc]
  rfl

/-- The run of `touches_light` computes `touches_light`. -/
theorem touches_light_run_eval (E : Externals) (state : RenderState) (type : DataType)
    (x y z : Int) :
    (touches_light_run type x y z).eval E state = touches_light E state type x y z := by
  unfold touches_light_run touches_light
  simp only [Prog.eval, apply_ite (Prog.eval E state)]

/-- The run of the column scan computes `column_scan`. -/
theorem column_scan_run_eval (E : Externals) (state : RenderState) (x z : Int) :
    ∀ fuel dy, (column_scan_run E.is_transparent x z fuel dy).eval E state =
      column_scan E state x z fuel dy := by
  intro fuel
  induction fuel with
  | zero =>
    intro dy
    rfl
  | succ n ih =>
    intro dy
    rw [column_scan_run, column_scan]
    by_cases hc : dy < 255
    · rw [if_pos hc, if_pos hc]
      simp only [Prog.eval]
      by_cases hs : E.get_data state DataType.SKYLIGHT x dy z ≠ 0
      · rw [if_pos hs, if_pos hs]
        rfl
      · rw [if_neg hs, if_neg hs]
        simp only [Prog.eval]
        unfold transparent_at
        by_cases ht : (!E.is_transparent (E.get_data state DataType.BLOCKS x dy z)) = true
        · rw [if_pos ht, if_pos ht]
          rfl
        · rw [if_neg ht, if_neg ht]
          exact ih (dy + 1)
    · rw [if_neg hc, if_neg hc]
      rfl

/-- The value of one guard followed by `rest`. -/
theorem guard_run_eval (E : Externals) (state : RenderState) (valid : Bool) (x y z : Int)
    (rest : Prog Bool) :
    (guard_run E.is_transparent valid x y z rest).eval E state =
      ((!valid && transparent_at E state x y z) || rest.eval E state) := by
  unfold guard_run transparent_at
  cases valid
  · simp only [Bool.not_false, if_true, Prog.eval, Bool.true_and]
    cases E.is_transparent (E.get_data state DataType.BLOCKS x y z) <;> rfl
  · rfl

/-- The run of the six guards returns 1 exactly when one of them fires. -/
theorem guards_run_eval (E : Externals) (state : RenderState) (v1 v2 v3 v4 v5 v6 : Bool)
    (x y z : Int) :
    (guards_run E.is_transparent v1 v2 v3 v4 v5 v6 x y z).eval E state =
      ((!v1 && transparent_at E state (x - 1) y z) ||
       (!v2 && transparent_at E state (x + 1) y z) ||
       (!v3 && transparent_at E state x (y - 1) z) ||
       (!v4 && transparent_at E state x (y + 1) z) ||
       (!v5 && transparent_at E state x y (z - 1)) ||
       (!v6 && transparent_at E state x y (z + 1))) := by
  unfold guards_run
  simp only [guard_run_eval, Prog.eval, Bool.or_false, Bool.or_assoc]

/-- The run of `underground` computes `underground` when `get_data` is a lookup. -/
theorem underground_run_eval (E : Externals) (state : RenderState) (x y z : Int) :
    (underground_run E.is_transparent x y z).eval E state = underground E state x y z := by
  unfold underground_run
  simp only [eval_bind, validMinusX_run_eval, validPlusX_run_eval, validMinusY_run_eval,
    validPlusY_run_eval, validMinusZ_run_eval, validPlusZ_run_eval, exposed_run_eval]
  unfold underground special_scan
  have hexp : ((validMinusX E state x z && transparent_at E state (x - 1) y z) ||
       (validPlusX E state x z && transparent_at E state (x + 1) y z) ||
       (validMinusY state y && transparent_at E state x (y - 1) z) ||
       (validPlusY state y && transparent_at E state x (y + 1) z) ||
       (validMinusZ E state x z && transparent_at E state x y (z - 1)) ||
       (validPlusZ E state x z && transparent_at E state x y (z + 1))) =
      exposed_valid E state x y z := rfl
  rw [hexp]
  by_cases h1 : exposed_valid E state x y z = true
  · rw [if_pos h1, if_pos h1, eval_bind, touches_light_run_eval]
    by_cases h2 : touches_light E state DataType.SKYLIGHT (to_uint32 x) (to_uint32 y)
        (to_uint32 z) = true
    · rw [if_pos h2, if_pos h2]
      simp only [Prog.eval]
      rw [eval_bind]
      by_cases h3 : state.blocks x y z = 8 ∨ state.blocks x y z = 11
      · rw [if_pos h3, if_pos h3, column_scan_run_eval]
        cases column_scan E state x z (254 - y).toNat (y + 1)
        · simp only [guards_run_eval]
          unfold transparent_invalid
          cases ((!validMinusX E state x z && transparent_at E state (x - 1) y z) ||
            (!validPlusX E state x z && transparent_at E state (x + 1) y z) ||
            (!validMinusY state y && transparent_at E state x (y - 1) z) ||
            (!validPlusY state y && transparent_at E state x (y + 1) z) ||
            (!validMinusZ E state x z && transparent_at E state x y (z - 1)) ||
            (!validPlusZ E state x z && transparent_at E state x y (z + 1))) <;> rfl
        · rfl
      · rw [if_neg h3, if_neg h3]
        simp only [Prog.eval, guards_run_eval]
        unfold transparent_invalid
        cases ((!validMinusX E state x z && transparent_at E state (x - 1) y z) ||
          (!validPlusX E state x z && transparent_at E state (x + 1) y z) ||
          (!validMinusY state y && transparent_at E state x (y - 1) z) ||
          (!validPlusY state y && transparent_at E state x (y + 1) z) ||
          (!validMinusZ E state x z && transparent_at E state x y (z - 1)) ||
          (!validPlusZ E state x z && transparent_at E state x y (z + 1))) <;> rfl
    · rw [if_neg h2, if_neg h2]
      rfl
  · rw [if_neg h1, if_neg h1]
    rfl

/-- A `get_data` that loads chunks on demand changes the answer to `loaded`: in
`loading_world` the first call of `underground` for the voxel (0,5,5) finds the -X
chunk not loaded and returns 1; its calls of `get_data` load that chunk, and a second
call of `underground` returns 0. -/
theorem underground_st_loading :
    (underground_st loading_world false 0 5 5).1 = true ∧
    (underground_st loading_world (underground_st loading_world false 0 5 5).2 0 5 5).1 =
      false := by
  decide

/-! ## The claims on purity, horizontal validity and termination -/

/-- C24: `underground` is a pure function of its input. Called in a world in which
a call of `get_data` changes neither the render state nor a later answer of
`get_data`, it returns the value of `underground` on the lookups of that world; a
second call, made in the world that the first one left, returns the same result;
so does a call in any world with the same render state and the same answers; the
world it leaves has the same render state and the same answers; and when `get_data`
changes nothing at all, `underground` changes nothing at all. -/
theorem underground_pure {W : Type} (G : World W)
    (hview : ∀ w t a b c, G.view (G.get_data w t a b c).2 = G.view w)
    (hdata : ∀ w t a b c t' a' b' c',
      (G.get_data (G.get_data w t a b c).2 t' a' b' c').1 = (G.get_data w t' a' b' c').1)
    (w : W) (x y z : Int) :
    (underground_st G w x y z).1 = underground (G.externals w) (G.view w) x y z ∧
    (underground_st G (underground_st G w x y z).2 x y z).1 = (underground_st G w x y z).1 ∧
    (∀ w', G.view w' = G.view w →
      (∀ t a b c, (G.get_data w' t a b c).1 = (G.get_data w t a b c).1) →
      (underground_st G w' x y z).1 = (underground_st G w x y z).1) ∧
    G.view (underground_st G w x y z).2 = G.view w ∧
    (∀ t a b c, (G.get_data (underground_st G w x y z).2 t a b c).1 =
      (G.get_data w t a b c).1) ∧
    ((∀ w t a b c, (G.get_data w t a b c).2 = w) → (underground_st G w x y z).2 = w) := by
  have hval : ∀ w, (underground_st G w x y z).1 =
      underground (G.externals w) (G.view w) x y z := by
    intro w
    unfold underground_st
    rw [(run_stable G hview hdata _ w).1]
    exact underground_run_eval (G.externals w) (G.view w) x y z
  have hsame : ∀ w', G.view w' = G.view w →
      (∀ t a b c, (G.get_data w' t a b c).1 = (G.get_data w t a b c).1) →
      (underground_st G w' x y z).1 = (underground_st G w x y z).1 := by
    intro w' hv hd
    rw [hval w', hval w, hv, externals_congr G w w' hd]
  obtain ⟨_, h2, h3⟩ := run_stable G hview hdata (underground_run G.is_transparent x y z) w
  exact ⟨hval w, hsame _ h2 h3, hsame, h2, h3,
    fun hno => run_no_effect G hno (underground_run G.is_transparent x y z) w⟩

/-- Instance of C24: the stone voxel beside the lit air pocket, in a world whose
`get_data` counts its calls. The first call of `underground` makes 4 calls of
`get_data`, and a second call of `underground` returns the same result. -/
theorem underground_pure_witness :
    (underground_st (counting_world (sample_externals pocket_sky) pocket_state) 0 5 5 5).2 = 4 ∧
    (underground_st (counting_world (sample_externals pocket_sky) pocket_state)
        (underground_st (counting_world (sample_externals pocket_sky) pocket_state)
          0 5 5 5).2 5 5 5).1 =
      (underground_st (counting_world (sample_externals pocket_sky) pocket_state) 0 5 5 5).1 :=
  ⟨by decide,
   (underground_pure (counting_world (sample_externals pocket_sky) pocket_state)
      (fun _ _ _ _ _ => rfl) (fun _ _ _ _ _ _ _ _ _ => rfl) 0 5 5 5).2.1⟩

/-- C25: each of `validMinusX`, `validPlusX`, `validMinusZ`, `validPlusZ` is false
exactly when the voxel lies on that section boundary (x = 0, x = 15, z = 0, z = 15),
the neighbouring chunk is not loaded or its section at `chunky` has a null block
array, and `get_data(BLOCKS)` at the neighbour column is 0 for the five rows
dy = 0..4, whatever the y of the voxel is. For a voxel with 1 <= x,y,z <= 14 all six
directions are valid. -/
theorem horizontal_validity (E : Externals) (state : RenderState) (x z : Int) :
    (validMinusX E state x z = false ↔
      x = 0 ∧
      ((state.chunks 0 1).loaded = false ∨ (state.chunks 0 1).has_blocks state.chunky = false) ∧
      ∀ dy : Nat, dy < 5 → E.get_data state DataType.BLOCKS (x - 1) (dy : Int) z = 0) ∧
    (validPlusX E state x z = false ↔
      x = 15 ∧
      ((state.chunks 2 1).loaded = false ∨ (state.chunks 2 1).has_blocks state.chunky = false) ∧
      ∀ dy : Nat, dy < 5 → E.get_data state DataType.BLOCKS (x + 1) (dy : Int) z = 0) ∧
    (validMinusZ E state x z = false ↔
      z = 0 ∧
      ((state.chunks 1 0).loaded = false ∨ (state.chunks 1 0).has_blocks state.chunky = false) ∧
      ∀ dy : Nat, dy < 5 → E.get_data state DataType.BLOCKS x (dy : Int) (z - 1) = 0) ∧
    (validPlusZ E state x z = false ↔
      z = 15 ∧
      ((state.chunks 1 2).loaded = false ∨ (state.chunks 1 2).has_blocks state.chunky = false) ∧
      ∀ dy : Nat, dy < 5 → E.get_data state DataType.BLOCKS x (dy : Int) (z + 1) = 0) ∧
    (∀ y : Int, 1 ≤ x ∧ x ≤ 14 → 1 ≤ y ∧ y ≤ 14 → 1 ≤ z ∧ z ≤ 14 →
      validMinusX E state x z = true ∧ validPlusX E state x z = true ∧
      validMinusY state y = true ∧ validPlusY state y = true ∧
      validMinusZ E state x z = true ∧ validPlusZ E state x z = true) := by
  have key : ∀ (c : Prop) [Decidable c] (i j : Nat) (a b : Int),
      ((if c ∧ no_section state i j = true then boundary_scan E state a b else true) = false ↔
        c ∧ ((state.chunks i j).loaded = false ∨
            (state.chunks i j).has_blocks state.chunky = false) ∧
          ∀ dy : Nat, dy < 5 → E.get_data state DataType.BLOCKS a (dy : Int) b = 0) := by
    intro c _ i j a b
    rw [← no_section_iff, ← boundary_scan_false_iff]
    by_cases h : c ∧ no_section state i j = true
    · rw [if_pos h]
      exact ⟨fun hs => ⟨h.1, h.2, hs⟩, fun hs => hs.2.2⟩
    · rw [if_neg h]
      constructor
      · intro hf
        cases hf
      · intro hs
        exact absurd ⟨hs.1, hs.2.1⟩ h
  refine ⟨key _ 0 1 _ _, key _ 2 1 _ _, key _ 1 0 _ _, key _ 1 2 _ _, ?_⟩
  intro y hx hy hz
  have h1 : ¬ (x = 0 ∧ no_section state 0 1 = true) := fun h => by omega
  have h2 : ¬ (x = 15 ∧ no_section state 2 1 = true) := fun h => by omega
  have h3 : ¬ (z = 0 ∧ no_section state 1 0 = true) := fun h => by omega
  have h4 : ¬ (z = 15 ∧ no_section state 1 2 = true) := fun h => by omega
  have h5 : ¬ (y = 0 ∧ (state.chunky - 1 < 0 ∨
      (state.chunks 1 1).has_blocks (state.chunky - 1) = false)) := fun h => by omega
  have h6 : ¬ (y = 15 ∧ (state.chunky + 1 ≥ SECTIONS_PER_CHUNK ∨
      (state.chunks 1 1).has_blocks (state.chunky + 1) = false)) := fun h => by omega
  unfold validMinusX validPlusX validMinusY validPlusY validMinusZ validPlusZ
  rw [if_neg h1, if_neg h2, if_neg h3, if_neg h4, if_neg h5, if_neg h6]
  exact ⟨rfl, rfl, rfl, rfl, rfl, rfl⟩

/-- Instance of C25: the stone voxel at (0,5,5) on the unloaded western edge has an
invalid -X direction, and the voxel at (5,5,5) of the same state has six valid
directions. -/
theorem horizontal_validity_witness :
    validMinusX (sample_externals surface_sky) edge_state 0 5 = false ∧
    (validMinusX (sample_externals surface_sky) edge_state 5 5 = true ∧
      validPlusX (sample_externals surface_sky) edge_state 5 5 = true ∧
      validMinusY edge_state 5 = true ∧ validPlusY edge_state 5 = true ∧
      validMinusZ (sample_externals surface_sky) edge_state 5 5 = true ∧
      validPlusZ (sample_externals surface_sky) edge_state 5 5 = true) :=
  ⟨((horizontal_validity (sample_externals surface_sky) edge_state 0 5).1).2
      ⟨rfl, Or.inl (by decide), fun dy hdy => by
        have : dy = 0 ∨ dy = 1 ∨ dy = 2 ∨ dy = 3 ∨ dy = 4 := by omega
        rcases this with rfl | rfl | rfl | rfl | rfl <;> decide⟩,
   (horizontal_validity (sample_externals surface_sky) edge_state 5 5).2.2.2.2 5
      (by decide) (by decide) (by decide)⟩

/-- C29: `underground` is a total function whose loops are bounded. Each horizontal
validity scan makes exactly 5 iterations, over the rows 0..4. The column scan
visits only rows dy with y < dy < 255, hence at most 254 - y of them and none when
y >= 254; the loop is left through its condition or a `return`, so that a larger
iteration budget changes nothing. -/
theorem underground_loops_bounded (E : Externals) (state : RenderState) (x y z : Int) :
    (boundary_scan_trace E state x z).1 = boundary_scan E state x z ∧
    (boundary_scan_trace E state x z).2 = [0, 1, 2, 3, 4] ∧
    (boundary_scan_trace E state x z).2.length = 5 ∧
    (column_scan_trace E state x z (254 - y).toNat (y + 1)).1 =
      column_scan E state x z (254 - y).toNat (y + 1) ∧
    (∀ dy ∈ special_scan_rows E state x y z, y < dy ∧ dy < 255) ∧
    (special_scan_rows E state x y z).length ≤ (254 - y).toNat ∧
    (254 ≤ y → special_scan_rows E state x y z = []) ∧
    (∀ extra, column_scan E state x z ((254 - y).toNat + extra) (y + 1) =
      column_scan E state x z (254 - y).toNat (y + 1)) := by
  obtain ⟨c1, c2, c3⟩ := column_scan_trace_spec E state x z (254 - y).toNat (y + 1)
  have hlen : (special_scan_rows E state x y z).length ≤ (254 - y).toNat := by
    unfold special_scan_rows
    simp only
    split_ifs
    · omega
    · simp
  refine ⟨?_, ?_, ?_, c1, ?_, hlen, ?_, ?_⟩
  · have hr : List.range 5 = [0, 1, 2, 3, 4] := by decide
    unfold boundary_scan_trace boundary_scan
    rw [hr]
    rfl
  · have hr : List.range 5 = [0, 1, 2, 3, 4] := by decide
    unfold boundary_scan_trace
    rw [hr]
    rfl
  · have hr : List.range 5 = [0, 1, 2, 3, 4] := by decide
    unfold boundary_scan_trace
    rw [hr]
    rfl
  · intro dy hdy
    unfold special_scan_rows at hdy
    simp only at hdy
    split_ifs at hdy
    · have := c2 dy hdy
      omega
    · cases hdy
  · intro hy
    have h0 : (254 - y).toNat = 0 := by omega
    rw [h0] at hlen
    exact List.length_eq_zero.1 (Nat.le_zero.1 hlen)
  · intro extra
    exact column_scan_exit E state x z (254 - y).toNat extra (y + 1) (by omega)

/-! ## Lemmas on the blend with rounding -/

/-- With the identity as rounding the rounded channel is `shade_channel`. -/
theorem shade_channel_rounded_id (strength : ℚ) (s0 s1 s2 s3 : Nat) :
    shade_channel_rounded id id strength s0 s1 s2 s3 =
      shade_channel (1 - strength) s0 s1 s2 s3 := rfl

/-- Bounds and monotonicity of the blend: for a sum `g` of at most `255 * 4` and
`0 <= c2 <= c1 <= 1`, the blended sums satisfy `g <= blend c2 <= blend c1 <= 1020`. -/
theorem blend_rounded_bounds (rnd : ℚ → ℚ) (hmono : Monotone rnd)
    (hexact : ∀ n : Nat, n ≤ 1020 → rnd (n : ℚ) = (n : ℚ))
    (g : Nat) (hg : g ≤ 1020) (c1 c2 : ℚ) (h0 : 0 ≤ c2) (h12 : c2 ≤ c1) (h1 : c1 ≤ 1) :
    g ≤ blend_rounded rnd c2 g ∧ blend_rounded rnd c2 g ≤ blend_rounded rnd c1 g ∧
      blend_rounded rnd c1 g ≤ 1020 := by
  have hd : (4294967296 + 255 * 4 - g) % 4294967296 = 1020 - g := by omega
  have hdq : (((1020 - g : Nat) : ℚ)) = 1020 - (g : ℚ) := by
    rw [Nat.cast_sub hg]
    norm_num
  have hgq : (0 : ℚ) ≤ (g : ℚ) := Nat.cast_nonneg g
  have hdnn : (0 : ℚ) ≤ 1020 - (g : ℚ) := by
    rw [← hdq]
    exact Nat.cast_nonneg _
  have hr0 : rnd 0 = 0 := by
    have := hexact 0 (by norm_num)
    simpa using this
  have hrg : rnd (g : ℚ) = (g : ℚ) := hexact g hg
  have hrd : rnd (1020 - (g : ℚ)) = 1020 - (g : ℚ) := by
    rw [← hdq]
    exact hexact (1020 - g) (by omega)
  have hr1020 : rnd 1020 = 1020 := by
    have := hexact 1020 (by norm_num)
    simpa using this
  -- the rounded value before truncation, as a function of the complement strength
  have hval : ∀ c : ℚ, blend_rounded rnd c g =
      ⌊rnd ((g : ℚ) + rnd ((1020 - (g : ℚ)) * c))⌋.toNat % 4294967296 := by
    intro c
    unfold blend_rounded
    rw [hd, hdq, hrg, hrd]
  have hprod_mono : rnd ((1020 - (g : ℚ)) * c2) ≤ rnd ((1020 - (g : ℚ)) * c1) :=
    hmono (mul_le_mul_of_nonneg_left h12 hdnn)
  have hprod_nonneg : ∀ c : ℚ, 0 ≤ c → 0 ≤ rnd ((1020 - (g : ℚ)) * c) := by
    intro c hc
    have h := hmono (mul_nonneg hdnn hc)
    rw [hr0] at h
    exact h
  have hprod_le : ∀ c : ℚ, c ≤ 1 → rnd ((1020 - (g : ℚ)) * c) ≤ 1020 - (g : ℚ) := by
    intro c hc
    have hle1 : (1020 - (g : ℚ)) * c ≤ 1020 - (g : ℚ) :=
      calc (1020 - (g : ℚ)) * c ≤ (1020 - (g : ℚ)) * 1 := mul_le_mul_of_nonneg_left hc hdnn
        _ = 1020 - (g : ℚ) := mul_one _
    have h := hmono hle1
    rw [hrd] at h
    exact h
  have hsum_ge : ∀ c : ℚ, 0 ≤ c → (g : ℚ) ≤ rnd ((g : ℚ) + rnd ((1020 - (g : ℚ)) * c)) := by
    intro c hc
    have hge : (g : ℚ) ≤ (g : ℚ) + rnd ((1020 - (g : ℚ)) * c) := by
      linarith [hprod_nonneg c hc]
    have h := hmono hge
    rw [hrg] at h
    exact h
  have hsum_le : ∀ c : ℚ, c ≤ 1 → rnd ((g : ℚ) + rnd ((1020 - (g : ℚ)) * c)) ≤ 1020 := by
    intro c hc
    have hle2 : (g : ℚ) + rnd ((1020 - (g : ℚ)) * c) ≤ 1020 := by
      linarith [hprod_le c hc]
    have h := hmono hle2
    rw [hr1020] at h
    exact h
  have hsum_mono : rnd ((g : ℚ) + rnd ((1020 - (g : ℚ)) * c2)) ≤
      rnd ((g : ℚ) + rnd ((1020 - (g : ℚ)) * c1)) := by
    apply hmono
    linarith
  have hfloor_ge : ∀ c : ℚ, 0 ≤ c → (g : ℤ) ≤ ⌊rnd ((g : ℚ) + rnd ((1020 - (g : ℚ)) * c))⌋ := by
    intro c hc
    rw [Int.le_floor]
    exact_mod_cast hsum_ge c hc
  have hfloor_le : ∀ c : ℚ, c ≤ 1 → ⌊rnd ((g : ℚ) + rnd ((1020 - (g : ℚ)) * c))⌋ ≤ 1020 := by
    intro c hc
    have h := Int.floor_le (rnd ((g : ℚ) + rnd ((1020 - (g : ℚ)) * c)))
    have h2 := hsum_le c hc
    have h3 : ((⌊rnd ((g : ℚ) + rnd ((1020 - (g : ℚ)) * c))⌋ : ℤ) : ℚ) ≤ ((1020 : ℤ) : ℚ) := by
      push_cast
      linarith
    exact_mod_cast h3
  have hfloor_mono := Int.floor_mono hsum_mono
  rw [hval c1, hval c2]
  have a1 := hfloor_ge c2 h0
  have a2 := hfloor_le c1 h1
  have a3 := hfloor_le c2 (le_trans h12 h1)
  have a4 := hfloor_ge c1 (le_trans h0 h12)
  omega

/-- C27: lower shading strength yields brighter lighting. For four samples in 0..255
and two strengths `0 <= s1 <= s2 <= 1`, the corner channel computed with strength
`s1` is at least the one computed with strength `s2`, and both are at least the
plain average `(a0 + a1 + a2 + a3) / 4`. This holds for every rounding of the
`float` operations that is monotone and exact on the integers up to 1020, the
identity included. -/
theorem shade_channel_strength_antitone (rnd_sub rnd : ℚ → ℚ)
    (hsub : Monotone rnd_sub) (hsub0 : rnd_sub 0 = 0) (hsub1 : rnd_sub 1 = 1)
    (hmono : Monotone rnd) (hexact : ∀ n : Nat, n ≤ 1020 → rnd (n : ℚ) = (n : ℚ))
    (a0 a1 a2 a3 : Nat) (h0 : a0 ≤ 255) (h1 : a1 ≤ 255) (h2 : a2 ≤ 255) (h3 : a3 ≤ 255)
    (s1 s2 : ℚ) (hs1 : 0 ≤ s1) (hs12 : s1 ≤ s2) (hs2 : s2 ≤ 1) :
    shade_channel_rounded rnd_sub rnd s2 a0 a1 a2 a3 ≤
      shade_channel_rounded rnd_sub rnd s1 a0 a1 a2 a3 ∧
    (a0 + a1 + a2 + a3) / 4 ≤ shade_channel_rounded rnd_sub rnd s2 a0 a1 a2 a3 ∧
    (a0 + a1 + a2 + a3) / 4 ≤ shade_channel_rounded rnd_sub rnd s1 a0 a1 a2 a3 := by
  have hg : (a0 + a1 + a2 + a3) % 4294967296 = a0 + a1 + a2 + a3 := by omega
  have hle : a0 + a1 + a2 + a3 ≤ 1020 := by omega
  have hc2 : 0 ≤ rnd_sub (1 - s2) := by
    rw [← hsub0]
    exact hsub (by linarith)
  have hc12 : rnd_sub (1 - s2) ≤ rnd_sub (1 - s1) := hsub (by linarith)
  have hc1 : rnd_sub (1 - s1) ≤ 1 := by
    rw [← hsub1]
    exact hsub (by linarith)
  obtain ⟨b1, b2, b3⟩ := blend_rounded_bounds rnd hmono hexact (a0 + a1 + a2 + a3) hle
    (rnd_sub (1 - s1)) (rnd_sub (1 - s2)) hc2 hc12 hc1
  unfold shade_channel_rounded
  simp only [hg]
  omega

/-- Instance of C27 with exact arithmetic, the samples 10, 20, 30, 40 and the
strengths 1/4 and 3/4. -/
theorem shade_channel_strength_antitone_witness :
    shade_channel_rounded id id (3 / 4) 10 20 30 40 ≤
      shade_channel_rounded id id (1 / 4) 10 20 30 40 ∧
    (10 + 20 + 30 + 40) / 4 ≤ shade_channel_rounded id id (3 / 4) 10 20 30 40 ∧
    (10 + 20 + 30 + 40) / 4 ≤ shade_channel_rounded id id (1 / 4) 10 20 30 40 :=
  shade_channel_strength_antitone id id monotone_id rfl rfl monotone_id (fun _ _ => rfl)
    10 20 30 40 (by decide) (by decide) (by decide) (by decide) (1 / 4) (3 / 4)
    (by norm_num) (by norm_num) (by norm_num)

/-- C28: `smooth_lighting_start` returns exactly what the `start` of the
flat-lighting primitive returns on the same arguments, true as well as false, and
leaves the world as that call left it; `smooth_lighting_finish` does what one call
of the `finish` of the flat-lighting primitive does and nothing else. -/
theorem lifecycle_chaining {W : Type} (primitive_lighting : PrimitiveLighting W) (w : W) :
    smooth_lighting_start primitive_lighting w = primitive_lighting.start w ∧
    (smooth_lighting_start primitive_lighting w).1 = (primitive_lighting.start w).1 ∧
    smooth_lighting_finish primitive_lighting w = primitive_lighting.finish w := by
  have h : smooth_lighting_start primitive_lighting w = primitive_lighting.start w := by
    unfold smooth_lighting_start
    cases hs : (primitive_lighting.start w).1
    · simp only [bne_self_eq_false, Bool.false_eq_true, if_false]
      rw [← hs]
    · simp only [bne_iff_ne, ne_eq, Bool.true_eq_false, not_false_eq_true, if_true]
      rw [← hs]
  exact ⟨h, by rw [h], rfl⟩

/-! ## Lemmas on the block classes and on the ID table -/

/-- Membership in a class, for any assignment of values to the enumerators: the
test over the whole array succeeds exactly for the values of its enumerators. -/
theorem class_member_iff (sse2 mmx : Bool) (ids : block_name → mc_block_t)
    (cls : List block_name) (b : mc_block_t) :
    block_class_is_subset sse2 mmx b (cls.map ids) cls.length = true ↔
      ∃ n, n ∈ cls ∧ ids n = b := by
  have h := block_class_is_subset_iff sse2 mmx b (cls.map ids) cls.length
  have hl : (cls.map ids).length = cls.length := List.length_map cls ids
  rw [← hl, exists_index_iff_mem, List.mem_map] at h
  rw [← hl]
  exact h

/-- The sample assignment gives different enumerators different values. -/
theorem order_ids_injective : Function.Injective order_ids := by
  intro a b h
  have h' : a.toCtorIdx = b.toCtorIdx := by
    unfold order_ids at h
    exact Nat.succ.inj h
  rw [← block_name.ofNat_toCtorIdx a, ← block_name.ofNat_toCtorIdx b, h']

/-- Once a value came twice the check stays failed. -/
theorem foldl_seen_step_none (l : List Nat) : l.foldl seen_step none = none := by
  induction l with
  | nil => rfl
  | cons a t ih => simpa [List.foldl, seen_step] using ih

/-- Invariant of the distinctness check: the bit set holds the values seen. -/
theorem distinct_values_aux (l : List Nat) : ∀ (m : Nat) (seen : List Nat),
    (∀ v, m.testBit v = true ↔ v ∈ seen) →
    (l.foldl seen_step (some m)).isSome = true → l.Nodup ∧ ∀ v ∈ l, v ∉ seen := by
  induction l with
  | nil =>
    intro m seen _ _
    simp
  | cons a t ih =>
    intro m seen hinv h
    rw [List.foldl] at h
    by_cases ha : m.testBit a = true
    · simp [seen_step, ha, foldl_seen_step_none] at h
    · have hstep : seen_step (some m) a = some (m ||| 1 <<< a) := by simp [seen_step, ha]
      rw [hstep] at h
      have hinv' : ∀ v, (m ||| 1 <<< a).testBit v = true ↔ v ∈ a :: seen := by
        intro v
        rw [Nat.one_shiftLeft, Nat.testBit_or, Nat.testBit_two_pow, Bool.or_eq_true, hinv v,
          List.mem_cons, decide_eq_true_iff]
        constructor
        · rintro (h1 | h1)
          · exact Or.inr h1
          · exact Or.inl h1.symm
        · rintro (h1 | h1)
          · exact Or.inr h1.symm
          · exact Or.inl h1
      obtain ⟨hn, hd⟩ := ih (m ||| 1 <<< a) (a :: seen) hinv' h
      refine ⟨List.nodup_cons.2 ⟨fun hmem => hd a hmem (List.mem_cons_self _ _), hn⟩, ?_⟩
      intro v hv hs
      rcases List.mem_cons.1 hv with rfl | hv'
      · exact ha ((hinv v).2 hs)
      · exact hd v hv' (List.mem_cons_of_mem _ hs)

/-- The distinctness check is sound. -/
theorem distinct_values_sound (l : List Nat) (h : distinct_values l = true) : l.Nodup :=
  (distinct_values_aux l 0 [] (by simp) h).1

set_option maxRecDepth 100000 in
/-- The enumerators of `mc_id.h` whose value is not a shared one have pairwise
distinct values. -/
theorem unshared_values_nodup :
    ((mc_block_id.filter (fun p => decide (p.2 ∉ shared_values))).map Prod.snd).Nodup :=
  distinct_values_sound _ (by decide)

/-! ## The claims on the block classes and on the ID table -/

/-- C23: every member of the door class is a member of the ancillary-data class,
whatever values the enumerators have: if `block_class_is_subset(b, block_class_door,
block_class_door_len)` is true then so is `block_class_is_subset(b,
block_class_ancil, block_class_ancil_len)`. -/
theorem door_class_in_ancil (sse2 mmx : Bool) (ids : block_name → mc_block_t) (b : mc_block_t)
    (h : block_class_is_subset sse2 mmx b (block_class_door.map ids) block_class_door_len
      = true) :
    block_class_is_subset sse2 mmx b (block_class_ancil.map ids) block_class_ancil_len
      = true := by
  unfold block_class_door_len at h
  unfold block_class_ancil_len
  rw [class_member_iff] at h ⊢
  obtain ⟨n, hn, hb⟩ := h
  have hsub : ∀ n ∈ block_class_door, n ∈ block_class_ancil := by decide
  exact ⟨n, hsub n hn, hb⟩

/-- Instance of C23: the oak door under the sample assignment of values. -/
theorem door_class_in_ancil_witness :
    block_class_is_subset true true (order_ids block_minecraft__oak_door)
      (block_class_ancil.map order_ids) block_class_ancil_len = true :=
  door_class_in_ancil true true order_ids (order_ids block_minecraft__oak_door) (by decide)

/-- C26 as stated fails: with the enumerators numbered in their order of appearance,
the value of `block_minecraft__oak_stairs` is a member of `block_class_stair` and is
not a member of `block_class_ancil`, whose stair entries are all commented out. -/
theorem stair_class_in_ancil_counterexample :
    block_class_is_subset true true (order_ids block_minecraft__oak_stairs)
      (block_class_stair.map order_ids) block_class_stair_len = true ∧
    block_class_is_subset true true (order_ids block_minecraft__oak_stairs)
      (block_class_ancil.map order_ids) block_class_ancil_len = false := by
  decide

/-- C26, amended: the ancillary-data class does not cover the stair family. No
enumerator of `block_class_stair` is listed in `block_class_ancil`, and when
different enumerators have different values every member of `block_class_stair`
fails the membership test of `block_class_ancil`. -/
theorem stair_class_outside_ancil (sse2 mmx : Bool) (ids : block_name → mc_block_t)
    (hinj : Function.Injective ids) :
    (∀ n ∈ block_class_stair, n ∉ block_class_ancil) ∧
    (∀ b : mc_block_t,
      block_class_is_subset sse2 mmx b (block_class_stair.map ids) block_class_stair_len
        = true →
      block_class_is_subset sse2 mmx b (block_class_ancil.map ids) block_class_ancil_len
        = false) := by
  have hdis : ∀ n ∈ block_class_stair, n ∉ block_class_ancil := by decide
  refine ⟨hdis, fun b h => ?_⟩
  unfold block_class_stair_len at h
  unfold block_class_ancil_len
  rw [class_member_iff] at h
  obtain ⟨n, hn, hb⟩ := h
  rw [← Bool.not_eq_true, class_member_iff]
  rintro ⟨a, ha, hab⟩
  have : a = n := hinj (hab.trans hb.symm)
  subst this
  exact hdis a hn ha

/-- Instance of the amended C26: the oak stairs under the sample assignment. -/
theorem stair_class_outside_ancil_witness :
    block_class_is_subset true true (order_ids block_minecraft__oak_stairs)
      (block_class_ancil.map order_ids) block_class_ancil_len = false :=
  (stair_class_outside_ancil true true order_ids order_ids_injective).2
    (order_ids block_minecraft__oak_stairs) (by decide)

set_option maxRecDepth 100000 in
/-- The number of enumerators of `enum mc_block_id`. -/
theorem mc_block_id_length : mc_block_id.length = 579 := by
  decide

set_option maxRecDepth 100000 in
/-- No enumerator of `enum mc_block_id` has the value 27. -/
theorem value_27_unused : ∀ p ∈ mc_block_id, p.2 ≠ 27 := by
  decide

set_option maxRecDepth 100000 in
/-- The enumerators of `enum mc_block_id` whose value is in `shared_values`, in the
order of the header. -/
theorem shared_enumerators :
    mc_block_id.filter (fun p => decide (p.2 ∈ shared_values)) =
      [("block_flowing_water", 26),
       ("block_flowing_lava", 28),
       ("block_water", 26),
       ("block_lava", 28),
       ("block_light_blue_stained_glass", 209),
       ("block_blue_stained_glass", 217),
       ("block_sand", 28),
       ("block_dead_bush", 97),
       ("block_orange_wool", 103),
       ("block_red_wool", 116),
       ("block_red_tulip", 124),
       ("block_obsidian", 140),
       ("block_acacia_sign", 159),
       ("block_spruce_wall_sign", 166),
       ("block_stone_pressure_plate", 172),
       ("block_spruce_pressure_plate", 175),
       ("block_birch_pressure_plate", 176),
       ("block_jungle_pressure_plate", 177),
       ("block_melon_block", 103),
       ("block_sapling", 116),
       ("block_monster_egg", 97),
       ("block_lit_redstone_lamp", 124),
       ("block_flower_pot", 140),
       ("block_stained_hardened_clay", 159),
       ("block_barrier", 166),
       ("block_hardened_clay", 172),
       ("block_double_plant", 175),
       ("block_standing_banner", 176),
       ("block_wall_banner", 177),
       ("block_structure_void", 217),
       ("block_end_gateway", 209)] := by
  decide

/-- C30: the claim fails on `mc_id.h`, which declares `block_lava` and `block_sand`
both with the value 28, while no enumerator has the value 27: the numeric ID 28
does not identify a single block type. The header has 579 enumerators; the 31
listed here share 15 values in all (26, 28, 97, 103, 116, 124, 140, 159, 166, 172,
175, 176, 177, 209, 217), among them `block_flowing_water` and `block_water` at 26;
every other enumerator has a value of its own. -/
theorem mc_block_id_shared_value :
    ("block_lava", 28) ∈ mc_block_id ∧ ("block_sand", 28) ∈ mc_block_id ∧
    ("block_lava", 28) ≠ ("block_sand", 28) ∧
    (∀ p ∈ mc_block_id, p.2 ≠ 27) ∧
    mc_block_id.length = 579 ∧
    mc_block_id.filter (fun p => decide (p.2 ∈ shared_values)) =
      [("block_flowing_water", 26),
       ("block_flowing_lava", 28),
       ("block_water", 26),
       ("block_lava", 28),
       ("block_light_blue_stained_glass", 209),
       ("block_blue_stained_glass", 217),
       ("block_sand", 28),
       ("block_dead_bush", 97),
       ("block_orange_wool", 103),
       ("block_red_wool", 116),
       ("block_red_tulip", 124),
       ("block_obsidian", 140),
       ("block_acacia_sign", 159),
       ("block_spruce_wall_sign", 166),
       ("block_stone_pressure_plate", 172),
       ("block_spruce_pressure_plate", 175),
       ("block_birch_pressure_plate", 176),
       ("block_jungle_pressure_plate", 177),
       ("block_melon_block", 103),
       ("block_sapling", 116),
       ("block_monster_egg", 97),
       ("block_lit_redstone_lamp", 124),
       ("block_flower_pot", 140),
       ("block_stained_hardened_clay", 159),
       ("block_barrier", 166),
       ("block_hardened_clay", 172),
       ("block_double_plant", 175),
       ("block_standing_banner", 176),
       ("block_wall_banner", 177),
       ("block_structure_void", 217),
       ("block_end_gateway", 209)] ∧
    (∀ p ∈ mc_block_id, ∀ q ∈ mc_block_id, p.2 = q.2 → p.2 ∉ shared_values → p = q) := by
  refine ⟨by decide, by decide, by decide, value_27_unused, mc_block_id_length,
    shared_enumerators, ?_⟩
  intro p hp q hq hv hns
  have hp' : p ∈ mc_block_id.filter (fun p => decide (p.2 ∉ shared_values)) := by
    rw [List.mem_filter]
    exact ⟨hp, by simpa using hns⟩
  have hq' : q ∈ mc_block_id.filter (fun p => decide (p.2 ∉ shared_values)) := by
    rw [List.mem_filter]
    exact ⟨hq, by simpa [← hv] using hns⟩
  exact List.inj_on_of_nodup_map unshared_values_nodup hp' hq' hv

/-! ## Lemmas on the decision rule -/

/-- The outer condition of `underground` spelled out. -/
theorem exposed_valid_iff (E : Externals) (state : RenderState) (x y z : Int) :
    exposed_valid E state x y z = true ↔
      ((validMinusX E state x z = true ∧ transparent_at E state (x - 1) y z = true) ∨
       (validPlusX E state x z = true ∧ transparent_at E state (x + 1) y z = true) ∨
       (validMinusY state y = true ∧ transparent_at E state x (y - 1) z = true) ∨
       (validPlusY state y = true ∧ transparent_at E state x (y + 1) z = true) ∨
       (validMinusZ E state x z = true ∧ transparent_at E state x y (z - 1) = true) ∨
       (validPlusZ E state x z = true ∧ transparent_at E state x y (z + 1) = true)) := by
  unfold exposed_valid
  simp only [Bool.or_eq_true, Bool.and_eq_true, or_assoc]

/-- The six guards of the invalid directions spelled out. -/
theorem transparent_invalid_iff (E : Externals) (state : RenderState) (x y z : Int) :
    transparent_invalid E state x y z = true ↔
      ((validMinusX E state x z = false ∧ transparent_at E state (x - 1) y z = true) ∨
       (validPlusX E state x z = false ∧ transparent_at E state (x + 1) y z = true) ∨
       (validMinusY state y = false ∧ transparent_at E state x (y - 1) z = true) ∨
       (validPlusY state y = false ∧ transparent_at E state x (y + 1) z = true) ∨
       (validMinusZ E state x z = false ∧ transparent_at E state x y (z - 1) = true) ∨
       (validPlusZ E state x z = false ∧ transparent_at E state x y (z + 1) = true)) := by
  unfold transparent_invalid
  simp only [Bool.or_eq_true, Bool.and_eq_true, Bool.not_eq_true', or_assoc]

/-- Without a special block ID the statement of the column scan is skipped. -/
theorem special_scan_ordinary (E : Externals) (state : RenderState) (x y z : Int)
    (hid : state.blocks x y z ≠ 8 ∧ state.blocks x y z ≠ 11) :
    special_scan E state x y z = none := by
  unfold special_scan
  simp only
  rw [if_neg]
  rintro (h | h)
  · exact hid.1 h
  · exact hid.2 h

/-- The decision of `underground` for a block ID that is neither 8 nor 11. -/
theorem underground_ordinary_iff (E : Externals) (state : RenderState) (x y z : Int)
    (hid : state.blocks x y z ≠ 8 ∧ state.blocks x y z ≠ 11) :
    underground E state x y z = false ↔
      exposed_valid E state x y z = true ∧
      touches_light E state DataType.SKYLIGHT (to_uint32 x) (to_uint32 y) (to_uint32 z) = true ∧
      transparent_invalid E state x y z = false := by
  rw [underground_false_iff, special_scan_ordinary E state x y z hid]
  simp

/-- The first component of `underground_trace` is the result of `underground`. -/
theorem underground_trace_result (E : Externals) (state : RenderState) (x y z : Int) :
    (underground_trace E state x y z).1 = underground E state x y z := by
  unfold underground_trace underground special_scan
  simp only [(column_scan_trace_spec E state x z (254 - y).toNat (y + 1)).1]
  by_cases h1 : exposed_valid E state x y z = true
  · by_cases h2 : touches_light E state DataType.SKYLIGHT (to_uint32 x) (to_uint32 y)
        (to_uint32 z) = true
    · by_cases h3 : state.blocks x y z = 8 ∨ state.blocks x y z = 11
      · rw [if_pos h1, if_pos h2, if_pos h3, if_pos h1, if_pos h2, if_pos h3]
        cases column_scan E state x z (254 - y).toNat (y + 1) <;> rfl
      · rw [if_pos h1, if_pos h2, if_neg h3, if_pos h1, if_pos h2, if_neg h3]
    · rw [if_pos h1, if_neg h2, if_pos h1, if_neg h2]
  · rw [if_neg h1, if_neg h1]

/-- When `underground` reaches the `for` statement of the column scan. -/
theorem underground_trace_reached (E : Externals) (state : RenderState) (x y z : Int) :
    (underground_trace E state x y z).2.isSome = true ↔
      exposed_valid E state x y z = true ∧
      touches_light E state DataType.SKYLIGHT (to_uint32 x) (to_uint32 y) (to_uint32 z) = true ∧
      (state.blocks x y z = 8 ∨ state.blocks x y z = 11) := by
  unfold underground_trace
  simp only
  by_cases h1 : exposed_valid E state x y z = true
  · by_cases h2 : touches_light E state DataType.SKYLIGHT (to_uint32 x) (to_uint32 y)
        (to_uint32 z) = true
    · by_cases h3 : state.blocks x y z = 8 ∨ state.blocks x y z = 11
      · rw [if_pos h1, if_pos h2, if_pos h3]
        cases (column_scan_trace E state x z (254 - y).toNat (y + 1)).1 <;> simp [h1, h2, h3]
      · rw [if_pos h1, if_pos h2, if_neg h3]
        simp [h3]
    · rw [if_pos h1, if_neg h2]
      simp [h2]
  · rw [if_neg h1]
    simp [h1]

/-- The rows recorded by `underground_trace` are those of the loop of `column_scan`
started at `y + 1`. -/
theorem underground_trace_rows (E : Externals) (state : RenderState) (x y z : Int)
    (rows : List Int) (h : (underground_trace E state x y z).2 = some rows) :
    rows = (column_scan_trace E state x z (254 - y).toNat (y + 1)).2 := by
  have hreach := (underground_trace_reached E state x y z).1 (by rw [h]; rfl)
  unfold underground_trace at h
  simp only at h
  rw [if_pos hreach.1, if_pos hreach.2.1, if_pos hreach.2.2] at h
  cases hc : (column_scan_trace E state x z (254 - y).toNat (y + 1)).1 <;>
    rw [hc] at h <;> simp only [Option.some.injEq] at h <;> exact h.symm

/-- A loop of the column scan that runs at all runs first on the row it starts at. -/
theorem column_scan_trace_head (E : Externals) (state : RenderState) (x z : Int)
    (fuel : Nat) (dy : Int) (hfuel : 0 < fuel) (hdy : dy < 255) :
    (column_scan_trace E state x z fuel dy).2.head? = some dy := by
  obtain ⟨n, rfl⟩ : ∃ n, fuel = n + 1 := ⟨fuel - 1, by omega⟩
  rw [column_scan_trace, if_pos hdy]
  split_ifs <;> rfl

set_option maxRecDepth 100000 in
/-- The only enumerator of `mc_id.h` with the value 8. -/
theorem value_8_enumerators :
    mc_block_id.filter (fun p => p.2 = 8) = [("block_grass_block", 8)] := by
  decide

set_option maxRecDepth 100000 in
/-- The only enumerator of `mc_id.h` with the value 11. -/
theorem value_11_enumerators :
    mc_block_id.filter (fun p => p.2 = 11) = [("block_podzol", 11)] := by
  decide

/-! ## The claims on the decision rule, the sky-light check and the special IDs -/

/-- C31: for a voxel whose own block ID is neither 8 nor 11, `underground` returns
false exactly when (i) the adjacent block of some valid direction is transparent,
(ii) `touches_light(SKYLIGHT, x, y, z)` is true and (iii) the adjacent block of no
invalid direction is transparent; in every other case it returns true. -/
theorem underground_decision_rule (E : Externals) (state : RenderState) (x y z : Int)
    (hid : state.blocks x y z ≠ 8 ∧ state.blocks x y z ≠ 11) :
    (underground E state x y z = false ↔
      ((validMinusX E state x z = true ∧ transparent_at E state (x - 1) y z = true) ∨
       (validPlusX E state x z = true ∧ transparent_at E state (x + 1) y z = true) ∨
       (validMinusY state y = true ∧ transparent_at E state x (y - 1) z = true) ∨
       (validPlusY state y = true ∧ transparent_at E state x (y + 1) z = true) ∨
       (validMinusZ E state x z = true ∧ transparent_at E state x y (z - 1) = true) ∨
       (validPlusZ E state x z = true ∧ transparent_at E state x y (z + 1) = true)) ∧
      touches_light E state DataType.SKYLIGHT (to_uint32 x) (to_uint32 y) (to_uint32 z) = true ∧
      ¬ ((validMinusX E state x z = false ∧ transparent_at E state (x - 1) y z = true) ∨
         (validPlusX E state x z = false ∧ transparent_at E state (x + 1) y z = true) ∨
         (validMinusY state y = false ∧ transparent_at E state x (y - 1) z = true) ∨
         (validPlusY state y = false ∧ transparent_at E state x (y + 1) z = true) ∨
         (validMinusZ E state x z = false ∧ transparent_at E state x y (z - 1) = true) ∨
         (validPlusZ E state x z = false ∧ transparent_at E state x y (z + 1) = true))) ∧
    (underground E state x y z = true ↔
      ¬ (exposed_valid E state x y z = true ∧
        touches_light E state DataType.SKYLIGHT (to_uint32 x) (to_uint32 y) (to_uint32 z)
          = true ∧
        transparent_invalid E state x y z = false)) := by
  have h := underground_ordinary_iff E state x y z hid
  constructor
  · rw [h, exposed_valid_iff, ← transparent_invalid_iff, Bool.not_eq_true]
  · rw [← h, Bool.not_eq_false]

/-- Instance of C31: the stone voxel beside the lit air pocket, all chunks loaded,
is not underground. -/
theorem underground_decision_rule_witness :
    underground (sample_externals pocket_sky) pocket_state 5 5 5 = false :=
  ((underground_decision_rule (sample_externals pocket_sky) pocket_state 5 5 5
    ⟨by decide, by decide⟩).1).2
    ⟨Or.inr (Or.inl ⟨by decide, by decide⟩), by decide, by decide⟩

/-- C32: `touches_light(state, type, x, y, z)` is true if and only if `get_data` of
that type is nonzero at one of the five adjacent voxels (x,y+1,z), (x+1,y,z),
(x-1,y,z), (x,y,z+1), (x,y,z-1). Neither the voxel below nor any voxel further away
is consulted: lookups that differ only at (x,y-1,z) give the same result. The
coordinates are those whose neighbours are `int32_t` values. -/
theorem touches_light_adjacent (E E' : Externals) (state state' : RenderState)
    (type : DataType) (x y z : Int)
    (hx : -2147483648 < x ∧ x < 2147483647) (hy : -2147483648 ≤ y ∧ y < 2147483647)
    (hz : -2147483648 < z ∧ z < 2147483647) :
    (touches_light E state type (to_uint32 x) (to_uint32 y) (to_uint32 z) = true ↔
      (E.get_data state type x (y + 1) z ≠ 0 ∨ E.get_data state type (x + 1) y z ≠ 0 ∨
       E.get_data state type (x - 1) y z ≠ 0 ∨ E.get_data state type x y (z + 1) ≠ 0 ∨
       E.get_data state type x y (z - 1) ≠ 0)) ∧
    ((∀ a b c, (a, b, c) ≠ (x, y - 1, z) →
        E.get_data state type a b c = E'.get_data state' type a b c) →
      touches_light E state type (to_uint32 x) (to_uint32 y) (to_uint32 z) =
        touches_light E' state' type (to_uint32 x) (to_uint32 y) (to_uint32 z)) := by
  refine ⟨touches_light_iff E state type x y z hx hy hz, fun hsame => ?_⟩
  rw [Bool.eq_iff_iff, touches_light_iff E state type x y z hx hy hz,
    touches_light_iff E' state' type x y z hx hy hz,
    hsame x (y + 1) z (by intro h; injection h with _ h2; injection h2 with h3 _; omega),
    hsame (x + 1) y z (by intro h; injection h with h1 _; omega),
    hsame (x - 1) y z (by intro h; injection h with h1 _; omega),
    hsame x y (z + 1) (by intro h; injection h with _ h2; injection h2 with _ h3; omega),
    hsame x y (z - 1) (by intro h; injection h with _ h2; injection h2 with _ h3; omega)]

/-- Instance of C32: at the stone voxel (5,5,5) beside the lit air pocket, lighting
the voxel below it, (5,4,5), does not change the result. -/
theorem touches_light_adjacent_witness :
    touches_light (sample_externals below_sky) pocket_state DataType.SKYLIGHT
        (to_uint32 5) (to_uint32 5) (to_uint32 5) =
      touches_light (sample_externals pocket_sky) pocket_state DataType.SKYLIGHT
        (to_uint32 5) (to_uint32 5) (to_uint32 5) :=
  (touches_light_adjacent (sample_externals below_sky) (sample_externals pocket_sky)
    pocket_state pocket_state DataType.SKYLIGHT 5 5 5 (by decide) (by decide) (by decide)).2
    (fun a b c h => by
      have hne : ¬ (a = 5 ∧ b = 4 ∧ c = 5) := fun ⟨h1, h2, h3⟩ => h (by rw [h1, h2, h3]; rfl)
      simp [sample_externals, below_sky, hne])

/-- C37 as stated fails: the voxel (5,5,5) inside stone has the block ID 8, and
`underground` returns 1 for it without reaching the column scan, because the
exposure test fails first. -/
theorem column_scan_counterexample :
    buried_grass_state.blocks 5 5 5 = 8 ∧
    (underground_trace (sample_externals no_sky) buried_grass_state 5 5 5).2 = none ∧
    (underground_trace (sample_externals no_sky) buried_grass_state 5 5 5).1 =
      underground (sample_externals no_sky) buried_grass_state 5 5 5 ∧
    underground (sample_externals no_sky) buried_grass_state 5 5 5 = true := by
  decide

/-- C37, amended: the column scan of `underground` is performed exactly when the
voxel passed the exposure and sky-light checks and its own block ID equals 8 or 11.
Here `underground_trace` is `underground` with the scan recorded: it returns the
result of `underground`; the scan, when performed, runs on rows above `y` and below
255, first on row `y + 1` when `y < 254`, and a value returned from inside the loop
is the result of `underground`. In the ID table of `mc_id.h` the only enumerator
with value 8 is `block_grass_block` and the only one with value 11 is
`block_podzol`; `block_water` is 26 and `block_lava` is 28, and a voxel with one of
these two IDs is decided without the column scan, by the rule of the ordinary
blocks. -/
theorem column_scan_special (E : Externals) (state : RenderState) (x y z : Int) :
    (underground_trace E state x y z).1 = underground E state x y z ∧
    ((underground_trace E state x y z).2.isSome = true ↔
      exposed_valid E state x y z = true ∧
      touches_light E state DataType.SKYLIGHT (to_uint32 x) (to_uint32 y) (to_uint32 z) = true ∧
      (state.blocks x y z = 8 ∨ state.blocks x y z = 11)) ∧
    (∀ rows, (underground_trace E state x y z).2 = some rows →
      (∀ r ∈ rows, y < r ∧ r < 255) ∧
      (y < 254 → rows.head? = some (y + 1)) ∧
      (∀ r, column_scan E state x z (254 - y).toNat (y + 1) = some r →
        underground E state x y z = r)) ∧
    mc_block_id.filter (fun p => p.2 = 8) = [("block_grass_block", 8)] ∧
    mc_block_id.filter (fun p => p.2 = 11) = [("block_podzol", 11)] ∧
    ("block_water", 26) ∈ mc_block_id ∧ ("block_lava", 28) ∈ mc_block_id ∧
    (state.blocks x y z = 26 ∨ state.blocks x y z = 28 →
      (underground_trace E state x y z).2 = none ∧
      (underground E state x y z = false ↔
        exposed_valid E state x y z = true ∧
        touches_light E state DataType.SKYLIGHT (to_uint32 x) (to_uint32 y) (to_uint32 z)
          = true ∧
        transparent_invalid E state x y z = false)) := by
  refine ⟨underground_trace_result E state x y z, underground_trace_reached E state x y z, ?_,
    value_8_enumerators, value_11_enumerators, by decide, by decide, ?_⟩
  · intro rows hrows
    have hreach := (underground_trace_reached E state x y z).1 (by rw [hrows]; rfl)
    have hr := underground_trace_rows E state x y z rows hrows
    refine ⟨?_, ?_, ?_⟩
    · intro r hmem
      rw [hr] at hmem
      have h := (column_scan_trace_spec E state x z (254 - y).toNat (y + 1)).2.1 r hmem
      omega
    · intro hy
      rw [hr]
      exact column_scan_trace_head E state x z (254 - y).toNat (y + 1) (by omega) (by omega)
    · intro r hscan
      unfold underground special_scan
      simp only
      rw [if_pos hreach.1, if_pos hreach.2.1, if_pos hreach.2.2, hscan]
  · intro hw
    have hid : state.blocks x y z ≠ 8 ∧ state.blocks x y z ≠ 11 := by
      rcases hw with h | h <;> rw [h] <;> exact ⟨by decide, by decide⟩
    refine ⟨?_, underground_ordinary_iff E state x y z hid⟩
    rw [← Option.not_isSome_iff_eq_none, underground_trace_reached]
    rintro ⟨_, _, h | h⟩
    · exact hid.1 h
    · exact hid.2 h

/-- Instances of the amended C37. The voxel of ID 8 in the top row of the surface
passes both checks: its column is scanned from row 6, where the scan meets sky light
and `underground` returns 0. The water voxel (ID 26) beside the lit air pocket is
decided without the column scan, and is not underground. -/
theorem column_scan_special_witness :
    (underground_trace (sample_externals surface_sky) grass_surface_state 5 5 5).2 =
      some [6] ∧
    underground (sample_externals surface_sky) grass_surface_state 5 5 5 = false ∧
    (underground_trace (sample_externals pocket_sky) water_pocket_state 5 5 5).2 = none ∧
    underground (sample_externals pocket_sky) water_pocket_state 5 5 5 = false :=
  ⟨by decide,
   ((column_scan_special (sample_externals surface_sky) grass_surface_state 5 5 5).2.2.1
      [6] (by decide)).2.2 false (by decide),
   ((column_scan_special (sample_externals pocket_sky) water_pocket_state 5 5 5).2.2.2.2.2.2.2
      (Or.inl (by decide))).1,
   (((column_scan_special (sample_externals pocket_sky) water_pocket_state
      5 5 5).2.2.2.2.2.2.2 (Or.inl (by decide))).2).2 ⟨by decide, by decide, by decide⟩⟩

/-! ## Lemmas on the reads of the block classifier -/

/-- Every load of a vector phase started at a multiple of `w` starts at a multiple
of `w` and ends inside the first `len` elements. -/
theorem vector_phase_loads_bounds (w : Nat) (hw : 0 < w) (block : mc_block_t)
    (C : List mc_block_t) (len : Nat) :
    ∀ fuel i, i % w = 0 →
      ∀ j ∈ vector_phase_loads w block C len fuel i, j % w = 0 ∧ i ≤ j ∧ j + w ≤ len := by
  intro fuel
  induction fuel with
  | zero =>
    intro i _ j hj
    simp [vector_phase_loads] at hj
  | succ n ih =>
    intro i hi j hj
    rw [vector_phase_loads] at hj
    by_cases hc : i / w < len / w
    · have hfit := block_fits hi hc
      rw [if_pos hc] at hj
      by_cases hl : lanes_hit block C i w = true
      · rw [if_pos hl, List.mem_singleton] at hj
        subst hj
        exact ⟨hi, le_refl _, hfit⟩
      · rw [if_neg hl] at hj
        rcases List.mem_cons.1 hj with rfl | hj'
        · exact ⟨hi, le_refl _, hfit⟩
        · have hmod : (i + w) % w = 0 := by rw [Nat.add_mod_right]; exact hi
          obtain ⟨a1, a2, a3⟩ := ih (i + w) hmod j hj'
          exact ⟨a1, by omega, a3⟩
    · rw [if_neg hc] at hj
      cases hj

/-- A vector phase without a hit examines every index from its start to the index
at which it leaves the loop, each once. -/
theorem vector_phase_loads_cover (w : Nat) (hw : 0 < w) (block : mc_block_t)
    (C : List mc_block_t) (len : Nat) :
    ∀ fuel i, (vector_phase w block C len fuel i).1 = false →
      i ≤ (vector_phase w block C len fuel i).2 ∧
      covered w (vector_phase_loads w block C len fuel i) =
        List.range' i ((vector_phase w block C len fuel i).2 - i) := by
  intro fuel
  induction fuel with
  | zero =>
    intro i _
    simp [vector_phase, vector_phase_loads, covered]
  | succ n ih =>
    intro i hr
    rw [vector_phase] at hr ⊢
    rw [vector_phase_loads]
    by_cases hc : i / w < len / w
    · rw [if_pos hc] at hr ⊢
      rw [if_pos hc]
      by_cases hl : lanes_hit block C i w = true
      · rw [if_pos hl] at hr
        cases hr
      · rw [if_neg hl] at hr ⊢
        rw [if_neg hl]
        obtain ⟨h1, h2⟩ := ih (i + w) hr
        refine ⟨by omega, ?_⟩
        rw [covered, h2, List.range'_append_1]
        congr 1
        omega
    · rw [if_neg hc, if_neg hc]
      simp [covered]

/-- The scalar loop reads only indices below `len`. -/
theorem scalar_phase_reads_bounds (block : mc_block_t) (C : List mc_block_t) (len : Nat) :
    ∀ fuel i, ∀ j ∈ scalar_phase_reads block C len fuel i, i ≤ j ∧ j < len := by
  intro fuel
  induction fuel with
  | zero =>
    intro i j hj
    simp [scalar_phase_reads] at hj
  | succ n ih =>
    intro i j hj
    rw [scalar_phase_reads] at hj
    by_cases hc : i < len
    · rw [if_pos hc] at hj
      by_cases he : (C[i]? == some block) = true
      · rw [if_pos he, List.mem_singleton] at hj
        subst hj
        exact ⟨le_refl _, hc⟩
      · rw [if_neg he] at hj
        rcases List.mem_cons.1 hj with rfl | hj'
        · exact ⟨le_refl _, hc⟩
        · obtain ⟨a1, a2⟩ := ih (i + 1) j hj'
          exact ⟨by omega, a2⟩
    · rw [if_neg hc] at hj
      cases hj

/-- A scalar loop without a match reads every index from its start up to `len`,
each once. -/
theorem scalar_phase_reads_cover (block : mc_block_t) (C : List mc_block_t) (len : Nat) :
    ∀ fuel i, len - i ≤ fuel → scalar_phase block C len fuel i = false →
      scalar_phase_reads block C len fuel i = List.range' i (len - i) := by
  intro fuel
  induction fuel with
  | zero =>
    intro i hf _
    have h0 : len - i = 0 := by omega
    rw [h0]
    rfl
  | succ n ih =>
    intro i hf hr
    rw [scalar_phase] at hr
    rw [scalar_phase_reads]
    by_cases hc : i < len
    · rw [if_pos hc] at hr ⊢
      by_cases he : (C[i]? == some block) = true
      · rw [if_pos he] at hr
        cases hr
      · rw [if_neg he] at hr ⊢
        rw [ih (i + 1) (by omega) hr, show len - i = (len - (i + 1)) + 1 by omega,
          List.range'_succ]
    · rw [if_neg hc]
      have h0 : len - i = 0 := by omega
      rw [h0]
      rfl

/-- The loads of an optional vector phase: bounds, and coverage when there is no
hit. -/
theorem optional_phase_loads (enabled : Bool) (w : Nat) (hw : 0 < w) (block : mc_block_t)
    (C : List mc_block_t) (len i : Nat) (hi : i % w = 0) :
    (∀ j ∈ (if enabled then vector_phase_loads w block C len len i else []),
      j % w = 0 ∧ j + w ≤ len) ∧
    ((if enabled then vector_phase w block C len len i else (false, i)).1 = false →
      i ≤ (if enabled then vector_phase w block C len len i else (false, i)).2 ∧
      covered w (if enabled then vector_phase_loads w block C len len i else []) =
        List.range' i ((if enabled then vector_phase w block C len len i else (false, i)).2 - i)) := by
  cases enabled
  · simp [covered]
  · simp only [if_true]
    refine ⟨fun j hj => ?_, vector_phase_loads_cover w hw block C len len i⟩
    obtain ⟨a1, _, a3⟩ := vector_phase_loads_bounds w hw block C len len i hi j hj
    exact ⟨a1, a3⟩

/-! ## The claim on the reads of the block classifier -/

/-- C34: `block_class_is_subset` never reads outside the first `len` elements of
the class array: every 8-wide load starts at a multiple of 8 with `i + 8 <= len`,
every 4-wide load starts at an index with `i + 4 <= len` (a multiple of 4), and the
scalar tail reads only indices `i < len`; when no element matches, the indices
examined by the three phases, taken in order, are 0, 1, ..., len - 1, each once. -/
theorem block_class_reads_in_bounds (sse2 mmx : Bool) (b : mc_block_t) (C : List mc_block_t)
    (len : Nat) :
    (∀ i ∈ sse2_loads sse2 b C len, i % 8 = 0 ∧ i + 8 ≤ len) ∧
    (∀ i ∈ mmx_loads sse2 mmx b C len, i % 4 = 0 ∧ i + 4 ≤ len) ∧
    (∀ i ∈ scalar_reads sse2 mmx b C len, i < len) ∧
    (block_class_is_subset sse2 mmx b C len = false →
      covered 8 (sse2_loads sse2 b C len) ++ covered 4 (mmx_loads sse2 mmx b C len) ++
        scalar_reads sse2 mmx b C len = List.range len) := by
  unfold sse2_loads mmx_loads scalar_reads block_class_is_subset
  simp only
  obtain ⟨_, s2⟩ := optional_phase_spec sse2 8 (by decide) b C len 0 (by simp) (Nat.zero_le _)
  obtain ⟨l1, l2⟩ := optional_phase_loads sse2 8 (by decide) b C len 0 (by simp)
  generalize (if sse2 = true then vector_phase 8 b C len len 0 else (false, 0)) = p1
    at s2 l2 ⊢
  generalize (if sse2 = true then vector_phase_loads 8 b C len len 0 else []) = L1
    at l1 l2 ⊢
  obtain ⟨f1, i1⟩ := p1
  cases f1
  · obtain ⟨_, a2, a3, _⟩ := s2 rfl
    obtain ⟨_, c1⟩ := l2 rfl
    simp only at a2 a3 c1
    simp only [Bool.false_eq_true, if_false]
    obtain ⟨_, t2⟩ := optional_phase_spec mmx 4 (by decide) b C len i1 (by omega) a2
    obtain ⟨m1, m2⟩ := optional_phase_loads mmx 4 (by decide) b C len i1 (by omega)
    generalize (if mmx = true then vector_phase 4 b C len len i1 else (false, i1)) = p2
      at t2 m2 ⊢
    generalize (if mmx = true then vector_phase_loads 4 b C len len i1 else []) = L2
      at m1 m2 ⊢
    obtain ⟨f2, i2⟩ := p2
    cases f2
    · obtain ⟨b1, b2, _, _⟩ := t2 rfl
      obtain ⟨_, c2⟩ := m2 rfl
      simp only at b1 b2 c2
      simp only [Bool.false_eq_true, if_false]
      refine ⟨l1, m1, fun i hi => (scalar_phase_reads_bounds b C len len i2 i hi).2, ?_⟩
      intro hr
      have e1 : List.range' 0 i1 ++ List.range' i1 (i2 - i1) = List.range' 0 i2 := by
        have h := List.range'_append_1 0 i1 (i2 - i1)
        rw [Nat.zero_add] at h
        rw [h]
        congr 1
        omega
      have e2 : List.range' 0 i2 ++ List.range' i2 (len - i2) = List.range' 0 len := by
        have h := List.range'_append_1 0 i2 (len - i2)
        rw [Nat.zero_add] at h
        rw [h]
        congr 1
        omega
      rw [c1, c2, scalar_phase_reads_cover b C len len i2 (by omega) hr, Nat.sub_zero, e1, e2,
        List.range_eq_range']
    · simp only [if_true]
      refine ⟨l1, m1, ?_, ?_⟩
      · intro i hi
        cases hi
      · intro h
        cases h
  · simp only [if_true]
    refine ⟨l1, ?_, ?_, ?_⟩
    · intro i hi
      cases hi
    · intro i hi
      cases hi
    · intro h
      cases h

/-! ## The claims on the blend range, the rule table and the slab classes -/

/-- C33: for every shading strength in [0,1] and every four samples in 0..255, the
sum of the samples and the blended sum stay in 0..1020 (the blended sum is not below
the sum of the samples), and the corner channel value, the blended sum divided by 4,
lies in 0..255, so that the store into the `uint8_t` corner arrays changes nothing.
With exact arithmetic the blended sum is the integer part of
`sum + (1020 - sum) * (1 - strength)`. This holds for every rounding of the `float`
operations that is monotone and exact on the integers up to 1020. -/
theorem shade_channel_in_range (rnd_sub rnd : ℚ → ℚ)
    (hsub : Monotone rnd_sub) (hsub0 : rnd_sub 0 = 0) (hsub1 : rnd_sub 1 = 1)
    (hmono : Monotone rnd) (hexact : ∀ n : Nat, n ≤ 1020 → rnd (n : ℚ) = (n : ℚ))
    (a0 a1 a2 a3 : Nat) (h0 : a0 ≤ 255) (h1 : a1 ≤ 255) (h2 : a2 ≤ 255) (h3 : a3 ≤ 255)
    (s : ℚ) (hs0 : 0 ≤ s) (hs1 : s ≤ 1) :
    a0 + a1 + a2 + a3 ≤ 1020 ∧
    a0 + a1 + a2 + a3 ≤ blend_rounded rnd (rnd_sub (1 - s)) (a0 + a1 + a2 + a3) ∧
    blend_rounded rnd (rnd_sub (1 - s)) (a0 + a1 + a2 + a3) ≤ 1020 ∧
    blend_rounded rnd (rnd_sub (1 - s)) (a0 + a1 + a2 + a3) / 4 ≤ 255 ∧
    shade_channel_rounded rnd_sub rnd s a0 a1 a2 a3 =
      blend_rounded rnd (rnd_sub (1 - s)) (a0 + a1 + a2 + a3) / 4 ∧
    shade_channel_rounded rnd_sub rnd s a0 a1 a2 a3 ≤ 255 ∧
    blend_rounded id (1 - s) (a0 + a1 + a2 + a3) =
      ⌊((a0 + a1 + a2 + a3 : Nat) : ℚ) +
        (1020 - ((a0 + a1 + a2 + a3 : Nat) : ℚ)) * (1 - s)⌋.toNat := by
  have hg : (a0 + a1 + a2 + a3) % 4294967296 = a0 + a1 + a2 + a3 := by omega
  have hle : a0 + a1 + a2 + a3 ≤ 1020 := by omega
  have hc0 : 0 ≤ rnd_sub (1 - s) := by
    have h := hsub (show (0 : ℚ) ≤ 1 - s by linarith)
    rw [hsub0] at h
    exact h
  have hc1 : rnd_sub (1 - s) ≤ 1 := by
    have h := hsub (show 1 - s ≤ (1 : ℚ) by linarith)
    rw [hsub1] at h
    exact h
  obtain ⟨b1, _, b3⟩ := blend_rounded_bounds rnd hmono hexact (a0 + a1 + a2 + a3) hle
    (rnd_sub (1 - s)) (rnd_sub (1 - s)) hc0 (le_refl _) hc1
  obtain ⟨_, _, e3⟩ := blend_rounded_bounds id monotone_id (fun _ _ => rfl)
    (a0 + a1 + a2 + a3) hle (1 - s) (1 - s) (by linarith) (le_refl _) (by linarith)
  have hval : shade_channel_rounded rnd_sub rnd s a0 a1 a2 a3 =
      blend_rounded rnd (rnd_sub (1 - s)) (a0 + a1 + a2 + a3) / 4 := by
    unfold shade_channel_rounded
    simp only [hg]
    omega
  refine ⟨hle, b1, b3, by omega, hval, by omega, ?_⟩
  have hd : (4294967296 + 255 * 4 - (a0 + a1 + a2 + a3)) % 4294967296 =
      1020 - (a0 + a1 + a2 + a3) := by omega
  have hdq : (((1020 - (a0 + a1 + a2 + a3) : Nat) : ℚ)) =
      1020 - ((a0 + a1 + a2 + a3 : Nat) : ℚ) := by
    rw [Nat.cast_sub hle]
    norm_num
  have hform : blend_rounded id (1 - s) (a0 + a1 + a2 + a3) =
      ⌊((a0 + a1 + a2 + a3 : Nat) : ℚ) +
        (1020 - ((a0 + a1 + a2 + a3 : Nat) : ℚ)) * (1 - s)⌋.toNat % 4294967296 := by
    unfold blend_rounded
    rw [hd, hdq]
    rfl
  have hgq : ((a0 + a1 + a2 + a3 : Nat) : ℚ) ≤ 1020 := by exact_mod_cast hle
  have hq : ((a0 + a1 + a2 + a3 : Nat) : ℚ) +
      (1020 - ((a0 + a1 + a2 + a3 : Nat) : ℚ)) * (1 - s) ≤ 1020 := by
    have hm : (1020 - ((a0 + a1 + a2 + a3 : Nat) : ℚ)) * (1 - s) ≤
        1020 - ((a0 + a1 + a2 + a3 : Nat) : ℚ) :=
      mul_le_of_le_one_right (by linarith) (by linarith)
    linarith
  have hfl : ⌊((a0 + a1 + a2 + a3 : Nat) : ℚ) +
      (1020 - ((a0 + a1 + a2 + a3 : Nat) : ℚ)) * (1 - s)⌋ ≤ 1020 := by
    have h := Int.floor_le (((a0 + a1 + a2 + a3 : Nat) : ℚ) +
      (1020 - ((a0 + a1 + a2 + a3 : Nat) : ℚ)) * (1 - s))
    have h' := le_trans h hq
    exact_mod_cast h'
  rw [hform]
  omega

/-- Instance of C33 with exact arithmetic, the samples 10, 20, 30, 40 and the
strength 1/2. -/
theorem shade_channel_in_range_witness :
    shade_channel_rounded id id (1 / 2) 10 20 30 40 ≤ 255 ∧
    10 + 20 + 30 + 40 ≤ blend_rounded id (id (1 - 1 / 2)) (10 + 20 + 30 + 40) ∧
    blend_rounded id (id (1 - 1 / 2)) (10 + 20 + 30 + 40) ≤ 1020 :=
  ⟨(shade_channel_in_range id id monotone_id rfl rfl monotone_id (fun _ _ => rfl)
      10 20 30 40 (by decide) (by decide) (by decide) (by decide) (1 / 2)
      (by norm_num) (by norm_num)).2.2.2.2.2.1,
   (shade_channel_in_range id id monotone_id rfl rfl monotone_id (fun _ _ => rfl)
      10 20 30 40 (by decide) (by decide) (by decide) (by decide) (1 / 2)
      (by norm_num) (by norm_num)).2.1,
   (shade_channel_in_range id id monotone_id rfl rfl monotone_id (fun _ _ => rfl)
      10 20 30 40 (by decide) (by decide) (by decide) (by decide) (1 / 2)
      (by norm_num) (by norm_num)).2.2.1⟩

/-- C35: in each of the three entries of `lighting_rules` and for each of the four
corners, the offsets `d1` and `d2` are unit axis vectors, orthogonal to each other
and to the face direction `(dx, dy, dz)`; the four corners of a face have pairwise
distinct diagonal offsets `d1 + d2`; the sample offsets of a face are exactly the
nine offsets with components in -1..1 that are orthogonal to the face direction:
the face-adjacent voxel and its eight in-plane neighbours. -/
theorem lighting_rules_geometry (state : RenderState) :
    (∀ f : Fin 3, ∀ i : Fin 4,
      ((lighting_rules f).corners i).dx1.natAbs + ((lighting_rules f).corners i).dy1.natAbs +
        ((lighting_rules f).corners i).dz1.natAbs = 1 ∧
      ((lighting_rules f).corners i).dx2.natAbs + ((lighting_rules f).corners i).dy2.natAbs +
        ((lighting_rules f).corners i).dz2.natAbs = 1 ∧
      ((lighting_rules f).corners i).dx1 * ((lighting_rules f).corners i).dx2 +
        ((lighting_rules f).corners i).dy1 * ((lighting_rules f).corners i).dy2 +
        ((lighting_rules f).corners i).dz1 * ((lighting_rules f).corners i).dz2 = 0 ∧
      ((lighting_rules f).corners i).dx1 * (lighting_rules f).dx +
        ((lighting_rules f).corners i).dy1 * (lighting_rules f).dy +
        ((lighting_rules f).corners i).dz1 * (lighting_rules f).dz = 0 ∧
      ((lighting_rules f).corners i).dx2 * (lighting_rules f).dx +
        ((lighting_rules f).corners i).dy2 * (lighting_rules f).dy +
        ((lighting_rules f).corners i).dz2 * (lighting_rules f).dz = 0) ∧
    (∀ f : Fin 3, ∀ i j : Fin 4, i ≠ j →
      sample_offset (lighting_rules f) i 3 ≠ sample_offset (lighting_rules f) j 3) ∧
    (∀ f : Fin 3, ∀ o ∈ sample_offsets (lighting_rules f), o ∈ cube_offsets) ∧
    (∀ f : Fin 3, ∀ o ∈ cube_offsets,
      (o ∈ sample_offsets (lighting_rules f) ↔
        o.1 * (lighting_rules f).dx + o.2.1 * (lighting_rules f).dy +
          o.2.2 * (lighting_rules f).dz = 0)) ∧
    (∀ f : Fin 3, ∀ i k : Fin 4,
      sample_point state (lighting_rules f) i k =
        (state.x + (lighting_rules f).dx + (sample_offset (lighting_rules f) i k).1,
         state.y + (lighting_rules f).dy + (sample_offset (lighting_rules f) i k).2.1,
         state.z + (lighting_rules f).dz + (sample_offset (lighting_rules f) i k).2.2)) := by
  refine ⟨by decide, by decide, by decide, by decide, ?_⟩
  intro f i k
  fin_cases k <;> simp [sample_point, sample_offset, add_assoc]

/-- C36: in each entry of `lighting_rules` the image offsets of the corners lie in
0..24 and the corners form a parallelogram, corner 0 + corner 2 = corner 1 +
corner 3 componentwise; the top face has the edge (0,6)-(12,12) in common with the
left face and the edge (24,6)-(12,12) with the right face, and the left and right
faces have the edge (12,12)-(12,24) in common; the two triangles drawn for a face
that is not occluded are those of corners (0,1,2) and (0,2,3), with the diagonal from
corner 0 to corner 2 in common. -/
theorem lighting_rules_image_geometry (X : LightingExternals)
    (self : RenderPrimitiveSmoothLightingHideUnderground) (state : RenderState) :
    (∀ f : Fin 3, ∀ i : Fin 4,
      0 ≤ ((lighting_rules f).corners i).imgx ∧ ((lighting_rules f).corners i).imgx ≤ 24 ∧
      0 ≤ ((lighting_rules f).corners i).imgy ∧ ((lighting_rules f).corners i).imgy ≤ 24) ∧
    (∀ f : Fin 3,
      ((lighting_rules f).corners 0).imgx + ((lighting_rules f).corners 2).imgx =
        ((lighting_rules f).corners 1).imgx + ((lighting_rules f).corners 3).imgx ∧
      ((lighting_rules f).corners 0).imgy + ((lighting_rules f).corners 2).imgy =
        ((lighting_rules f).corners 1).imgy + ((lighting_rules f).corners 3).imgy) ∧
    ((((lighting_rules FACE_TOP).corners 0).imgx, ((lighting_rules FACE_TOP).corners 0).imgy)
        = (0, 6) ∧
      (((lighting_rules FACE_LEFT).corners 1).imgx, ((lighting_rules FACE_LEFT).corners 1).imgy)
        = (0, 6) ∧
      (((lighting_rules FACE_TOP).corners 3).imgx, ((lighting_rules FACE_TOP).corners 3).imgy)
        = (12, 12) ∧
      (((lighting_rules FACE_LEFT).corners 2).imgx, ((lighting_rules FACE_LEFT).corners 2).imgy)
        = (12, 12)) ∧
    ((((lighting_rules FACE_TOP).corners 2).imgx, ((lighting_rules FACE_TOP).corners 2).imgy)
        = (24, 6) ∧
      (((lighting_rules FACE_RIGHT).corners 0).imgx,
        ((lighting_rules FACE_RIGHT).corners 0).imgy) = (24, 6) ∧
      (((lighting_rules FACE_RIGHT).corners 1).imgx,
        ((lighting_rules FACE_RIGHT).corners 1).imgy) = (12, 12)) ∧
    ((((lighting_rules FACE_LEFT).corners 3).imgx, ((lighting_rules FACE_LEFT).corners 3).imgy)
        = (12, 24) ∧
      (((lighting_rules FACE_RIGHT).corners 2).imgx,
        ((lighting_rules FACE_RIGHT).corners 2).imgy) = (12, 24)) ∧
    (∀ f : Fin 3,
      X.lighting_is_face_occluded state false (state.x + (lighting_rules f).dx)
        (state.y + (lighting_rules f).dy) (state.z + (lighting_rules f).dz) = false →
      ∃ t1 t2 : TriangleCall,
        triangles (do_shading_with_rule X self state (lighting_rules f)) = [t1, t2] ∧
        t1.v0 = corner_vertex X self.parent state (lighting_rules f) 0 ∧
        t1.v1 = corner_vertex X self.parent state (lighting_rules f) 1 ∧
        t1.v2 = corner_vertex X self.parent state (lighting_rules f) 2 ∧
        t2.v0 = corner_vertex X self.parent state (lighting_rules f) 0 ∧
        t2.v1 = corner_vertex X self.parent state (lighting_rules f) 2 ∧
        t2.v2 = corner_vertex X self.parent state (lighting_rules f) 3) := by
  refine ⟨by decide, by decide, by decide, by decide, by decide, ?_⟩
  intro f hocc
  rw [do_shading_with_rule_triangles_eq, if_neg (by rw [hocc]; decide)]
  exact ⟨_, _, rfl, rfl, rfl, rfl, rfl, rfl, rfl⟩

/-- C38: the alt-height class and the slab class have identical membership, whatever
values the enumerators have: `block_class_is_subset(b, block_class_alt_height,
block_class_alt_height_len)` equals `block_class_is_subset(b, block_class_slab,
block_class_slab_len)` for every block ID `b`; the two arrays list the same 40
enumerators in the same order, and the two lengths are equal. -/
theorem alt_height_class_eq_slab (sse2 mmx : Bool) (ids : block_name → mc_block_t)
    (b : mc_block_t) :
    block_class_is_subset sse2 mmx b (block_class_alt_height.map ids)
        block_class_alt_height_len =
      block_class_is_subset sse2 mmx b (block_class_slab.map ids) block_class_slab_len ∧
    block_class_alt_height_len = block_class_slab_len ∧
    block_class_alt_height_len = 40 ∧
    block_class_alt_height = block_class_slab := by
  have h : block_class_alt_height = block_class_slab := by decide
  refine ⟨?_, by decide, by decide, h⟩
  unfold block_class_alt_height_len block_class_slab_len
  rw [h]

end Overviewer
